import Mathlib

/-!
# Swapchain lifecycle and frame submission of the Vulkan quad demo

A shallow embedding of `src/Simulation.cpp`: the members of `class Simulation`
that the swapchain code reads and writes, a scripted driver standing for the
Vulkan implementation and the window system, and the member functions
`choose_swapchain_extent`, `setup_framebuffer`, `setup_render_pass`,
`create_pipeline`, `create_framebuffer`, `create_command_buffers`,
`cleanup_swapchain`, `rebuild_swapchain` and `draw_frame` as state
transformers that log every driver call they make.
-/

namespace VulkanTriangle

/-! ## Vulkan vocabulary -/

/-- Vulkan object handle; the value 0 is VK_NULL_HANDLE. -/
abbrev Handle := Nat

/-- Null handle of the Vulkan API. -/
def VK_NULL_HANDLE : Handle := 0

/-- Result code of a Vulkan entry point (the C enum VkResult, a signed 32-bit value). -/
abbrev VkResult := Int

/-- Command successfully completed. -/
def VK_SUCCESS : VkResult := 0
/-- A fence or query has not yet completed. -/
def VK_NOT_READY : VkResult := 1
/-- A wait operation has not completed in the specified time. -/
def VK_TIMEOUT : VkResult := 2
/-- The logical or physical device has been lost. -/
def VK_ERROR_DEVICE_LOST : VkResult := -4
/-- A surface is no longer available. -/
def VK_ERROR_SURFACE_LOST_KHR : VkResult := -1000000000
/-- The swapchain no longer matches the surface exactly but can still present. -/
def VK_SUBOPTIMAL_KHR : VkResult := 1000001003
/-- The surface has changed so that the swapchain is no longer compatible with it. -/
def VK_ERROR_OUT_OF_DATE_KHR : VkResult := -1000001004

/-- Value of `std::numeric_limits<uint32_t>::max()`. -/
def UINT32_MAX : Nat := 4294967295

/-- Pipeline stage bit named in the wait-stage array of `draw_frame`. -/
def VK_PIPELINE_STAGE_COLOR_ATTACHMENT_OUTPUT_BIT : Nat := 1024

/-- Conversion `static_cast<uint32_t>(x)` of a C `int`. -/
def to_uint32 (x : Int) : Nat := (x % 4294967296).toNat

/-- Two-dimensional extent, both fields `uint32_t`. -/
structure VkExtent2D where
  width : Nat
  height : Nat
  deriving DecidableEq, Repr

/-- The fields of `VkSurfaceCapabilitiesKHR` that the program reads for its decisions. -/
structure VkSurfaceCapabilitiesKHR where
  minImageCount : Nat
  currentExtent : VkExtent2D
  deriving DecidableEq, Repr

/-- Kinds of device objects the swapchain code creates and destroys. -/
inductive Res where
  | swapchain
  | image_view
  | render_pass
  | shader_module
  | descriptor_set_layout
  | pipeline_layout
  | pipeline
  | framebuffer
  | command_pool
  | command_buffers
  | semaphore
  | descriptor_pool
  | descriptor_sets
  | buffer
  deriving DecidableEq, Repr

/-- The `std::vector` members that are indexed with `operator[]`. -/
inductive Vec where
  | m_swap_chain_images
  | m_swap_chain_views
  | m_framebuffers
  | m_command_buffers
  | m_descriptor_sets
  /-- Member `m_extensions` of `ExtensionSet`. -/
  | m_extensions
  /-- Array `memoryTypes` of `VkPhysicalDeviceMemoryProperties` (32 entries). -/
  | memoryTypes
  deriving DecidableEq, Repr

/-- One `throw std::runtime_error(...)` site of the swapchain and frame code. -/
inductive Exn where
  /-- Message "Failed to create swapchain!" (setup_framebuffer). -/
  | SwapchainCreationFailed
  /-- Message "Failed to create image view!" (setup_framebuffer). -/
  | ImageViewCreationFailed
  /-- Message "Failed to create render pass!" (setup_render_pass). -/
  | RenderPassCreationFailed
  /-- Message "Unable to create shader module!" (make_shader_module). -/
  | ShaderModuleCreationFailed
  /-- Message "failed to create descriptor set layout!" (create_pipeline). -/
  | DescriptorSetLayoutCreationFailed
  /-- Message "Failed to create pipeline layout!" (create_pipeline). -/
  | PipelineLayoutCreationFailed
  /-- Message "Failed to create pipeline!" (create_pipeline). -/
  | PipelineCreationFailed
  /-- Message "Failed to create a framebuffer!" (create_framebuffer). -/
  | FramebufferCreationFailed
  /-- Message "Failed to create command pool!" (create_command_pool). -/
  | CommandPoolCreationFailed
  /-- Message "Failed to allocate command buffers!" (create_command_buffers). -/
  | CommandBufferAllocationFailed
  /-- Message "Failed to begin recording command buffer!" (create_command_buffers). -/
  | BeginCommandBufferFailed
  /-- Message "failed to record command buffer!" (create_command_buffers). -/
  | EndCommandBufferFailed
  /-- Message "Failed to create semaphore!" (create_semaphores). -/
  | SemaphoreCreationFailed
  /-- Message "failed to create descriptor pool!" (create_descriptor_pool). -/
  | DescriptorPoolCreationFailed
  /-- Message "failed to allocate descriptor sets!" (create_descriptor_set). -/
  | DescriptorSetAllocationFailed
  /-- Message "Failed to acquire swap image!" (draw_frame). -/
  | AcquireFailed
  /-- Message "failed to submit draw command buffer!" (draw_frame). -/
  | SubmitFailed
  /-- Message "failed to find suitable memory type!" (select_memory_type). -/
  | NoSuitableMemoryType
  /-- Message "Not all required extensions are supported!" (get_instance_extensions). -/
  | ExtensionsNotSupported
  deriving DecidableEq, Repr

/-- Ways in which a member function stops before its last statement. -/
inductive Abort where
  /-- A `std::runtime_error` left the function. -/
  | exception (e : Exn)
  /-- A `std::vector` was indexed at or beyond its size (undefined behaviour in C++). -/
  | out_of_bounds (vector : Vec) (index size : Nat)
  deriving DecidableEq, Repr

/-- One call that reached the driver or the window system, with its arguments and answer. -/
inductive Event where
  /-- Marker: `update_ubo` wrote the uniform block computed from this extent. -/
  | update_ubo (extent : VkExtent2D)
  /-- Call of `vkGetPhysicalDeviceSurfaceCapabilitiesKHR`. -/
  | get_surface_capabilities (caps : VkSurfaceCapabilitiesKHR)
  /-- Call of `glfwGetFramebufferSize`. -/
  | get_framebuffer_size (width height : Int)
  /-- Call of `vkCreateSwapchainKHR`. -/
  | create_swapchain (minImageCount : Nat) (imageExtent : VkExtent2D) (result : VkResult)
      (handle : Handle)
  /-- The two calls of `vkGetSwapchainImagesKHR`: `count` images starting at handle `first`. -/
  | get_swapchain_images (swapchain : Handle) (first : Handle) (count : Nat)
  /-- Call of a `vkCreate*` function for one object. -/
  | create (kind : Res) (result : VkResult) (handle : Handle)
  /-- Call of a `vkAllocate*` function for `count` objects starting at handle `first`. -/
  | allocate (kind : Res) (count : Nat) (result : VkResult) (first : Handle)
  /-- Call of a `vkDestroy*` function. -/
  | destroy (kind : Res) (handle : Handle)
  /-- Call of `vkBeginCommandBuffer`. -/
  | begin_command_buffer (cb : Handle) (result : VkResult)
  /-- The `vkCmd*` calls recorded between begin and end. -/
  | record (cb framebuffer descriptor_set : Handle)
  /-- Call of `vkEndCommandBuffer`. -/
  | end_command_buffer (cb : Handle) (result : VkResult)
  /-- Call of `vkDeviceWaitIdle`. -/
  | device_wait_idle
  /-- Call of `vkQueueWaitIdle`. -/
  | queue_wait_idle (queue : Handle)
  /-- Call of `glfwPollEvents`. -/
  | poll_events
  /-- Call of `glfwWindowShouldClose`. -/
  | window_should_close (answer : Bool)
  /-- Marker: `rebuild_swapchain` was entered. -/
  | rebuild_swapchain
  /-- Call of `vkAcquireNextImageKHR`. -/
  | acquire (swapchain semaphore : Handle) (result : VkResult) (image_idx : Nat)
  /-- Call of `vkQueueSubmit` with one command buffer, one wait and one signal semaphore. -/
  | submit (queue cb wait : Handle) (stage : Nat) (signal : Handle) (result : VkResult)
  /-- Call of `vkQueuePresentKHR` with one swapchain and one wait semaphore. -/
  | present (queue swapchain : Handle) (image_idx : Nat) (wait : Handle) (result : VkResult)
  deriving DecidableEq, Repr

/-- Scripted answers of the Vulkan implementation and the window system: the
answer to the n-th call (counted from 0) of each entry point. -/
structure Driver where
  /-- Answer of `vkGetPhysicalDeviceSurfaceCapabilitiesKHR`. -/
  surface_capabilities : Nat → VkSurfaceCapabilitiesKHR
  /-- Answer of `glfwGetFramebufferSize`. -/
  framebuffer_size : Nat → Int × Int
  /-- Result of the n-th creation or allocation call for a kind of object. -/
  create : Res → Nat → VkResult
  /-- Number of images the driver made for the n-th swapchain queried. -/
  swapchain_images : Nat → Nat
  /-- Result of `vkBeginCommandBuffer`. -/
  begin_command_buffer : Nat → VkResult
  /-- Result of `vkEndCommandBuffer`. -/
  end_command_buffer : Nat → VkResult
  /-- Result and image index of `vkAcquireNextImageKHR`. -/
  acquire : Nat → VkResult × Nat
  /-- Result of `vkQueueSubmit`. -/
  submit : Nat → VkResult
  /-- Result of `vkQueuePresentKHR`. -/
  present : Nat → VkResult
  /-- Answer of `glfwWindowShouldClose`. -/
  window_should_close : Nat → Bool
  /-- Whether the n-th `glfwPollEvents` delivers a window-size event. -/
  resize_event : Nat → Bool

/-- The members of `class Simulation` used by the swapchain and frame code,
followed by the bookkeeping of the scripted device. -/
structure State where
  m_swapchain_size : VkExtent2D
  m_was_resized : Bool
  m_swapchain : Handle
  m_queue : Handle
  m_present_queue : Handle
  m_render_pass : Handle
  m_desc_set_layout : Handle
  m_pipeline_layout : Handle
  m_pipeline : Handle
  m_command_pool : Handle
  m_descriptor_pool : Handle
  m_image_available_semaphore : Handle
  m_render_finished_semaphore : Handle
  m_swap_chain_views : List Handle
  m_swap_chain_images : List Handle
  m_framebuffers : List Handle
  m_command_buffers : List Handle
  m_descriptor_sets : List Handle
  /-- Every call made so far, oldest first. -/
  trace : List Event
  /-- Objects created and not yet destroyed. -/
  live : List (Res × Handle)
  /-- Destroy calls on a non-null handle that was not live. -/
  faults : List (Res × Handle)
  /-- Next handle value the device hands out. -/
  fresh : Nat
  deriving DecidableEq, Repr

/-- How a member function ended, with the state it left behind. -/
inductive Outcome (α : Type) where
  | done (value : α) (s : State)
  | abort (e : Abort) (s : State)

/-- State in which a member function ended. -/
def Outcome.state {α : Type} : Outcome α → State
  | Outcome.done _ s => s
  | Outcome.abort _ s => s

/-- Abort reason, if the function did not run to its end. -/
def Outcome.failure {α : Type} : Outcome α → Option Abort
  | Outcome.done _ _ => none
  | Outcome.abort e _ => some e

/-- A member function: a state transformer that may abort. -/
def Sim (α : Type) : Type := State → Outcome α

/-- Return a value without touching the state. -/
def Sim.pure {α : Type} (a : α) : Sim α := fun s => Outcome.done a s

/-- Sequencing: an abort of the first part ends the whole. -/
def Sim.bind {α β : Type} (m : Sim α) (f : α → Sim β) : Sim β := fun s =>
  match m s with
  | Outcome.done a s1 => f a s1
  | Outcome.abort e s1 => Outcome.abort e s1

instance : Monad Sim where
  pure := Sim.pure
  bind := Sim.bind

/-- Leave with `throw std::runtime_error(...)`. -/
def raise {α : Type} (e : Exn) : Sim α := fun s => Outcome.abort (Abort.exception e) s

/-- Read the state. -/
def get_state : Sim State := fun s => Outcome.done s s

/-- Assign to members. -/
def update (f : State → State) : Sim Unit := fun s => Outcome.done () (f s)

/-- Log one call. -/
def emit (e : Event) : Sim Unit := fun s =>
  Outcome.done () { s with trace := s.trace ++ [e] }

/-- Element access `v[i]` of a `std::vector`. -/
def index (name : Vec) (v : List Handle) (i : Nat) : Sim Handle := fun s =>
  match v[i]? with
  | some h => Outcome.done h s
  | none => Outcome.abort (Abort.out_of_bounds name i v.length) s

/-- Call `v.resize(n)` of a `std::vector` of handles: keeps the first elements,
value-initialises the new ones. -/
def resize (v : List Handle) (n : Nat) : List Handle :=
  v.take n ++ List.replicate (n - v.length) VK_NULL_HANDLE

/-! ## Counting calls in the trace -/

/-- Is the event a capabilities query. -/
def Event.is_caps : Event → Bool
  | Event.get_surface_capabilities _ => true
  | _ => false

/-- Is the event a framebuffer-size query. -/
def Event.is_fbsize : Event → Bool
  | Event.get_framebuffer_size _ _ => true
  | _ => false

/-- Is the event a creation or allocation call for the kind. -/
def Event.is_create (kind : Res) : Event → Bool
  | Event.create k _ _ => k = kind
  | Event.allocate k _ _ _ => k = kind
  | Event.create_swapchain _ _ _ _ => kind = Res.swapchain
  | _ => false

/-- Is the event a swapchain image query. -/
def Event.is_images : Event → Bool
  | Event.get_swapchain_images _ _ _ => true
  | _ => false

/-- Is the event a `vkBeginCommandBuffer` call. -/
def Event.is_begin : Event → Bool
  | Event.begin_command_buffer _ _ => true
  | _ => false

/-- Is the event a `vkEndCommandBuffer` call. -/
def Event.is_end : Event → Bool
  | Event.end_command_buffer _ _ => true
  | _ => false

/-- Is the event a `vkAcquireNextImageKHR` call. -/
def Event.is_acquire : Event → Bool
  | Event.acquire _ _ _ _ => true
  | _ => false

/-- Is the event a `vkQueueSubmit` call. -/
def Event.is_submit : Event → Bool
  | Event.submit _ _ _ _ _ _ => true
  | _ => false

/-- Is the event a `vkQueuePresentKHR` call. -/
def Event.is_present : Event → Bool
  | Event.present _ _ _ _ _ => true
  | _ => false

/-- Is the event the entry of `rebuild_swapchain`. -/
def Event.is_rebuild : Event → Bool
  | Event.rebuild_swapchain => true
  | _ => false

/-- Is the event a `glfwPollEvents` call. -/
def Event.is_poll : Event → Bool
  | Event.poll_events => true
  | _ => false

/-- Is the event a `glfwWindowShouldClose` call. -/
def Event.is_should_close : Event → Bool
  | Event.window_should_close _ => true
  | _ => false

/-- Number of events of a class in a trace. -/
def count (p : Event → Bool) (s : State) : Nat := s.trace.countP p

/-! ## Driver calls -/

/-- Call `vkGetPhysicalDeviceSurfaceCapabilitiesKHR`. -/
def get_surface_capabilities (d : Driver) : Sim VkSurfaceCapabilitiesKHR := fun s =>
  let caps := d.surface_capabilities (count Event.is_caps s)
  Outcome.done caps { s with trace := s.trace ++ [Event.get_surface_capabilities caps] }

/-- Call `glfwGetFramebufferSize`. -/
def get_framebuffer_size (d : Driver) : Sim (Int × Int) := fun s =>
  let size := d.framebuffer_size (count Event.is_fbsize s)
  Outcome.done size { s with trace := s.trace ++ [Event.get_framebuffer_size size.1 size.2] }

/-- Call of a `vkCreate*` function: on success a fresh live handle, otherwise no object. -/
def vk_create (d : Driver) (kind : Res) : Sim (VkResult × Handle) := fun s =>
  let result := d.create kind (count (Event.is_create kind) s)
  if result = VK_SUCCESS then
    Outcome.done (result, s.fresh)
      { s with trace := s.trace ++ [Event.create kind result s.fresh],
               live := s.live ++ [(kind, s.fresh)],
               fresh := s.fresh + 1 }
  else
    Outcome.done (result, VK_NULL_HANDLE)
      { s with trace := s.trace ++ [Event.create kind result VK_NULL_HANDLE] }

/-- Call `vkCreateSwapchainKHR` with the two create-info fields the program computes. -/
def vk_create_swapchain (d : Driver) (minImageCount : Nat) (imageExtent : VkExtent2D) :
    Sim (VkResult × Handle) := fun s =>
  let result := d.create Res.swapchain (count (Event.is_create Res.swapchain) s)
  if result = VK_SUCCESS then
    Outcome.done (result, s.fresh)
      { s with trace := s.trace ++ [Event.create_swapchain minImageCount imageExtent result s.fresh],
               live := s.live ++ [(Res.swapchain, s.fresh)],
               fresh := s.fresh + 1 }
  else
    Outcome.done (result, VK_NULL_HANDLE)
      { s with trace := s.trace ++
                 [Event.create_swapchain minImageCount imageExtent result VK_NULL_HANDLE] }

/-- Handles `first, first + 1, ..., first + n - 1`. -/
def handles (first n : Nat) : List Handle := (List.range n).map (fun i => first + i)

/-- Call of a `vkAllocate*` function for `n` objects: on success `n` fresh handles. -/
def vk_allocate (d : Driver) (kind : Res) (n : Nat) : Sim (VkResult × List Handle) := fun s =>
  let result := d.create kind (count (Event.is_create kind) s)
  if result = VK_SUCCESS then
    Outcome.done (result, handles s.fresh n)
      { s with trace := s.trace ++ [Event.allocate kind n result s.fresh],
               fresh := s.fresh + n }
  else
    Outcome.done (result, [])
      { s with trace := s.trace ++ [Event.allocate kind n result VK_NULL_HANDLE] }

/-- The two calls of `vkGetSwapchainImagesKHR`: the count, then the handles. -/
def get_swapchain_images (d : Driver) (swapchain : Handle) : Sim (List Handle) := fun s =>
  let n := d.swapchain_images (count Event.is_images s)
  Outcome.done (handles s.fresh n)
    { s with trace := s.trace ++ [Event.get_swapchain_images swapchain s.fresh n],
             fresh := s.fresh + n }

/-- Call of a `vkDestroy*` function. A null handle is ignored, a live handle
stops being live, any other handle is recorded as a fault. -/
def vk_destroy (kind : Res) (h : Handle) : Sim Unit := fun s =>
  let s1 := { s with trace := s.trace ++ [Event.destroy kind h] }
  if h = VK_NULL_HANDLE then Outcome.done () s1
  else if (kind, h) ∈ s.live then
    Outcome.done () { s1 with live := s.live.filter (fun x => x ≠ (kind, h)) }
  else Outcome.done () { s1 with faults := s.faults ++ [(kind, h)] }

/-- Call `vkBeginCommandBuffer`. -/
def vk_begin_command_buffer (d : Driver) (cb : Handle) : Sim VkResult := fun s =>
  let result := d.begin_command_buffer (count Event.is_begin s)
  Outcome.done result { s with trace := s.trace ++ [Event.begin_command_buffer cb result] }

/-- Call `vkEndCommandBuffer`. -/
def vk_end_command_buffer (d : Driver) (cb : Handle) : Sim VkResult := fun s =>
  let result := d.end_command_buffer (count Event.is_end s)
  Outcome.done result { s with trace := s.trace ++ [Event.end_command_buffer cb result] }

/-- Call `vkAcquireNextImageKHR` on the current swapchain, signalling `m_image_available_semaphore`. -/
def vk_acquire_next_image (d : Driver) : Sim (VkResult × Nat) := fun s =>
  let answer := d.acquire (count Event.is_acquire s)
  Outcome.done answer
    { s with trace := s.trace ++
               [Event.acquire s.m_swapchain s.m_image_available_semaphore answer.1 answer.2] }

/-- Call `vkQueueSubmit(m_queue, 1, &submit_info, VK_NULL_HANDLE)`. -/
def vk_queue_submit (d : Driver) (cb wait : Handle) (stage : Nat) (signal : Handle) :
    Sim VkResult := fun s =>
  let result := d.submit (count Event.is_submit s)
  Outcome.done result
    { s with trace := s.trace ++ [Event.submit s.m_queue cb wait stage signal result] }

/-- Call `vkQueuePresentKHR(m_present_queue, &presentInfo)`. -/
def vk_queue_present (d : Driver) (swapchain : Handle) (image_idx : Nat) (wait : Handle) :
    Sim VkResult := fun s =>
  let result := d.present (count Event.is_present s)
  Outcome.done result
    { s with trace := s.trace ++
               [Event.present s.m_present_queue swapchain image_idx wait result] }

/-! ## Member functions of `Simulation` -/

/-- Source `Simulation::choose_swapchain_extent` (Simulation.cpp 789-802). -/
def choose_swapchain_extent (d : Driver) : Sim VkExtent2D := do
  let surface_capabilities ← get_surface_capabilities d
  if surface_capabilities.currentExtent.width ≠ UINT32_MAX then
    return surface_capabilities.currentExtent
  else
    let (width, height) ← get_framebuffer_size d
    return { width := to_uint32 width, height := to_uint32 height }

/-- The loop `for(uint32_t i = 0; i < createInfo.minImageCount; ++i)` of
`setup_framebuffer` (Simulation.cpp 371-392), at index `i` with `todo` iterations left. -/
def setup_framebuffer_views (d : Driver) : Nat → Nat → Sim Unit
  | _, 0 => pure ()
  | i, todo + 1 => do
    let s ← get_state
    let _image ← index Vec.m_swap_chain_images s.m_swap_chain_images i
    let (result, view) ← vk_create d Res.image_view
    if result ≠ VK_SUCCESS then
      raise Exn.ImageViewCreationFailed
    else
      update fun s => { s with m_swap_chain_views := s.m_swap_chain_views.set i view }
      setup_framebuffer_views d (i + 1) todo

/-- Source `Simulation::setup_framebuffer` (Simulation.cpp 304-393). The format and
present-mode queries only feed the log output and are left out. -/
def setup_framebuffer (d : Driver) : Sim Unit := do
  let surface_capabilities ← get_surface_capabilities d
  let extent ← choose_swapchain_extent d
  update fun s => { s with m_swapchain_size := extent }
  let minImageCount := max surface_capabilities.minImageCount 3
  let (result, swapchain) ← vk_create_swapchain d minImageCount extent
  if result ≠ VK_SUCCESS then
    raise Exn.SwapchainCreationFailed
  else
    update fun s => { s with m_swapchain := swapchain }
    let images ← get_swapchain_images d swapchain
    update fun s => { s with m_swap_chain_images := images }
    update fun s => { s with m_swap_chain_views := resize s.m_swap_chain_views minImageCount }
    setup_framebuffer_views d 0 minImageCount

/-- Source `Simulation::setup_render_pass` (Simulation.cpp 574-614). -/
def setup_render_pass (d : Driver) : Sim Unit := do
  let (result, render_pass) ← vk_create d Res.render_pass
  if result ≠ VK_SUCCESS then
    raise Exn.RenderPassCreationFailed
  else
    update fun s => { s with m_render_pass := render_pass }

/-- Source `Simulation::make_shader_module` (Simulation.cpp 559-572). -/
def make_shader_module (d : Driver) : Sim Handle := do
  let (result, module) ← vk_create d Res.shader_module
  if result ≠ VK_SUCCESS then
    raise Exn.ShaderModuleCreationFailed
  else
    return module

/-- Source `Simulation::create_pipeline` (Simulation.cpp 395-544). The two shader files
it reads first (`load_shader_file`, lines 546-557) are taken to be present; reading
them makes no call to the driver. -/
def create_pipeline (d : Driver) : Sim Unit := do
  let vert_module ← make_shader_module d
  let frag_module ← make_shader_module d
  let (result, desc_set_layout) ← vk_create d Res.descriptor_set_layout
  if result ≠ VK_SUCCESS then
    raise Exn.DescriptorSetLayoutCreationFailed
  else
    update fun s => { s with m_desc_set_layout := desc_set_layout }
    let (result, pipeline_layout) ← vk_create d Res.pipeline_layout
    if result ≠ VK_SUCCESS then
      raise Exn.PipelineLayoutCreationFailed
    else
      update fun s => { s with m_pipeline_layout := pipeline_layout }
      let (result, pipeline) ← vk_create d Res.pipeline
      if result ≠ VK_SUCCESS then
        raise Exn.PipelineCreationFailed
      else
        update fun s => { s with m_pipeline := pipeline }
        vk_destroy Res.shader_module vert_module
        vk_destroy Res.shader_module frag_module

/-- The loop of `create_framebuffer` (Simulation.cpp 619-636), at index `i` with
`todo` iterations left. -/
def create_framebuffer_loop (d : Driver) : Nat → Nat → Sim Unit
  | _, 0 => pure ()
  | i, todo + 1 => do
    let s ← get_state
    let _view ← index Vec.m_swap_chain_views s.m_swap_chain_views i
    let (result, framebuffer) ← vk_create d Res.framebuffer
    if result ≠ VK_SUCCESS then
      raise Exn.FramebufferCreationFailed
    else
      update fun s => { s with m_framebuffers := s.m_framebuffers.set i framebuffer }
      create_framebuffer_loop d (i + 1) todo

/-- Source `Simulation::create_framebuffer` (Simulation.cpp 616-637). -/
def create_framebuffer (d : Driver) : Sim Unit := do
  update fun s => { s with m_framebuffers := resize s.m_framebuffers s.m_swap_chain_views.length }
  let s ← get_state
  create_framebuffer_loop d 0 s.m_framebuffers.length

/-- The recording loop of `create_command_buffers` (Simulation.cpp 663-699), at index
`i` with `todo` iterations left. -/
def create_command_buffers_loop (d : Driver) : Nat → Nat → Sim Unit
  | _, 0 => pure ()
  | i, todo + 1 => do
    let s ← get_state
    let cb ← index Vec.m_command_buffers s.m_command_buffers i
    let result ← vk_begin_command_buffer d cb
    if result ≠ VK_SUCCESS then
      raise Exn.BeginCommandBufferFailed
    else
      let framebuffer ← index Vec.m_framebuffers s.m_framebuffers i
      let descriptor_set ← index Vec.m_descriptor_sets s.m_descriptor_sets i
      emit (Event.record cb framebuffer descriptor_set)
      let result ← vk_end_command_buffer d cb
      if result ≠ VK_SUCCESS then
        raise Exn.EndCommandBufferFailed
      else
        create_command_buffers_loop d (i + 1) todo

/-- Source `Simulation::create_command_buffers` (Simulation.cpp 650-700). -/
def create_command_buffers (d : Driver) : Sim Unit := do
  update fun s => { s with m_command_buffers := resize s.m_command_buffers s.m_framebuffers.length }
  let s ← get_state
  let (result, command_buffers) ← vk_allocate d Res.command_buffers s.m_command_buffers.length
  if result ≠ VK_SUCCESS then
    raise Exn.CommandBufferAllocationFailed
  else
    update fun s => { s with m_command_buffers := command_buffers }
    create_command_buffers_loop d 0 s.m_command_buffers.length

/-- A range-for loop that destroys every handle of a vector, front to back. -/
def destroy_each (kind : Res) : List Handle → Sim Unit
  | [] => pure ()
  | h :: rest => do
    vk_destroy kind h
    destroy_each kind rest

/-- Source `Simulation::cleanup_swapchain` (Simulation.cpp 765-776). -/
def cleanup_swapchain : Sim Unit := do
  let s ← get_state
  destroy_each Res.framebuffer s.m_framebuffers
  vk_destroy Res.render_pass s.m_render_pass
  vk_destroy Res.pipeline_layout s.m_pipeline_layout
  vk_destroy Res.pipeline s.m_pipeline
  destroy_each Res.image_view s.m_swap_chain_views
  vk_destroy Res.swapchain s.m_swapchain

/-- Source `Simulation::rebuild_swapchain` (Simulation.cpp 778-787); its entry is logged. -/
def rebuild_swapchain (d : Driver) : Sim Unit := do
  emit Event.rebuild_swapchain
  emit Event.device_wait_idle
  cleanup_swapchain
  setup_framebuffer d
  setup_render_pass d
  create_pipeline d
  create_framebuffer d
  create_command_buffers d

/-- Source `Simulation::update_ubo` (Simulation.cpp 1009-1024): the uniform block is
computed from the clock and `m_swapchain_size` and copied to mapped memory. -/
def update_ubo : Sim Unit := do
  let s ← get_state
  emit (Event.update_ubo s.m_swapchain_size)

/-- One activation of `Simulation::draw_frame` (Simulation.cpp 702-751) up to its
return or to the call of itself at line 712: the value `true` says that the
activation ends with `draw_frame(); return;`. -/
def draw_frame_once (d : Driver) : Sim Bool := do
  update_ubo
  let (result, image_idx) ← vk_acquire_next_image d
  let s ← get_state
  if result = VK_ERROR_OUT_OF_DATE_KHR ∨ s.m_was_resized = true then
    rebuild_swapchain d
    update fun s => { s with m_was_resized := false }
    return true
  else if result ≠ VK_SUCCESS ∧ result ≠ VK_SUBOPTIMAL_KHR then
    raise Exn.AcquireFailed
  else
    let cb ← index Vec.m_command_buffers s.m_command_buffers image_idx
    let submit_result ← vk_queue_submit d cb s.m_image_available_semaphore
      VK_PIPELINE_STAGE_COLOR_ATTACHMENT_OUTPUT_BIT s.m_render_finished_semaphore
    if submit_result ≠ VK_SUCCESS then
      raise Exn.SubmitFailed
    else
      let _ ← vk_queue_present d s.m_swapchain image_idx s.m_render_finished_semaphore
      return false

/-- Source `Simulation::draw_frame` (Simulation.cpp 702-751). The function calls
itself after a rebuild; `fuel` bounds the depth of these calls and `none` means
that the bound was reached before the outermost call returned. -/
def draw_frame (d : Driver) : Nat → State → Option (Outcome Unit)
  | 0, _ => none
  | fuel + 1, s =>
    match draw_frame_once d s with
    | Outcome.done true s1 => draw_frame d fuel s1
    | Outcome.done false s1 => some (Outcome.done () s1)
    | Outcome.abort e s1 => some (Outcome.abort e s1)

/-- Source `Simulation::create_command_pool` (Simulation.cpp 639-648). -/
def create_command_pool (d : Driver) : Sim Unit := do
  let (result, command_pool) ← vk_create d Res.command_pool
  if result ≠ VK_SUCCESS then
    raise Exn.CommandPoolCreationFailed
  else
    update fun s => { s with m_command_pool := command_pool }

/-- Source `Simulation::create_semaphores` (Simulation.cpp 753-763). -/
def create_semaphores (d : Driver) : Sim Unit := do
  let (result, image_available) ← vk_create d Res.semaphore
  if result ≠ VK_SUCCESS then
    raise Exn.SemaphoreCreationFailed
  else
    update fun s => { s with m_image_available_semaphore := image_available }
    let (result, render_finished) ← vk_create d Res.semaphore
    if result ≠ VK_SUCCESS then
      raise Exn.SemaphoreCreationFailed
    else
      update fun s => { s with m_render_finished_semaphore := render_finished }

/-- Source `Simulation::create_descriptor_pool` (Simulation.cpp 1026-1040). -/
def create_descriptor_pool (d : Driver) : Sim Unit := do
  let (result, descriptor_pool) ← vk_create d Res.descriptor_pool
  if result ≠ VK_SUCCESS then
    raise Exn.DescriptorPoolCreationFailed
  else
    update fun s => { s with m_descriptor_pool := descriptor_pool }

/-- Source `Simulation::create_descriptor_set` (Simulation.cpp 1042-1074). The
`vkUpdateDescriptorSets` loop writes into the sets and changes no member. -/
def create_descriptor_set (d : Driver) : Sim Unit := do
  update fun s =>
    { s with m_descriptor_sets := resize s.m_descriptor_sets s.m_swap_chain_images.length }
  let s ← get_state
  let _first ← index Vec.m_descriptor_sets s.m_descriptor_sets 0
  let (result, descriptor_sets) ← vk_allocate d Res.descriptor_sets s.m_swap_chain_images.length
  if result ≠ VK_SUCCESS then
    raise Exn.DescriptorSetAllocationFailed
  else
    update fun s => { s with m_descriptor_sets := descriptor_sets }

/-- The part of `Simulation::setup_device` from `setup_framebuffer()` on
(Simulation.cpp 101-112). The buffer uploads `create_vbo`, `create_ibo` and
`create_ubo` write only `m_vbo`, `m_ibo`, `m_ubo` and their memory, which none of
the functions here reads; they are left out. -/
def setup_device (d : Driver) : Sim Unit := do
  setup_framebuffer d
  setup_render_pass d
  create_pipeline d
  create_framebuffer d
  create_command_pool d
  create_semaphores d
  create_descriptor_pool d
  create_descriptor_set d
  create_command_buffers d

/-- Source `Simulation::glfw_resize_callback` (Simulation.cpp 804-807). -/
def glfw_resize_callback : Sim Unit :=
  update fun s => { s with m_was_resized := true }

/-- Call `glfwPollEvents`: the window system runs the size callback when a
window-size event is pending. -/
def glfw_poll_events (d : Driver) : Sim Unit := do
  let s ← get_state
  emit Event.poll_events
  if d.resize_event (count Event.is_poll s) = true then
    glfw_resize_callback
  else
    pure ()

/-- Call `glfwWindowShouldClose`. -/
def glfw_window_should_close (d : Driver) : Sim Bool := fun s =>
  let answer := d.window_should_close (count Event.is_should_close s)
  Outcome.done answer { s with trace := s.trace ++ [Event.window_should_close answer] }

/-- Call `vkQueueWaitIdle(m_present_queue)`. -/
def vk_queue_wait_idle_present : Sim Unit := do
  let s ← get_state
  emit (Event.queue_wait_idle s.m_present_queue)

/-- The `while` loop of `Simulation::run` (Simulation.cpp 53-57). `fuel` bounds the
number of iterations, `depth` the depth of the calls of `draw_frame` to itself, and
`none` means that a bound was reached. -/
def run_loop (d : Driver) (depth : Nat) : Nat → State → Option (Outcome Unit)
  | 0, _ => none
  | fuel + 1, s =>
    match glfw_window_should_close d s with
    | Outcome.abort e s1 => some (Outcome.abort e s1)
    | Outcome.done true s1 => some (Outcome.done () s1)
    | Outcome.done false s1 =>
      match glfw_poll_events d s1 with
      | Outcome.abort e s2 => some (Outcome.abort e s2)
      | Outcome.done _ s2 =>
        match draw_frame d depth s2 with
        | none => none
        | some (Outcome.abort e s3) => some (Outcome.abort e s3)
        | some (Outcome.done _ s3) =>
          match vk_queue_wait_idle_present s3 with
          | Outcome.abort e s4 => some (Outcome.abort e s4)
          | Outcome.done _ s4 => run_loop d depth fuel s4

/-- Source `Simulation::run` (Simulation.cpp 49-60) from `setup_device()` on; the
window creation before it touches no member used here. -/
def run (d : Driver) (depth fuel : Nat) (s : State) : Option (Outcome Unit) :=
  match setup_device d s with
  | Outcome.abort e s1 => some (Outcome.abort e s1)
  | Outcome.done _ s1 =>
    match run_loop d depth fuel s1 with
    | none => none
    | some (Outcome.abort e s2) => some (Outcome.abort e s2)
    | some (Outcome.done _ s2) => some (emit Event.device_wait_idle s2)

/-- State of a `Simulation` when `setup_device` reaches `setup_framebuffer()`: the
vectors are empty, the resize flag is false, the device queue (handle 1) has been
fetched and no swapchain object exists yet. -/
def State.boot : State where
  m_swapchain_size := { width := 0, height := 0 }
  m_was_resized := false
  m_swapchain := VK_NULL_HANDLE
  m_queue := 1
  m_present_queue := 1
  m_render_pass := VK_NULL_HANDLE
  m_desc_set_layout := VK_NULL_HANDLE
  m_pipeline_layout := VK_NULL_HANDLE
  m_pipeline := VK_NULL_HANDLE
  m_command_pool := VK_NULL_HANDLE
  m_descriptor_pool := VK_NULL_HANDLE
  m_image_available_semaphore := VK_NULL_HANDLE
  m_render_finished_semaphore := VK_NULL_HANDLE
  m_swap_chain_views := []
  m_swap_chain_images := []
  m_framebuffers := []
  m_command_buffers := []
  m_descriptor_sets := []
  trace := []
  live := []
  faults := []
  fresh := 2


/-! ## Auxiliary notions for the proofs -/

/-- Value returned, if the function ran to its end. -/
def Outcome.value {α : Type} : Outcome α → Option α
  | Outcome.done a _ => some a
  | Outcome.abort _ _ => none

/-- State after the two calls every activation of `draw_frame` starts with. -/
def after_acquire (d : Driver) (s : State) : State :=
  { s with trace := s.trace ++ [Event.update_ubo s.m_swapchain_size,
      Event.acquire s.m_swapchain s.m_image_available_semaphore
        (d.acquire (count Event.is_acquire s)).1 (d.acquire (count Event.is_acquire s)).2] }

/-- Is the event a `vkDestroy*` call. -/
def Event.is_destroy : Event → Bool
  | Event.destroy _ _ => true
  | _ => false

/-- The calls made while building or tearing down the swapchain: queries, creations,
allocations, destructions, command-buffer recording and `vkDeviceWaitIdle`. They
exclude what `draw_frame` logs itself (uniform update, acquire, submit, present),
the entry marker of `rebuild_swapchain` and the calls of the loop of `run`. -/
def Event.quiet : Event → Bool
  | Event.get_surface_capabilities _ => true
  | Event.get_framebuffer_size _ _ => true
  | Event.create_swapchain _ _ _ _ => true
  | Event.get_swapchain_images _ _ _ => true
  | Event.create _ _ _ => true
  | Event.allocate _ _ _ _ => true
  | Event.destroy _ _ => true
  | Event.begin_command_buffer _ _ => true
  | Event.record _ _ _ => true
  | Event.end_command_buffer _ _ => true
  | Event.device_wait_idle => true
  | _ => false

/-- The calls the loop of `run` makes itself. -/
def Event.is_loop : Event → Bool
  | Event.poll_events => true
  | Event.window_should_close _ => true
  | Event.queue_wait_idle _ => true
  | _ => false

/-- The function only appends events of class `q` to the trace, however it ends. -/
def Emits {α : Type} (q : Event → Bool) (m : Sim α) : Prop :=
  ∀ s, ∃ evs, (m s).state.trace = s.trace ++ evs ∧ ∀ e ∈ evs, q e = true

/-- The function leaves the observation `g` of the state unchanged, however it ends. -/
def Keeps {α β : Type} (g : State → β) (m : Sim α) : Prop :=
  ∀ s, g (m s).state = g s

/-- The observation `g` reads members only, not the bookkeeping of the device. -/
def Member {β : Type} (g : State → β) : Prop :=
  ∀ (s : State) (t : List Event) (l f : List (Res × Handle)) (n : Nat),
    g { s with trace := t, live := l, faults := f, fresh := n } = g s

/-- Members that no function of a swapchain build assigns. -/
def kept (s : State) : Bool × List Handle × Handle × Handle × Handle × Handle :=
  (s.m_was_resized, s.m_descriptor_sets, s.m_image_available_semaphore,
    s.m_render_finished_semaphore, s.m_queue, s.m_present_queue)

/-- The function runs to its end from state `s`. -/
def Succeeds {α : Type} (m : Sim α) (s : State) : Prop :=
  ∃ a s', m s = Outcome.done a s'

/-- From every state satisfying `P` the function runs to its end, in a state satisfying `Q`. -/
def Triple {α : Type} (P : State → Prop) (m : Sim α) (Q : State → Prop) : Prop :=
  ∀ s, P s → ∃ a s', m s = Outcome.done a s' ∧ Q s'

/-- Value of `createInfo.minImageCount` computed at Simulation.cpp line 351. -/
def min_image_count (caps : VkSurfaceCapabilitiesKHR) : Nat := max caps.minImageCount 3

/-- The driver never fails a creation, an allocation or a command-buffer recording. -/
structure Driver.reliable (d : Driver) : Prop where
  create_ok : ∀ kind n, d.create kind n = VK_SUCCESS
  begin_ok : ∀ n, d.begin_command_buffer n = VK_SUCCESS
  end_ok : ∀ n, d.end_command_buffer n = VK_SUCCESS

/-- A driver that never fails: the surface reports the minimum image count `m` and
the extent 800x600, every swapchain gets `n` images, every acquire returns index 0,
the window is never closed and never resized. -/
def Driver.steady (m n : Nat) : Driver where
  surface_capabilities := fun _ =>
    { minImageCount := m, currentExtent := { width := 800, height := 600 } }
  framebuffer_size := fun _ => (800, 600)
  create := fun _ _ => VK_SUCCESS
  swapchain_images := fun _ => n
  begin_command_buffer := fun _ => VK_SUCCESS
  end_command_buffer := fun _ => VK_SUCCESS
  acquire := fun _ => (VK_SUCCESS, 0)
  submit := fun _ => VK_SUCCESS
  present := fun _ => VK_SUCCESS
  window_should_close := fun _ => false
  resize_event := fun _ => false
/-- State left by `setup_device` against `Driver.steady 2 3` from `State.boot`
(theorem `setup_device_steady`). -/
def State.ready : State where
  m_swapchain_size := { width := 800, height := 600 }
  m_was_resized := false
  m_swapchain := 2
  m_queue := 1
  m_present_queue := 1
  m_render_pass := 9
  m_desc_set_layout := 12
  m_pipeline_layout := 13
  m_pipeline := 14
  m_command_pool := 18
  m_descriptor_pool := 21
  m_image_available_semaphore := 19
  m_render_finished_semaphore := 20
  m_swap_chain_views := [6, 7, 8]
  m_swap_chain_images := [3, 4, 5]
  m_framebuffers := [15, 16, 17]
  m_command_buffers := [25, 26, 27]
  m_descriptor_sets := [22, 23, 24]
  trace :=
    [Event.get_surface_capabilities { minImageCount := 2, currentExtent := { width := 800, height := 600 } },
    Event.get_surface_capabilities { minImageCount := 2, currentExtent := { width := 800, height := 600 } },
    Event.create_swapchain 3 { width := 800, height := 600 } 0 2,
    Event.get_swapchain_images 2 3 3,
    Event.create Res.image_view 0 6,
    Event.create Res.image_view 0 7,
    Event.create Res.image_view 0 8,
    Event.create Res.render_pass 0 9,
    Event.create Res.shader_module 0 10,
    Event.create Res.shader_module 0 11,
    Event.create Res.descriptor_set_layout 0 12,
    Event.create Res.pipeline_layout 0 13,
    Event.create Res.pipeline 0 14,
    Event.destroy Res.shader_module 10,
    Event.destroy Res.shader_module 11,
    Event.create Res.framebuffer 0 15,
    Event.create Res.framebuffer 0 16,
    Event.create Res.framebuffer 0 17,
    Event.create Res.command_pool 0 18,
    Event.create Res.semaphore 0 19,
    Event.create Res.semaphore 0 20,
    Event.create Res.descriptor_pool 0 21,
    Event.allocate Res.descriptor_sets 3 0 22,
    Event.allocate Res.command_buffers 3 0 25,
    Event.begin_command_buffer 25 0,
    Event.record 25 15 22,
    Event.end_command_buffer 25 0,
    Event.begin_command_buffer 26 0,
    Event.record 26 16 23,
    Event.end_command_buffer 26 0,
    Event.begin_command_buffer 27 0,
    Event.record 27 17 24,
    Event.end_command_buffer 27 0]
  live := [(Res.swapchain, 2), (Res.image_view, 6), (Res.image_view, 7), (Res.image_view, 8),
    (Res.render_pass, 9), (Res.descriptor_set_layout, 12), (Res.pipeline_layout, 13),
    (Res.pipeline, 14), (Res.framebuffer, 15), (Res.framebuffer, 16), (Res.framebuffer, 17),
    (Res.command_pool, 18), (Res.semaphore, 19), (Res.semaphore, 20), (Res.descriptor_pool, 21)]
  faults := []
  fresh := 28

/-- State left by `setup_device` against `Driver.steady 2 4` from `State.boot`
(theorem `setup_device_wide`): the driver made four images for a request of three. -/
def State.wide : State where
  m_swapchain_size := { width := 800, height := 600 }
  m_was_resized := false
  m_swapchain := 2
  m_queue := 1
  m_present_queue := 1
  m_render_pass := 10
  m_desc_set_layout := 13
  m_pipeline_layout := 14
  m_pipeline := 15
  m_command_pool := 19
  m_descriptor_pool := 22
  m_image_available_semaphore := 20
  m_render_finished_semaphore := 21
  m_swap_chain_views := [7, 8, 9]
  m_swap_chain_images := [3, 4, 5, 6]
  m_framebuffers := [16, 17, 18]
  m_command_buffers := [27, 28, 29]
  m_descriptor_sets := [23, 24, 25, 26]
  trace :=
    [Event.get_surface_capabilities
    { minImageCount := 2, currentExtent := { width := 800, height := 600 } },
    Event.get_surface_capabilities
    { minImageCount := 2, currentExtent := { width := 800, height := 600 } },
    Event.create_swapchain 3 { width := 800, height := 600 } 0 2,
    Event.get_swapchain_images 2 3 4,
    Event.create Res.image_view 0 7,
    Event.create Res.image_view 0 8,
    Event.create Res.image_view 0 9,
    Event.create Res.render_pass 0 10,
    Event.create Res.shader_module 0 11,
    Event.create Res.shader_module 0 12,
    Event.create Res.descriptor_set_layout 0 13,
    Event.create Res.pipeline_layout 0 14,
    Event.create Res.pipeline 0 15,
    Event.destroy Res.shader_module 11,
    Event.destroy Res.shader_module 12,
    Event.create Res.framebuffer 0 16,
    Event.create Res.framebuffer 0 17,
    Event.create Res.framebuffer 0 18,
    Event.create Res.command_pool 0 19,
    Event.create Res.semaphore 0 20,
    Event.create Res.semaphore 0 21,
    Event.create Res.descriptor_pool 0 22,
    Event.allocate Res.descriptor_sets 4 0 23,
    Event.allocate Res.command_buffers 3 0 27,
    Event.begin_command_buffer 27 0,
    Event.record 27 16 23,
    Event.end_command_buffer 27 0,
    Event.begin_command_buffer 28 0,
    Event.record 28 17 24,
    Event.end_command_buffer 28 0,
    Event.begin_command_buffer 29 0,
    Event.record 29 18 25,
    Event.end_command_buffer 29 0]
  live :=
    [(Res.swapchain, 2),
    (Res.image_view, 7),
    (Res.image_view, 8),
    (Res.image_view, 9),
    (Res.render_pass, 10),
    (Res.descriptor_set_layout, 13),
    (Res.pipeline_layout, 14),
    (Res.pipeline, 15),
    (Res.framebuffer, 16),
    (Res.framebuffer, 17),
    (Res.framebuffer, 18),
    (Res.command_pool, 19),
    (Res.semaphore, 20),
    (Res.semaphore, 21),
    (Res.descriptor_pool, 22)]
  faults := []
  fresh := 30

/-- Presentation engine that reports out-of-date on the first acquire and then
succeeds with image index 1. -/
def Driver.out_of_date_once : Driver :=
  { Driver.steady 2 3 with
    acquire := fun n => if n = 0 then (VK_ERROR_OUT_OF_DATE_KHR, 0) else (VK_SUCCESS, 1) }

/-- Presentation engine that reports out-of-date on the first two acquires and then
succeeds with image index 0. -/
def Driver.out_of_date_twice : Driver :=
  { Driver.steady 2 3 with
    acquire := fun n => if n < 2 then (VK_ERROR_OUT_OF_DATE_KHR, 0) else (VK_SUCCESS, 0) }

/-- The state `State.ready` after the size callback has run. -/
def State.resized : State := { State.ready with m_was_resized := true }

/-- Result code of a `vkQueueSubmit` event. -/
def Event.submit_result : Event → Option VkResult
  | Event.submit _ _ _ _ _ r => some r
  | _ => none

/-- Calls logged between state `s` and the later state `t`. -/
def State.since (t s : State) : List Event := t.trace.drop s.trace.length

/-- The `update_ubo` marker as logged from state `t`. -/
def State.ubo_event (t : State) : Event := Event.update_ubo t.m_swapchain_size

/-- The acquire call as logged from state `t`. -/
def State.acquire_event (t : State) (result : VkResult) (image_idx : Nat) : Event :=
  Event.acquire t.m_swapchain t.m_image_available_semaphore result image_idx

/-- The submission of `draw_frame` as logged from state `t`. -/
def State.submit_event (t : State) (cb : Handle) (result : VkResult) : Event :=
  Event.submit t.m_queue cb t.m_image_available_semaphore
    VK_PIPELINE_STAGE_COLOR_ATTACHMENT_OUTPUT_BIT t.m_render_finished_semaphore result

/-- The present request of `draw_frame` as logged from state `t`. -/
def State.present_event (t : State) (image_idx : Nat) (result : VkResult) : Event :=
  Event.present t.m_present_queue t.m_swapchain image_idx t.m_render_finished_semaphore result

/-- The ways the last activation of a `draw_frame` call can end, with the calls it
logged, read off the final state `t`: an abort inside `rebuild_swapchain` (its
calls are counted with the earlier ones), a failed acquire, an image index outside
the command-buffer table, a failed submission, or a presented frame. -/
inductive Final (t : State) : Option Abort → List Event → Prop where
  | in_rebuild (e : Abort) : Final t (some e) []
  | acquire_failed (ra : VkResult) (i : Nat) (h1 : ra ≠ VK_SUCCESS)
      (h2 : ra ≠ VK_SUBOPTIMAL_KHR) :
      Final t (some (Abort.exception Exn.AcquireFailed)) [t.ubo_event, t.acquire_event ra i]
  | out_of_table (ra : VkResult) (i : Nat) (h : ra = VK_SUCCESS ∨ ra = VK_SUBOPTIMAL_KHR)
      (hcb : t.m_command_buffers[i]? = none) :
      Final t (some (Abort.out_of_bounds Vec.m_command_buffers i t.m_command_buffers.length))
        [t.ubo_event, t.acquire_event ra i]
  | submit_failed (ra : VkResult) (i : Nat) (cb : Handle) (r : VkResult)
      (h : ra = VK_SUCCESS ∨ ra = VK_SUBOPTIMAL_KHR)
      (hcb : t.m_command_buffers[i]? = some cb) (hr : r ≠ VK_SUCCESS) :
      Final t (some (Abort.exception Exn.SubmitFailed))
        [t.ubo_event, t.acquire_event ra i, t.submit_event cb r]
  | presented (ra : VkResult) (i : Nat) (cb : Handle) (p : VkResult)
      (h : ra = VK_SUCCESS ∨ ra = VK_SUBOPTIMAL_KHR)
      (hcb : t.m_command_buffers[i]? = some cb) :
      Final t none
        [t.ubo_event, t.acquire_event ra i, t.submit_event cb VK_SUCCESS, t.present_event i p]

/-- Driver whose queue refuses every submission. -/
def Driver.submit_refused : Driver :=
  { Driver.steady 2 3 with submit := fun _ => VK_ERROR_DEVICE_LOST }

/-- Driver whose device is lost at every acquire. -/
def Driver.device_lost : Driver :=
  { Driver.steady 2 3 with acquire := fun _ => (VK_ERROR_DEVICE_LOST, 0) }

/-- Presentation engine that reports suboptimal at every acquire and every present. -/
def Driver.suboptimal : Driver :=
  { Driver.steady 2 3 with
    acquire := fun _ => (VK_SUBOPTIMAL_KHR, 0)
    present := fun _ => VK_SUBOPTIMAL_KHR }

/-- The state `State.ready` after a frame whose submission was refused. -/
def State.refused : State :=
  { State.ready with
    trace := State.ready.trace ++
      [Event.update_ubo { width := 800, height := 600 },
       Event.acquire 2 19 VK_SUCCESS 0,
       Event.submit 1 25 19 VK_PIPELINE_STAGE_COLOR_ATTACHMENT_OUTPUT_BIT 20
         VK_ERROR_DEVICE_LOST] }

/-- The state `State.ready` after a frame that was presented. -/
def State.presented : State :=
  { State.ready with
    trace := State.ready.trace ++
      [Event.update_ubo { width := 800, height := 600 },
       Event.acquire 2 19 VK_SUCCESS 0,
       Event.submit 1 25 19 VK_PIPELINE_STAGE_COLOR_ATTACHMENT_OUTPUT_BIT 20 VK_SUCCESS,
       Event.present 1 2 0 20 VK_SUCCESS] }

/-- State `s` with more calls logged. -/
def State.log (s : State) (evs : List Event) : State :=
  { s with trace := s.trace ++ evs }

/-- Driver that makes four images for a request of three and hands out the last of
them (index 3) at every acquire. -/
def Driver.last_image : Driver :=
  { Driver.steady 2 4 with acquire := fun _ => (VK_SUCCESS, 3) }

/-- Driver that makes three images for the first swapchain and four images for every
later one; the surface asks for at least two, so the program requests three. -/
def Driver.growing : Driver :=
  { Driver.steady 2 3 with swapchain_images := fun n => if n = 0 then 3 else 4 }

/-- Surface whose current extent has the width 0xFFFFFFFF and the height 600, on a
drawable of 800x600. -/
def Driver.half_sentinel : Driver :=
  { Driver.steady 2 3 with
    surface_capabilities := fun _ =>
      { minImageCount := 2, currentExtent := { width := UINT32_MAX, height := 600 } } }

/-- The computation `m` always returns and appends exactly `evs` to the trace. -/
def Logs {α : Type} (evs : List Event) (m : Sim α) : Prop :=
  ∀ s, ∃ a s', m s = Outcome.done a s' ∧ s'.trace = s.trace ++ evs

/-- The `minImageCount` a `vkCreateSwapchainKHR` call asked for. -/
def Event.requested_image_count : Event → Option Nat
  | Event.create_swapchain minImageCount _ _ _ => some minImageCount
  | _ => none

/-- The objects `cleanup_swapchain` hands to the `vkDestroy*` functions, in call order. -/
def held (s : State) : List (Res × Handle) :=
  s.m_framebuffers.map (fun h => (Res.framebuffer, h))
    ++ [(Res.render_pass, s.m_render_pass), (Res.pipeline_layout, s.m_pipeline_layout),
        (Res.pipeline, s.m_pipeline)]
    ++ s.m_swap_chain_views.map (fun h => (Res.image_view, h))
    ++ [(Res.swapchain, s.m_swapchain)]

/-- State after the `vkDestroy*` calls for a list of objects, front to back. -/
def destroyed : List (Res × Handle) → State → State
  | [], s => s
  | x :: rest, s => destroyed rest (vk_destroy x.1 x.2 s).state

/-- Macro `VK_MAKE_VERSION(major, minor, patch)` of vulkan_core.h: the three arguments
are converted to `uint32_t`, shifted and combined. -/
def VK_MAKE_VERSION (major minor patch : Nat) : Nat :=
  ((major % 2 ^ 32) <<< 22) % 2 ^ 32 ||| ((minor % 2 ^ 32) <<< 12) % 2 ^ 32 ||| patch % 2 ^ 32

/-- Source `class VkVersion` (Version.h 9-19): the packed `uint32_t raw_version`. -/
structure VkVersion where
  raw_version : Nat
  deriving DecidableEq, Repr

/-- Constructor `VkVersion(uint16_t major, uint16_t minor, uint16_t patch)`
(Version.h 12-13). -/
def VkVersion.from_components (major minor patch : Nat) : VkVersion :=
  { raw_version := VK_MAKE_VERSION (major % 2 ^ 16) (minor % 2 ^ 16) (patch % 2 ^ 16) }

/-- Source `VkVersion::major_version` (Version.h 16), result converted to `uint16_t`. -/
def VkVersion.major_version (v : VkVersion) : Nat := (v.raw_version >>> 22) % 2 ^ 16

/-- Source `VkVersion::minor_version` (Version.h 17): the mask is `0x2FF`. -/
def VkVersion.minor_version (v : VkVersion) : Nat :=
  ((v.raw_version >>> 12) &&& 0x2FF) % 2 ^ 16

/-- Source `VkVersion::patch` (Version.h 18): the mask is `0x8FF`. -/
def VkVersion.patch (v : VkVersion) : Nat := (v.raw_version &&& 0x8FF) % 2 ^ 16

/-! ## Extensions.cpp -/

/-- The fields of `VkExtensionProperties`; the name is a NUL-terminated C string, so
`strcmp(a, b) == 0` is equality of the strings. -/
structure VkExtensionProperties where
  extensionName : String
  specVersion : Nat
  deriving DecidableEq, Repr

/-- Source `class ExtensionSet` (Extensions.h 9-40). -/
structure ExtensionSet where
  m_extensions : List VkExtensionProperties
  deriving DecidableEq, Repr

/-- The loop of `ExtensionSet::contains` (Extensions.cpp 13-19) over the extensions
from the current index on. -/
def ExtensionSet.contains_loop : List VkExtensionProperties → String → Bool
  | [], _ => false
  | extension :: rest, name =>
    if extension.extensionName = name then true
    else ExtensionSet.contains_loop rest name

/-- Source `ExtensionSet::contains` (Extensions.cpp 12-20). -/
def ExtensionSet.contains (s : ExtensionSet) (name : String) : Bool :=
  ExtensionSet.contains_loop s.m_extensions name

/-- The loop of `ExtensionSet::contains_all` (Extensions.cpp 23-28) over the names from
the current index on. -/
def ExtensionSet.contains_all_loop (s : ExtensionSet) : List String → Bool
  | [] => true
  | name :: rest =>
    if !s.contains name then false
    else ExtensionSet.contains_all_loop s rest

/-- Source `ExtensionSet::contains_all` (Extensions.cpp 22-30). -/
def ExtensionSet.contains_all (s : ExtensionSet) (names : List String) : Bool :=
  ExtensionSet.contains_all_loop s names

/-- The inner loop of `ExtensionSet::difference` (Extensions.cpp 37-43) from index `j`
on: the values of `found` and `j` when the loop is left. -/
def ExtensionSet.difference_search : List VkExtensionProperties → String → Nat → Bool × Nat
  | [], _, j => (false, j)
  | extension :: rest, name, j =>
    if name = extension.extensionName then (true, j)
    else ExtensionSet.difference_search rest name (j + 1)

/-- The outer loop of `ExtensionSet::difference` (Extensions.cpp 34-47) over the names
from the current index on, with the `output` built so far. The element access
`m_extensions[j]` at line 45 is checked against the size of the vector. -/
def ExtensionSet.difference_loop (s : ExtensionSet) :
    List String → List String → Except Abort (List String)
  | [], output => Except.ok output
  | name :: rest, output =>
    match ExtensionSet.difference_search s.m_extensions name 0 with
    | (found, j) =>
      if !found then
        match s.m_extensions[j]? with
        | some extension =>
          ExtensionSet.difference_loop s rest (output ++ [extension.extensionName])
        | none => Except.error (Abort.out_of_bounds Vec.m_extensions j s.m_extensions.length)
      else ExtensionSet.difference_loop s rest output

/-- Source `ExtensionSet::difference` (Extensions.cpp 32-50). -/
def ExtensionSet.difference (s : ExtensionSet) (names : List String) :
    Except Abort (List String) :=
  ExtensionSet.difference_loop s names []

/-! ## Layers.cpp -/

/-- The fields of `VkLayerProperties`. -/
structure VkLayerProperties where
  layerName : String
  specVersion : Nat
  implementationVersion : Nat
  description : String
  deriving DecidableEq, Repr

/-- Source `class LayerSet` (Layers.h 13-42). -/
structure LayerSet where
  m_layers : List VkLayerProperties
  deriving DecidableEq, Repr

/-- Source `std::string_view`: a pointer and a length. `memory` holds the characters
stored from `data()` on, up to the end of the NUL-terminated character array they lie
in (the NUL that ends the array is left out); the view is the first `size` of them. -/
structure string_view where
  memory : List Char
  size : Nat
  deriving DecidableEq, Repr

/-- The characters of the view: `size()` characters from `data()` on. -/
def string_view.chars (v : string_view) : String := String.mk (v.memory.take v.size)

/-- Member `data()` read as a C string, the way `std::strcmp` reads its argument: the
characters from `data()` up to the first NUL (at the latest the one that ends the
array), whatever `size()` is. -/
def string_view.data (v : string_view) : String :=
  String.mk (v.memory.takeWhile (fun c => decide (c ≠ Char.ofNat 0)))

/-- The loop of `LayerSet::contains` (Layers.cpp 22-29) over the layers from the
current index on. The test `std::strcmp(props.layerName, name.data()) == 0` is the
equality of the C string in `layerName` with the C string at `name.data()`. -/
def LayerSet.contains_loop : List VkLayerProperties → string_view → Nat → Bool
  | [], _, _ => false
  | props :: rest, name, min_version =>
    if props.layerName = name.data then
      if props.implementationVersion ≥ min_version then true
      else LayerSet.contains_loop rest name min_version
    else LayerSet.contains_loop rest name min_version

/-- Source `LayerSet::contains` (Layers.cpp 21-31). -/
def LayerSet.contains (s : LayerSet) (name : string_view) (min_version : Nat) : Bool :=
  LayerSet.contains_loop s.m_layers name min_version

/-! ## Memory types -/

/-- The field of `VkMemoryType` that `select_memory_type` reads. -/
structure VkMemoryType where
  propertyFlags : Nat
  deriving DecidableEq, Repr

/-- The fields of `VkPhysicalDeviceMemoryProperties` that `select_memory_type` reads;
`memoryTypes` is an array of `VK_MAX_MEMORY_TYPES` = 32 entries. -/
structure VkPhysicalDeviceMemoryProperties where
  memoryTypeCount : Nat
  memoryTypes : List VkMemoryType
  deriving DecidableEq, Repr

/-- The loop of `select_memory_type` (Simulation.cpp 866-871) at index `i` with `todo`
iterations left. `1 << i` is taken in 32 bits, and `&&` evaluates the array access
only when the filter bit is set. -/
def select_memory_type_loop (memProperties : VkPhysicalDeviceMemoryProperties)
    (typeFilter properties : Nat) : Nat → Nat → Except Abort Nat
  | _, 0 => Except.error (Abort.exception Exn.NoSuitableMemoryType)
  | i, todo + 1 =>
    if typeFilter &&& ((1 <<< i) % 2 ^ 32) ≠ 0 then
      match memProperties.memoryTypes[i]? with
      | none => Except.error
          (Abort.out_of_bounds Vec.memoryTypes i memProperties.memoryTypes.length)
      | some memoryType =>
        if memoryType.propertyFlags &&& properties = properties then Except.ok i
        else select_memory_type_loop memProperties typeFilter properties (i + 1) todo
    else select_memory_type_loop memProperties typeFilter properties (i + 1) todo

/-- Source `Simulation::select_memory_type` (Simulation.cpp 863-874); the answer of
`vkGetPhysicalDeviceMemoryProperties` is a parameter. -/
def select_memory_type (memProperties : VkPhysicalDeviceMemoryProperties)
    (typeFilter properties : Nat) : Except Abort Nat :=
  select_memory_type_loop memProperties typeFilter properties 0 memProperties.memoryTypeCount

/-- Memory type `i` passes the test of `select_memory_type`: bit `i` of the filter is
set and the type has all the required property flags. -/
def suitable (memProperties : VkPhysicalDeviceMemoryProperties) (typeFilter properties i : Nat) :
    Prop :=
  typeFilter.testBit i = true
    ∧ ∃ memoryType, memProperties.memoryTypes[i]? = some memoryType
      ∧ memoryType.propertyFlags &&& properties = properties
/-- Source `Simulation::get_instance_extensions` (Simulation.cpp 142-171); the answers
of `glfwGetRequiredInstanceExtensions` and `ExtensionSet::get_instance_extensions`
are parameters. -/
def get_instance_extensions (extensions : ExtensionSet) (glfwExtensions : List String) :
    Except Abort (List String) :=
  let requested_extension := glfwExtensions ++ ["VK_EXT_debug_report"]
  if !extensions.contains_all requested_extension then
    Except.error (Abort.exception Exn.ExtensionsNotSupported)
  else Except.ok requested_extension

/-- Memory types with the property flags 1, 6 and 7; the other 29 entries of the array
are unused. -/
def three_memory_types : VkPhysicalDeviceMemoryProperties :=
  { memoryTypeCount := 3
    memoryTypes := [{ propertyFlags := 1 }, { propertyFlags := 6 }, { propertyFlags := 7 }]
      ++ List.replicate 29 { propertyFlags := 0 } }

/-- An extension set that holds "VK_KHR_surface" only. -/
def surface_only : ExtensionSet :=
  { m_extensions := [{ extensionName := "VK_KHR_surface", specVersion := 25 }] }

/-- The view `std::string_view("LAYER_extra", 5)`: the five characters "LAYER" at the
start of a longer character array. -/
def layer_prefix : string_view := { memory := "LAYER_extra".data, size := 5 }

/-- Layer properties with a name and an implementation version. -/
def layer (name : String) (version : Nat) : VkLayerProperties :=
  { layerName := name, specVersion := 0, implementationVersion := version, description := "" }

/-- Driver that makes four images for a request of three; its first acquire reports
out-of-date and every later one hands out the last image (index 3). -/
def Driver.out_of_date_then_last_image : Driver :=
  { Driver.steady 2 4 with
    acquire := fun n => if n = 0 then (VK_ERROR_OUT_OF_DATE_KHR, 0) else (VK_SUCCESS, 3) }

/-- Presentation engine that reports out-of-date at every acquire. -/
def Driver.out_of_date_forever : Driver :=
  { Driver.steady 2 3 with acquire := fun _ => (VK_ERROR_OUT_OF_DATE_KHR, 0) }

/-- Presentation engine whose first acquire hands out image 1 and every later one
image 0. -/
def Driver.index_changes : Driver :=
  { Driver.steady 2 3 with
    acquire := fun n => if n = 0 then (VK_SUCCESS, 1) else (VK_SUCCESS, 0) }

/-- Presentation engine that reports suboptimal at every present request and succeeds
otherwise. -/
def Driver.present_suboptimal : Driver :=
  { Driver.steady 2 3 with present := fun _ => VK_SUBOPTIMAL_KHR }

/-- State in which the activation of `draw_frame` at depth `k` starts: each of the `k`
activations before it ended with `draw_frame(); return;` (Simulation.cpp 712-713).
The value `none` says that one of them ended the call instead. -/
def draw_frame_restarts (d : Driver) : Nat → State → Option State
  | 0, s => some s
  | k + 1, s =>
    match draw_frame_once d s with
    | Outcome.done true s1 => draw_frame_restarts d k s1
    | _ => none

@[simp] theorem bind_apply {α β : Type} (m : Sim α) (f : α → Sim β) (s : State) :
    (m >>= f) s = Sim.bind m f s := rfl

@[simp] theorem pure_apply {α : Type} (a : α) (s : State) :
    (pure a : Sim α) s = Outcome.done a s := rfl

theorem Emits.pure_emits {α : Type} (q : Event → Bool) (a : α) : Emits q (pure a : Sim α) :=
  fun s => ⟨[], by simp [Outcome.state], by simp⟩

theorem Emits.raise_emits {α : Type} (q : Event → Bool) (e : Exn) : Emits q (raise e : Sim α) :=
  fun s => ⟨[], by simp [VulkanTriangle.raise, Outcome.state], by simp⟩

theorem Emits.get_state_emits (q : Event → Bool) : Emits q get_state :=
  fun s => ⟨[], by simp [VulkanTriangle.get_state, Outcome.state], by simp⟩

theorem Emits.update_emits (q : Event → Bool) (f : State → State) (hf : ∀ s, (f s).trace = s.trace) :
    Emits q (update f) :=
  fun s => ⟨[], by simp [VulkanTriangle.update, Outcome.state, hf], by simp⟩

theorem Emits.index_emits (q : Event → Bool) (name : Vec) (v : List Handle) (i : Nat) :
    Emits q (index name v i) := by
  intro s
  refine ⟨[], ?_, by simp⟩
  unfold VulkanTriangle.index
  cases v[i]? <;> simp [Outcome.state]

theorem Emits.bind_emits {α β : Type} {q : Event → Bool} {m : Sim α} {f : α → Sim β}
    (hm : Emits q m) (hf : ∀ a, Emits q (f a)) : Emits q (m >>= f) := by
  intro s
  obtain ⟨evs, h1, h2⟩ := hm s
  simp only [bind_apply, Sim.bind]
  cases hms : m s with
  | done a s1 =>
    rw [hms] at h1
    obtain ⟨evs2, h3, h4⟩ := hf a s1
    refine ⟨evs ++ evs2, ?_, ?_⟩
    · simp only [Outcome.state] at h1
      rw [h3, h1, List.append_assoc]
    · intro e he
      rcases List.mem_append.mp he with h | h
      · exact h2 e h
      · exact h4 e h
  | abort e s1 =>
    rw [hms] at h1
    exact ⟨evs, h1, h2⟩

theorem Emits.mono {α : Type} {q q2 : Event → Bool} {m : Sim α} (hm : Emits q m)
    (h : ∀ e, q e = true → q2 e = true) : Emits q2 m := by
  intro s
  obtain ⟨evs, h1, h2⟩ := hm s
  exact ⟨evs, h1, fun e he => h e (h2 e he)⟩

theorem Emits.emit_emits {q : Event → Bool} {e : Event} (h : q e = true) : Emits q (emit e) :=
  fun s => ⟨[e], by simp [VulkanTriangle.emit, Outcome.state], by simpa using h⟩

theorem Emits.vk_create_emits {q : Event → Bool} (d : Driver) (kind : Res)
    (h : ∀ r h, q (Event.create kind r h) = true) : Emits q (vk_create d kind) := by
  intro s
  refine ⟨[Event.create kind (d.create kind (count (Event.is_create kind) s))
    (if d.create kind (count (Event.is_create kind) s) = VK_SUCCESS then s.fresh
      else VK_NULL_HANDLE)], ?_, by simpa using h _ _⟩
  unfold VulkanTriangle.vk_create
  by_cases hr : d.create kind (count (Event.is_create kind) s) = VK_SUCCESS <;>
    simp [hr, Outcome.state]

theorem Emits.vk_destroy_emits {q : Event → Bool} (kind : Res) (h : Handle)
    (hq : q (Event.destroy kind h) = true) : Emits q (vk_destroy kind h) := by
  intro s
  refine ⟨[Event.destroy kind h], ?_, by simpa using hq⟩
  unfold VulkanTriangle.vk_destroy
  by_cases h0 : h = VK_NULL_HANDLE
  · simp [h0, Outcome.state]
  · by_cases h1 : (kind, h) ∈ s.live <;> simp [h0, h1, Outcome.state]

theorem Keeps.pure_keeps {α β : Type} (g : State → β) (a : α) : Keeps g (pure a : Sim α) :=
  fun _ => rfl

theorem Keeps.raise_keeps {α β : Type} (g : State → β) (e : Exn) : Keeps g (raise e : Sim α) :=
  fun _ => rfl

theorem Keeps.get_state_keeps {β : Type} (g : State → β) : Keeps g get_state :=
  fun _ => rfl

theorem Keeps.update_keeps {β : Type} (g : State → β) (f : State → State) (hf : ∀ s, g (f s) = g s) :
    Keeps g (update f) :=
  fun s => hf s

theorem Keeps.index_keeps {β : Type} (g : State → β) (name : Vec) (v : List Handle) (i : Nat) :
    Keeps g (index name v i) := by
  intro s
  unfold VulkanTriangle.index
  cases v[i]? <;> rfl

theorem Keeps.bind_keeps {α β γ : Type} {g : State → γ} {m : Sim α} {f : α → Sim β}
    (hm : Keeps g m) (hf : ∀ a, Keeps g (f a)) : Keeps g (m >>= f) := by
  intro s
  have h1 := hm s
  simp only [bind_apply, Sim.bind]
  cases hms : m s with
  | done a s1 =>
    rw [hms] at h1
    simp only [Outcome.state] at h1
    rw [← h1]
    exact hf a s1
  | abort e s1 =>
    rw [hms] at h1
    exact h1

theorem Keeps.emit_keeps {β : Type} {g : State → β} (hg : Member g) (e : Event) : Keeps g (emit e) :=
  fun s => hg s _ s.live s.faults s.fresh

theorem Keeps.vk_create_keeps {β : Type} {g : State → β} (hg : Member g) (d : Driver) (kind : Res) :
    Keeps g (vk_create d kind) := by
  intro s
  unfold VulkanTriangle.vk_create
  by_cases hr : d.create kind (count (Event.is_create kind) s) = VK_SUCCESS
  · simp only [hr, if_true, Outcome.state]
    exact hg s _ _ s.faults _
  · simp only [hr, if_false, Outcome.state]
    exact hg s _ s.live s.faults s.fresh

theorem Keeps.vk_destroy_keeps {β : Type} {g : State → β} (hg : Member g) (kind : Res) (h : Handle) :
    Keeps g (vk_destroy kind h) := by
  intro s
  unfold VulkanTriangle.vk_destroy
  by_cases h0 : h = VK_NULL_HANDLE
  · simp only [h0, if_true, Outcome.state]
    exact hg s _ s.live s.faults s.fresh
  · by_cases h1 : (kind, h) ∈ s.live
    · simp only [h0, h1, if_true, if_false, Outcome.state]
      exact hg s _ _ s.faults s.fresh
    · simp only [h0, h1, if_false, Outcome.state]
      exact hg s _ s.live _ s.fresh

theorem member_kept : Member kept := fun _ _ _ _ _ => rfl

theorem Emits.get_surface_capabilities_emits {q : Event → Bool} (d : Driver)
    (h : ∀ c, q (Event.get_surface_capabilities c) = true) :
    Emits q (get_surface_capabilities d) :=
  fun _ => ⟨[_], rfl, by simpa using h _⟩

theorem Emits.get_framebuffer_size_emits {q : Event → Bool} (d : Driver)
    (h : ∀ w x, q (Event.get_framebuffer_size w x) = true) :
    Emits q (get_framebuffer_size d) :=
  fun _ => ⟨[_], rfl, by simpa using h _ _⟩

theorem Emits.get_swapchain_images_emits {q : Event → Bool} (d : Driver) (sc : Handle)
    (h : ∀ a b c, q (Event.get_swapchain_images a b c) = true) :
    Emits q (get_swapchain_images d sc) :=
  fun _ => ⟨[_], rfl, by simpa using h _ _ _⟩

theorem Emits.vk_begin_command_buffer_emits {q : Event → Bool} (d : Driver) (cb : Handle)
    (h : ∀ a b, q (Event.begin_command_buffer a b) = true) :
    Emits q (vk_begin_command_buffer d cb) :=
  fun _ => ⟨[_], rfl, by simpa using h _ _⟩

theorem Emits.vk_end_command_buffer_emits {q : Event → Bool} (d : Driver) (cb : Handle)
    (h : ∀ a b, q (Event.end_command_buffer a b) = true) :
    Emits q (vk_end_command_buffer d cb) :=
  fun _ => ⟨[_], rfl, by simpa using h _ _⟩

theorem Emits.vk_create_swapchain_emits {q : Event → Bool} (d : Driver) (n : Nat) (ext : VkExtent2D)
    (h : ∀ a b c e, q (Event.create_swapchain a b c e) = true) :
    Emits q (vk_create_swapchain d n ext) := by
  intro s
  refine ⟨[Event.create_swapchain n ext
    (d.create Res.swapchain (count (Event.is_create Res.swapchain) s))
    (if d.create Res.swapchain (count (Event.is_create Res.swapchain) s) = VK_SUCCESS
      then s.fresh else VK_NULL_HANDLE)], ?_, by simpa using h _ _ _ _⟩
  unfold VulkanTriangle.vk_create_swapchain
  by_cases hr : d.create Res.swapchain (count (Event.is_create Res.swapchain) s) = VK_SUCCESS <;>
    simp [hr, Outcome.state]

theorem Emits.vk_allocate_emits {q : Event → Bool} (d : Driver) (kind : Res) (n : Nat)
    (h : ∀ a b c e, q (Event.allocate a b c e) = true) :
    Emits q (vk_allocate d kind n) := by
  intro s
  refine ⟨[Event.allocate kind n (d.create kind (count (Event.is_create kind) s))
    (if d.create kind (count (Event.is_create kind) s) = VK_SUCCESS
      then s.fresh else VK_NULL_HANDLE)], ?_, by simpa using h _ _ _ _⟩
  unfold VulkanTriangle.vk_allocate
  by_cases hr : d.create kind (count (Event.is_create kind) s) = VK_SUCCESS <;>
    simp [hr, Outcome.state]

theorem Keeps.get_surface_capabilities_keeps {β : Type} {g : State → β} (hg : Member g) (d : Driver) :
    Keeps g (get_surface_capabilities d) :=
  fun s => hg s _ s.live s.faults s.fresh

theorem Keeps.get_framebuffer_size_keeps {β : Type} {g : State → β} (hg : Member g) (d : Driver) :
    Keeps g (get_framebuffer_size d) :=
  fun s => hg s _ s.live s.faults s.fresh

theorem Keeps.get_swapchain_images_keeps {β : Type} {g : State → β} (hg : Member g) (d : Driver)
    (sc : Handle) : Keeps g (get_swapchain_images d sc) :=
  fun s => hg s _ s.live s.faults _

theorem Keeps.vk_begin_command_buffer_keeps {β : Type} {g : State → β} (hg : Member g) (d : Driver)
    (cb : Handle) : Keeps g (vk_begin_command_buffer d cb) :=
  fun s => hg s _ s.live s.faults s.fresh

theorem Keeps.vk_end_command_buffer_keeps {β : Type} {g : State → β} (hg : Member g) (d : Driver)
    (cb : Handle) : Keeps g (vk_end_command_buffer d cb) :=
  fun s => hg s _ s.live s.faults s.fresh

theorem Keeps.vk_create_swapchain_keeps {β : Type} {g : State → β} (hg : Member g) (d : Driver)
    (n : Nat) (ext : VkExtent2D) : Keeps g (vk_create_swapchain d n ext) := by
  intro s
  unfold VulkanTriangle.vk_create_swapchain
  by_cases hr : d.create Res.swapchain (count (Event.is_create Res.swapchain) s) = VK_SUCCESS
  · simp only [hr, if_true, Outcome.state]
    exact hg s _ _ s.faults _
  · simp only [hr, if_false, Outcome.state]
    exact hg s _ s.live s.faults s.fresh

theorem Keeps.vk_allocate_keeps {β : Type} {g : State → β} (hg : Member g) (d : Driver)
    (kind : Res) (n : Nat) : Keeps g (vk_allocate d kind n) := by
  intro s
  unfold VulkanTriangle.vk_allocate
  by_cases hr : d.create kind (count (Event.is_create kind) s) = VK_SUCCESS
  · simp only [hr, if_true, Outcome.state]
    exact hg s _ s.live s.faults _
  · simp only [hr, if_false, Outcome.state]
    exact hg s _ s.live s.faults s.fresh

/-! ## What the build functions log and leave alone -/

theorem choose_swapchain_extent_emits {q : Event → Bool} (d : Driver)
    (h1 : ∀ c, q (Event.get_surface_capabilities c) = true)
    (h2 : ∀ w x, q (Event.get_framebuffer_size w x) = true) :
    Emits q (choose_swapchain_extent d) := by
  unfold choose_swapchain_extent
  refine Emits.bind_emits (Emits.get_surface_capabilities_emits d h1) (fun caps => ?_)
  split
  · exact Emits.pure_emits _ _
  · refine Emits.bind_emits (Emits.get_framebuffer_size_emits d h2) (fun size => ?_)
    exact Emits.pure_emits _ _

theorem choose_swapchain_extent_keeps {β : Type} {g : State → β} (hg : Member g) (d : Driver) :
    Keeps g (choose_swapchain_extent d) := by
  unfold choose_swapchain_extent
  refine Keeps.bind_keeps (Keeps.get_surface_capabilities_keeps hg d) (fun caps => ?_)
  split
  · exact Keeps.pure_keeps _ _
  · refine Keeps.bind_keeps (Keeps.get_framebuffer_size_keeps hg d) (fun size => ?_)
    exact Keeps.pure_keeps _ _

theorem setup_framebuffer_views_emits {q : Event → Bool} (d : Driver)
    (h : ∀ r h, q (Event.create Res.image_view r h) = true) (todo : Nat) :
    ∀ i, Emits q (setup_framebuffer_views d i todo) := by
  induction todo with
  | zero => intro i; exact Emits.pure_emits _ _
  | succ k ih =>
    intro i
    unfold setup_framebuffer_views
    refine Emits.bind_emits (Emits.get_state_emits _) (fun s => ?_)
    refine Emits.bind_emits (Emits.index_emits _ _ _ _) (fun img => ?_)
    refine Emits.bind_emits (Emits.vk_create_emits d _ h) (fun x => ?_)
    obtain ⟨result, view⟩ := x
    dsimp only
    split_ifs
    · exact Emits.raise_emits _ _
    · exact Emits.bind_emits (Emits.update_emits _ _ (fun _ => rfl)) (fun _ => ih _)

theorem setup_framebuffer_views_keeps {β : Type} {g : State → β} (hg : Member g) (d : Driver)
    (hu : ∀ (s : State) i h,
      g { s with m_swap_chain_views := s.m_swap_chain_views.set i h } = g s)
    (todo : Nat) : ∀ i, Keeps g (setup_framebuffer_views d i todo) := by
  induction todo with
  | zero => intro i; exact Keeps.pure_keeps _ _
  | succ k ih =>
    intro i
    unfold setup_framebuffer_views
    refine Keeps.bind_keeps (Keeps.get_state_keeps _) (fun s => ?_)
    refine Keeps.bind_keeps (Keeps.index_keeps _ _ _ _) (fun img => ?_)
    refine Keeps.bind_keeps (Keeps.vk_create_keeps hg d _) (fun x => ?_)
    obtain ⟨result, view⟩ := x
    dsimp only
    split_ifs
    · exact Keeps.raise_keeps _ _
    · exact Keeps.bind_keeps (Keeps.update_keeps _ _ (fun s => hu s _ _)) (fun _ => ih _)

theorem setup_framebuffer_emits (d : Driver) : Emits Event.quiet (setup_framebuffer d) := by
  unfold setup_framebuffer
  refine Emits.bind_emits (Emits.get_surface_capabilities_emits d (fun _ => rfl)) (fun caps => ?_)
  refine Emits.bind_emits (choose_swapchain_extent_emits d (fun _ => rfl) (fun _ _ => rfl))
    (fun ext => ?_)
  refine Emits.bind_emits (Emits.update_emits _ _ (fun _ => rfl)) (fun _ => ?_)
  refine Emits.bind_emits (Emits.vk_create_swapchain_emits d _ _ (fun _ _ _ _ => rfl)) (fun x => ?_)
  obtain ⟨result, sc⟩ := x
  dsimp only
  split_ifs
  · exact Emits.raise_emits _ _
  · refine Emits.bind_emits (Emits.update_emits _ _ (fun _ => rfl)) (fun _ => ?_)
    refine Emits.bind_emits (Emits.get_swapchain_images_emits d _ (fun _ _ _ => rfl)) (fun imgs => ?_)
    refine Emits.bind_emits (Emits.update_emits _ _ (fun _ => rfl)) (fun _ => ?_)
    refine Emits.bind_emits (Emits.update_emits _ _ (fun _ => rfl)) (fun _ => ?_)
    exact setup_framebuffer_views_emits d (fun _ _ => rfl) _ _

theorem setup_framebuffer_keeps (d : Driver) : Keeps kept (setup_framebuffer d) := by
  unfold setup_framebuffer
  refine Keeps.bind_keeps (Keeps.get_surface_capabilities_keeps member_kept d) (fun caps => ?_)
  refine Keeps.bind_keeps (choose_swapchain_extent_keeps member_kept d) (fun ext => ?_)
  refine Keeps.bind_keeps (Keeps.update_keeps _ _ (fun _ => rfl)) (fun _ => ?_)
  refine Keeps.bind_keeps (Keeps.vk_create_swapchain_keeps member_kept d _ _) (fun x => ?_)
  obtain ⟨result, sc⟩ := x
  dsimp only
  split_ifs
  · exact Keeps.raise_keeps _ _
  · refine Keeps.bind_keeps (Keeps.update_keeps _ _ (fun _ => rfl)) (fun _ => ?_)
    refine Keeps.bind_keeps (Keeps.get_swapchain_images_keeps member_kept d _) (fun imgs => ?_)
    refine Keeps.bind_keeps (Keeps.update_keeps _ _ (fun _ => rfl)) (fun _ => ?_)
    refine Keeps.bind_keeps (Keeps.update_keeps _ _ (fun _ => rfl)) (fun _ => ?_)
    exact setup_framebuffer_views_keeps member_kept d (fun _ _ _ => rfl) _ _

theorem setup_render_pass_emits (d : Driver) : Emits Event.quiet (setup_render_pass d) := by
  unfold setup_render_pass
  refine Emits.bind_emits (Emits.vk_create_emits d _ (fun _ _ => rfl)) (fun x => ?_)
  obtain ⟨result, h⟩ := x
  dsimp only
  split_ifs
  · exact Emits.raise_emits _ _
  · exact Emits.update_emits _ _ (fun _ => rfl)

theorem setup_render_pass_keeps {β : Type} {g : State → β} (hg : Member g) (d : Driver)
    (hu : ∀ (s : State) h, g { s with m_render_pass := h } = g s) :
    Keeps g (setup_render_pass d) := by
  unfold setup_render_pass
  refine Keeps.bind_keeps (Keeps.vk_create_keeps hg d _) (fun x => ?_)
  obtain ⟨result, h⟩ := x
  dsimp only
  split_ifs
  · exact Keeps.raise_keeps _ _
  · exact Keeps.update_keeps _ _ (fun s => hu s _)

theorem make_shader_module_emits (d : Driver) : Emits Event.quiet (make_shader_module d) := by
  unfold make_shader_module
  refine Emits.bind_emits (Emits.vk_create_emits d _ (fun _ _ => rfl)) (fun x => ?_)
  obtain ⟨result, h⟩ := x
  dsimp only
  split_ifs
  · exact Emits.raise_emits _ _
  · exact Emits.pure_emits _ _

theorem make_shader_module_keeps {β : Type} {g : State → β} (hg : Member g) (d : Driver) :
    Keeps g (make_shader_module d) := by
  unfold make_shader_module
  refine Keeps.bind_keeps (Keeps.vk_create_keeps hg d _) (fun x => ?_)
  obtain ⟨result, h⟩ := x
  dsimp only
  split_ifs
  · exact Keeps.raise_keeps _ _
  · exact Keeps.pure_keeps _ _

theorem create_pipeline_emits (d : Driver) : Emits Event.quiet (create_pipeline d) := by
  unfold create_pipeline
  refine Emits.bind_emits (make_shader_module_emits d) (fun vert => ?_)
  refine Emits.bind_emits (make_shader_module_emits d) (fun frag => ?_)
  refine Emits.bind_emits (Emits.vk_create_emits d _ (fun _ _ => rfl)) (fun x => ?_)
  obtain ⟨result, h⟩ := x
  dsimp only
  split_ifs
  · exact Emits.raise_emits _ _
  refine Emits.bind_emits (Emits.update_emits _ _ (fun _ => rfl)) (fun _ => ?_)
  refine Emits.bind_emits (Emits.vk_create_emits d _ (fun _ _ => rfl)) (fun x => ?_)
  obtain ⟨result, h⟩ := x
  dsimp only
  split_ifs
  · exact Emits.raise_emits _ _
  refine Emits.bind_emits (Emits.update_emits _ _ (fun _ => rfl)) (fun _ => ?_)
  refine Emits.bind_emits (Emits.vk_create_emits d _ (fun _ _ => rfl)) (fun x => ?_)
  obtain ⟨result, h⟩ := x
  dsimp only
  split_ifs
  · exact Emits.raise_emits _ _
  refine Emits.bind_emits (Emits.update_emits _ _ (fun _ => rfl)) (fun _ => ?_)
  refine Emits.bind_emits (Emits.vk_destroy_emits _ _ rfl) (fun _ => ?_)
  exact Emits.vk_destroy_emits _ _ rfl

theorem create_pipeline_keeps {β : Type} {g : State → β} (hg : Member g) (d : Driver)
    (hu1 : ∀ (s : State) h, g { s with m_desc_set_layout := h } = g s)
    (hu2 : ∀ (s : State) h, g { s with m_pipeline_layout := h } = g s)
    (hu3 : ∀ (s : State) h, g { s with m_pipeline := h } = g s) :
    Keeps g (create_pipeline d) := by
  unfold create_pipeline
  refine Keeps.bind_keeps (make_shader_module_keeps hg d) (fun vert => ?_)
  refine Keeps.bind_keeps (make_shader_module_keeps hg d) (fun frag => ?_)
  refine Keeps.bind_keeps (Keeps.vk_create_keeps hg d _) (fun x => ?_)
  obtain ⟨result, h⟩ := x
  dsimp only
  split_ifs
  · exact Keeps.raise_keeps _ _
  refine Keeps.bind_keeps (Keeps.update_keeps _ _ (fun s => hu1 s _)) (fun _ => ?_)
  refine Keeps.bind_keeps (Keeps.vk_create_keeps hg d _) (fun x => ?_)
  obtain ⟨result, h⟩ := x
  dsimp only
  split_ifs
  · exact Keeps.raise_keeps _ _
  refine Keeps.bind_keeps (Keeps.update_keeps _ _ (fun s => hu2 s _)) (fun _ => ?_)
  refine Keeps.bind_keeps (Keeps.vk_create_keeps hg d _) (fun x => ?_)
  obtain ⟨result, h⟩ := x
  dsimp only
  split_ifs
  · exact Keeps.raise_keeps _ _
  refine Keeps.bind_keeps (Keeps.update_keeps _ _ (fun s => hu3 s _)) (fun _ => ?_)
  refine Keeps.bind_keeps (Keeps.vk_destroy_keeps hg _ _) (fun _ => ?_)
  exact Keeps.vk_destroy_keeps hg _ _

theorem create_framebuffer_loop_emits (d : Driver) (todo : Nat) :
    ∀ i, Emits Event.quiet (create_framebuffer_loop d i todo) := by
  induction todo with
  | zero => intro i; exact Emits.pure_emits _ _
  | succ k ih =>
    intro i
    unfold create_framebuffer_loop
    refine Emits.bind_emits (Emits.get_state_emits _) (fun s => ?_)
    refine Emits.bind_emits (Emits.index_emits _ _ _ _) (fun view => ?_)
    refine Emits.bind_emits (Emits.vk_create_emits d _ (fun _ _ => rfl)) (fun x => ?_)
    obtain ⟨result, fb⟩ := x
    dsimp only
    split_ifs
    · exact Emits.raise_emits _ _
    · exact Emits.bind_emits (Emits.update_emits _ _ (fun _ => rfl)) (fun _ => ih _)

theorem create_framebuffer_loop_keeps {β : Type} {g : State → β} (hg : Member g) (d : Driver)
    (hu : ∀ (s : State) i h, g { s with m_framebuffers := s.m_framebuffers.set i h } = g s)
    (todo : Nat) : ∀ i, Keeps g (create_framebuffer_loop d i todo) := by
  induction todo with
  | zero => intro i; exact Keeps.pure_keeps _ _
  | succ k ih =>
    intro i
    unfold create_framebuffer_loop
    refine Keeps.bind_keeps (Keeps.get_state_keeps _) (fun s => ?_)
    refine Keeps.bind_keeps (Keeps.index_keeps _ _ _ _) (fun view => ?_)
    refine Keeps.bind_keeps (Keeps.vk_create_keeps hg d _) (fun x => ?_)
    obtain ⟨result, fb⟩ := x
    dsimp only
    split_ifs
    · exact Keeps.raise_keeps _ _
    · exact Keeps.bind_keeps (Keeps.update_keeps _ _ (fun s => hu s _ _)) (fun _ => ih _)

theorem create_framebuffer_emits (d : Driver) : Emits Event.quiet (create_framebuffer d) := by
  unfold create_framebuffer
  refine Emits.bind_emits (Emits.update_emits _ _ (fun _ => rfl)) (fun _ => ?_)
  refine Emits.bind_emits (Emits.get_state_emits _) (fun s => ?_)
  exact create_framebuffer_loop_emits d _ _

theorem create_framebuffer_keeps {β : Type} {g : State → β} (hg : Member g) (d : Driver)
    (hu : ∀ (s : State) v, g { s with m_framebuffers := v } = g s) :
    Keeps g (create_framebuffer d) := by
  unfold create_framebuffer
  refine Keeps.bind_keeps (Keeps.update_keeps _ _ (fun s => hu s _)) (fun _ => ?_)
  refine Keeps.bind_keeps (Keeps.get_state_keeps _) (fun s => ?_)
  exact create_framebuffer_loop_keeps hg d (fun s _ _ => hu s _) _ _

theorem create_command_buffers_loop_emits (d : Driver) (todo : Nat) :
    ∀ i, Emits Event.quiet (create_command_buffers_loop d i todo) := by
  induction todo with
  | zero => intro i; exact Emits.pure_emits _ _
  | succ k ih =>
    intro i
    unfold create_command_buffers_loop
    refine Emits.bind_emits (Emits.get_state_emits _) (fun s => ?_)
    refine Emits.bind_emits (Emits.index_emits _ _ _ _) (fun cb => ?_)
    refine Emits.bind_emits (Emits.vk_begin_command_buffer_emits d _ (fun _ _ => rfl)) (fun r => ?_)
    split_ifs
    · exact Emits.raise_emits _ _
    refine Emits.bind_emits (Emits.index_emits _ _ _ _) (fun fb => ?_)
    refine Emits.bind_emits (Emits.index_emits _ _ _ _) (fun ds => ?_)
    refine Emits.bind_emits (Emits.emit_emits rfl) (fun _ => ?_)
    refine Emits.bind_emits (Emits.vk_end_command_buffer_emits d _ (fun _ _ => rfl)) (fun r2 => ?_)
    split_ifs
    · exact Emits.raise_emits _ _
    · exact ih _

theorem create_command_buffers_loop_keeps {β : Type} {g : State → β} (hg : Member g)
    (d : Driver) (todo : Nat) : ∀ i, Keeps g (create_command_buffers_loop d i todo) := by
  induction todo with
  | zero => intro i; exact Keeps.pure_keeps _ _
  | succ k ih =>
    intro i
    unfold create_command_buffers_loop
    refine Keeps.bind_keeps (Keeps.get_state_keeps _) (fun s => ?_)
    refine Keeps.bind_keeps (Keeps.index_keeps _ _ _ _) (fun cb => ?_)
    refine Keeps.bind_keeps (Keeps.vk_begin_command_buffer_keeps hg d _) (fun r => ?_)
    split_ifs
    · exact Keeps.raise_keeps _ _
    refine Keeps.bind_keeps (Keeps.index_keeps _ _ _ _) (fun fb => ?_)
    refine Keeps.bind_keeps (Keeps.index_keeps _ _ _ _) (fun ds => ?_)
    refine Keeps.bind_keeps (Keeps.emit_keeps hg _) (fun _ => ?_)
    refine Keeps.bind_keeps (Keeps.vk_end_command_buffer_keeps hg d _) (fun r2 => ?_)
    split_ifs
    · exact Keeps.raise_keeps _ _
    · exact ih _

theorem create_command_buffers_emits (d : Driver) :
    Emits Event.quiet (create_command_buffers d) := by
  unfold create_command_buffers
  refine Emits.bind_emits (Emits.update_emits _ _ (fun _ => rfl)) (fun _ => ?_)
  refine Emits.bind_emits (Emits.get_state_emits _) (fun s => ?_)
  refine Emits.bind_emits (Emits.vk_allocate_emits d _ _ (fun _ _ _ _ => rfl)) (fun x => ?_)
  obtain ⟨result, cbs⟩ := x
  dsimp only
  split_ifs
  · exact Emits.raise_emits _ _
  · exact Emits.bind_emits (Emits.update_emits _ _ (fun _ => rfl))
      (fun _ => create_command_buffers_loop_emits d _ _)

theorem create_command_buffers_keeps {β : Type} {g : State → β} (hg : Member g) (d : Driver)
    (hu : ∀ (s : State) v, g { s with m_command_buffers := v } = g s) :
    Keeps g (create_command_buffers d) := by
  unfold create_command_buffers
  refine Keeps.bind_keeps (Keeps.update_keeps _ _ (fun s => hu s _)) (fun _ => ?_)
  refine Keeps.bind_keeps (Keeps.get_state_keeps _) (fun s => ?_)
  refine Keeps.bind_keeps (Keeps.vk_allocate_keeps hg d _ _) (fun x => ?_)
  obtain ⟨result, cbs⟩ := x
  dsimp only
  split_ifs
  · exact Keeps.raise_keeps _ _
  · exact Keeps.bind_keeps (Keeps.update_keeps _ _ (fun s => hu s _))
      (fun _ => create_command_buffers_loop_keeps hg d _ _)

theorem destroy_each_emits (kind : Res) (hs : List Handle) :
    Emits Event.is_destroy (destroy_each kind hs) := by
  induction hs with
  | nil => exact Emits.pure_emits _ _
  | cons h rest ih =>
    unfold destroy_each
    exact Emits.bind_emits (Emits.vk_destroy_emits _ _ rfl) (fun _ => ih)

theorem destroy_each_keeps {β : Type} {g : State → β} (hg : Member g) (kind : Res)
    (hs : List Handle) : Keeps g (destroy_each kind hs) := by
  induction hs with
  | nil => exact Keeps.pure_keeps _ _
  | cons h rest ih =>
    unfold destroy_each
    exact Keeps.bind_keeps (Keeps.vk_destroy_keeps hg _ _) (fun _ => ih)

theorem cleanup_swapchain_emits : Emits Event.is_destroy cleanup_swapchain := by
  unfold cleanup_swapchain
  refine Emits.bind_emits (Emits.get_state_emits _) (fun s => ?_)
  refine Emits.bind_emits (destroy_each_emits _ _) (fun _ => ?_)
  refine Emits.bind_emits (Emits.vk_destroy_emits _ _ rfl) (fun _ => ?_)
  refine Emits.bind_emits (Emits.vk_destroy_emits _ _ rfl) (fun _ => ?_)
  refine Emits.bind_emits (Emits.vk_destroy_emits _ _ rfl) (fun _ => ?_)
  refine Emits.bind_emits (destroy_each_emits _ _) (fun _ => ?_)
  exact Emits.vk_destroy_emits _ _ rfl

theorem cleanup_swapchain_keeps {β : Type} {g : State → β} (hg : Member g) :
    Keeps g cleanup_swapchain := by
  unfold cleanup_swapchain
  refine Keeps.bind_keeps (Keeps.get_state_keeps _) (fun s => ?_)
  refine Keeps.bind_keeps (destroy_each_keeps hg _ _) (fun _ => ?_)
  refine Keeps.bind_keeps (Keeps.vk_destroy_keeps hg _ _) (fun _ => ?_)
  refine Keeps.bind_keeps (Keeps.vk_destroy_keeps hg _ _) (fun _ => ?_)
  refine Keeps.bind_keeps (Keeps.vk_destroy_keeps hg _ _) (fun _ => ?_)
  refine Keeps.bind_keeps (destroy_each_keeps hg _ _) (fun _ => ?_)
  exact Keeps.vk_destroy_keeps hg _ _

theorem quiet_of_destroy (e : Event) (h : e.is_destroy = true) : e.quiet = true := by
  cases e <;> first | rfl | cases h

theorem rebuild_swapchain_keeps (d : Driver) : Keeps kept (rebuild_swapchain d) := by
  unfold rebuild_swapchain
  refine Keeps.bind_keeps (Keeps.emit_keeps member_kept _) (fun _ => ?_)
  refine Keeps.bind_keeps (Keeps.emit_keeps member_kept _) (fun _ => ?_)
  refine Keeps.bind_keeps (cleanup_swapchain_keeps member_kept) (fun _ => ?_)
  refine Keeps.bind_keeps (setup_framebuffer_keeps d) (fun _ => ?_)
  refine Keeps.bind_keeps (setup_render_pass_keeps member_kept d (fun _ _ => rfl)) (fun _ => ?_)
  refine Keeps.bind_keeps (create_pipeline_keeps member_kept d (fun _ _ => rfl) (fun _ _ => rfl)
    (fun _ _ => rfl)) (fun _ => ?_)
  refine Keeps.bind_keeps (create_framebuffer_keeps member_kept d (fun _ _ => rfl)) (fun _ => ?_)
  exact create_command_buffers_keeps member_kept d (fun _ _ => rfl)

/-- Everything `rebuild_swapchain` does after logging its entry. -/
theorem rebuild_swapchain_body_emits (d : Driver) :
    Emits Event.quiet (do
      emit Event.device_wait_idle
      cleanup_swapchain
      setup_framebuffer d
      setup_render_pass d
      create_pipeline d
      create_framebuffer d
      create_command_buffers d) := by
  refine Emits.bind_emits (Emits.emit_emits rfl) (fun _ => ?_)
  refine Emits.bind_emits (cleanup_swapchain_emits.mono quiet_of_destroy) (fun _ => ?_)
  refine Emits.bind_emits (setup_framebuffer_emits d) (fun _ => ?_)
  refine Emits.bind_emits (setup_render_pass_emits d) (fun _ => ?_)
  refine Emits.bind_emits (create_pipeline_emits d) (fun _ => ?_)
  refine Emits.bind_emits (create_framebuffer_emits d) (fun _ => ?_)
  exact create_command_buffers_emits d

theorem rebuild_swapchain_trace (d : Driver) (s : State) :
    ∃ evs, (rebuild_swapchain d s).state.trace = s.trace ++ Event.rebuild_swapchain :: evs
      ∧ ∀ e ∈ evs, e.quiet = true := by
  obtain ⟨evs, h1, h2⟩ := rebuild_swapchain_body_emits d
    { s with trace := s.trace ++ [Event.rebuild_swapchain] }
  refine ⟨evs, ?_, h2⟩
  rw [show s.trace ++ Event.rebuild_swapchain :: evs
    = (s.trace ++ [Event.rebuild_swapchain]) ++ evs by simp]
  rw [← h1]
  rfl

/-! ## Runs that reach the end -/

theorem Triple.of {α : Type} {P Q : State → Prop} {m : Sim α}
    (hs : ∀ s, P s → Succeeds m s) (hq : ∀ s, P s → Q (m s).state) : Triple P m Q := by
  intro s hp
  obtain ⟨a, s', h⟩ := hs s hp
  refine ⟨a, s', h, ?_⟩
  have := hq s hp
  rw [h] at this
  exact this

theorem Triple.bind_triple {α β : Type} {P Q R : State → Prop} {m : Sim α} {f : α → Sim β}
    (h1 : Triple P m Q) (h2 : ∀ a, Triple Q (f a) R) : Triple P (m >>= f) R := by
  intro s hp
  obtain ⟨a, s1, hm, hq⟩ := h1 s hp
  obtain ⟨b, s2, hf, hr⟩ := h2 a s1 hq
  exact ⟨b, s2, by simp only [bind_apply, Sim.bind, hm, hf], hr⟩

theorem Succeeds.bind_succeeds {α β : Type} {m : Sim α} {f : α → Sim β} {s : State}
    (h : ∀ a s1, m s = Outcome.done a s1 → Succeeds (f a) s1) (hm : Succeeds m s) :
    Succeeds (m >>= f) s := by
  obtain ⟨a, s1, hm⟩ := hm
  obtain ⟨b, s2, hf⟩ := h a s1 hm
  exact ⟨b, s2, by simp only [bind_apply, Sim.bind, hm, hf]⟩

theorem handles_length (first n : Nat) : (handles first n).length = n := by
  simp [handles]

theorem resize_length (v : List Handle) (n : Nat) : (resize v n).length = n := by
  simp only [resize, List.length_append, List.length_take, List.length_replicate]
  omega

theorem count_eq_of_emits {q p : Event → Bool} {s s' : State} {evs : List Event}
    (ht : s'.trace = s.trace ++ evs) (hq : ∀ e ∈ evs, q e = true)
    (hp : ∀ e, q e = true → p e = false) : count p s' = count p s := by
  have h0 : List.countP p evs = 0 := by
    rw [List.countP_eq_zero]
    intro e he
    simp [hp e (hq e he)]
  simp [count, ht, List.countP_append, h0]

theorem vk_destroy_succeeds (kind : Res) (h : Handle) (s : State) :
    Succeeds (vk_destroy kind h) s := by
  unfold vk_destroy Succeeds
  dsimp only
  split_ifs <;> exact ⟨(), _, rfl⟩

theorem destroy_each_succeeds (kind : Res) (hs : List Handle) :
    ∀ s, Succeeds (destroy_each kind hs) s := by
  induction hs with
  | nil => intro s; exact ⟨(), s, rfl⟩
  | cons h rest ih =>
    intro s
    unfold destroy_each
    exact Succeeds.bind_succeeds (fun _ s1 _ => ih s1) (vk_destroy_succeeds _ _ _)

theorem cleanup_swapchain_succeeds (s : State) : Succeeds cleanup_swapchain s := by
  unfold cleanup_swapchain
  refine Succeeds.bind_succeeds (fun st s1 _ => ?_) ⟨s, s, rfl⟩
  refine Succeeds.bind_succeeds (fun _ s2 _ => ?_) (destroy_each_succeeds _ _ _)
  refine Succeeds.bind_succeeds (fun _ s3 _ => ?_) (vk_destroy_succeeds _ _ _)
  refine Succeeds.bind_succeeds (fun _ s4 _ => ?_) (vk_destroy_succeeds _ _ _)
  refine Succeeds.bind_succeeds (fun _ s5 _ => ?_) (vk_destroy_succeeds _ _ _)
  refine Succeeds.bind_succeeds (fun _ s6 _ => ?_) (destroy_each_succeeds _ _ _)
  exact vk_destroy_succeeds _ _ _

theorem setup_framebuffer_views_succeeds (d : Driver)
    (hc : ∀ n, d.create Res.image_view n = VK_SUCCESS) (todo : Nat) :
    ∀ i s, i + todo ≤ s.m_swap_chain_images.length →
      Succeeds (setup_framebuffer_views d i todo) s := by
  induction todo with
  | zero => intro i s _; exact ⟨(), s, rfl⟩
  | succ k ih =>
    intro i s h
    have hi : i < s.m_swap_chain_images.length := by omega
    unfold setup_framebuffer_views
    simp only [Succeeds, bind_apply, Sim.bind, get_state, index, List.getElem?_eq_getElem hi,
      vk_create, hc, if_true, ne_eq, not_true_eq_false, if_false, update]
    apply ih
    show i + 1 + k ≤ s.m_swap_chain_images.length
    omega

theorem setup_framebuffer_succeeds (d : Driver) (s : State)
    (hc : ∀ kind n, d.create kind n = VK_SUCCESS)
    (hN : min_image_count (d.surface_capabilities (count Event.is_caps s))
      ≤ d.swapchain_images (count Event.is_images s)) :
    Succeeds (setup_framebuffer d) s := by
  unfold setup_framebuffer choose_swapchain_extent
  simp only [count] at hN
  by_cases hw : (d.surface_capabilities (List.countP Event.is_caps s.trace + 1)).currentExtent.width
      = UINT32_MAX
  · simp [Succeeds, Sim.bind, get_surface_capabilities, get_framebuffer_size, ite_apply,
      update, vk_create_swapchain, hc, get_swapchain_images, count, List.countP_append,
      Event.is_caps, hw, Event.is_images]
    apply setup_framebuffer_views_succeeds d (hc _)
    simpa [handles_length, min_image_count] using hN
  · simp [Succeeds, Sim.bind, get_surface_capabilities, get_framebuffer_size, ite_apply,
      update, vk_create_swapchain, hc, get_swapchain_images, count, List.countP_append,
      Event.is_caps, hw, Event.is_images]
    apply setup_framebuffer_views_succeeds d (hc _)
    simpa [handles_length, min_image_count] using hN

theorem setup_render_pass_succeeds (d : Driver) (s : State)
    (hc : ∀ kind n, d.create kind n = VK_SUCCESS) : Succeeds (setup_render_pass d) s := by
  unfold setup_render_pass
  simp only [Succeeds, bind_apply, Sim.bind, vk_create, hc, if_true, ne_eq, not_true_eq_false,
    if_false, update]
  exact ⟨(), _, rfl⟩

theorem Succeeds.bind_of_eq {α β : Type} {m : Sim α} {f : α → Sim β} {s s1 : State} {a : α}
    (hm : m s = Outcome.done a s1) (hf : Succeeds (f a) s1) : Succeeds (m >>= f) s := by
  obtain ⟨b, s2, hf⟩ := hf
  exact ⟨b, s2, by simp only [bind_apply, Sim.bind, hm, hf]⟩

theorem vk_create_eq (d : Driver) (kind : Res) (s : State)
    (hc : ∀ kind n, d.create kind n = VK_SUCCESS) :
    vk_create d kind s = Outcome.done (VK_SUCCESS, s.fresh)
      { s with trace := s.trace ++ [Event.create kind VK_SUCCESS s.fresh],
               live := s.live ++ [(kind, s.fresh)],
               fresh := s.fresh + 1 } := by
  unfold vk_create
  simp only [hc, if_true]

theorem make_shader_module_done (d : Driver) (s : State)
    (hc : ∀ kind n, d.create kind n = VK_SUCCESS) :
    ∃ s', make_shader_module d s = Outcome.done s.fresh s' := by
  unfold make_shader_module
  simp only [bind_apply, Sim.bind, vk_create, hc, if_true, ne_eq, not_true_eq_false,
    if_false, pure_apply]
  exact ⟨_, rfl⟩

theorem create_pipeline_succeeds (d : Driver) (s : State)
    (hc : ∀ kind n, d.create kind n = VK_SUCCESS) : Succeeds (create_pipeline d) s := by
  unfold create_pipeline
  obtain ⟨s1, h1⟩ := make_shader_module_done d s hc
  refine Succeeds.bind_of_eq h1 ?_
  obtain ⟨s2, h2⟩ := make_shader_module_done d s1 hc
  refine Succeeds.bind_of_eq h2 ?_
  refine Succeeds.bind_of_eq (vk_create_eq d _ _ hc) ?_
  simp only [ne_eq, not_true_eq_false, if_false]
  refine Succeeds.bind_of_eq (show update _ _ = Outcome.done () _ from rfl) ?_
  refine Succeeds.bind_of_eq (vk_create_eq d _ _ hc) ?_
  simp only [ne_eq, not_true_eq_false, if_false]
  refine Succeeds.bind_of_eq (show update _ _ = Outcome.done () _ from rfl) ?_
  refine Succeeds.bind_of_eq (vk_create_eq d _ _ hc) ?_
  simp only [ne_eq, not_true_eq_false, if_false]
  refine Succeeds.bind_of_eq (show update _ _ = Outcome.done () _ from rfl) ?_
  refine Succeeds.bind_succeeds (fun _ s3 _ => ?_) (vk_destroy_succeeds _ _ _)
  exact vk_destroy_succeeds _ _ _

theorem create_framebuffer_loop_succeeds (d : Driver)
    (hc : ∀ n, d.create Res.framebuffer n = VK_SUCCESS) (todo : Nat) :
    ∀ i s, i + todo ≤ s.m_swap_chain_views.length →
      Succeeds (create_framebuffer_loop d i todo) s := by
  induction todo with
  | zero => intro i s _; exact ⟨(), s, rfl⟩
  | succ k ih =>
    intro i s h
    have hi : i < s.m_swap_chain_views.length := by omega
    unfold create_framebuffer_loop
    simp only [Succeeds, bind_apply, Sim.bind, get_state, index, List.getElem?_eq_getElem hi,
      vk_create, hc, if_true, ne_eq, not_true_eq_false, if_false, update]
    apply ih
    show i + 1 + k ≤ s.m_swap_chain_views.length
    omega

theorem create_framebuffer_succeeds (d : Driver) (s : State)
    (hc : ∀ kind n, d.create kind n = VK_SUCCESS) : Succeeds (create_framebuffer d) s := by
  unfold create_framebuffer
  simp only [Succeeds, bind_apply, Sim.bind, update, get_state]
  apply create_framebuffer_loop_succeeds d (hc _)
  simp [resize_length]

theorem create_command_buffers_loop_succeeds (d : Driver)
    (hb : ∀ n, d.begin_command_buffer n = VK_SUCCESS)
    (he : ∀ n, d.end_command_buffer n = VK_SUCCESS) (todo : Nat) :
    ∀ i s, i + todo ≤ s.m_command_buffers.length → i + todo ≤ s.m_framebuffers.length →
      i + todo ≤ s.m_descriptor_sets.length →
      Succeeds (create_command_buffers_loop d i todo) s := by
  induction todo with
  | zero => intro i s _ _ _; exact ⟨(), s, rfl⟩
  | succ k ih =>
    intro i s h1 h2 h3
    have hi1 : i < s.m_command_buffers.length := by omega
    have hi2 : i < s.m_framebuffers.length := by omega
    have hi3 : i < s.m_descriptor_sets.length := by omega
    unfold create_command_buffers_loop
    simp only [Succeeds, bind_apply, Sim.bind, get_state, index, List.getElem?_eq_getElem hi1,
      List.getElem?_eq_getElem hi2, List.getElem?_eq_getElem hi3,
      vk_begin_command_buffer, vk_end_command_buffer, hb, he, if_true, ne_eq,
      not_true_eq_false, if_false, emit]
    apply ih
    · show i + 1 + k ≤ s.m_command_buffers.length
      omega
    · show i + 1 + k ≤ s.m_framebuffers.length
      omega
    · show i + 1 + k ≤ s.m_descriptor_sets.length
      omega

theorem create_command_buffers_succeeds (d : Driver) (s : State) (hd : d.reliable)
    (h : s.m_framebuffers.length ≤ s.m_descriptor_sets.length) :
    Succeeds (create_command_buffers d) s := by
  unfold create_command_buffers
  simp only [Succeeds, bind_apply, Sim.bind, update, get_state, vk_allocate, hd.create_ok,
    if_true, ne_eq, not_true_eq_false, if_false]
  apply create_command_buffers_loop_succeeds d hd.begin_ok hd.end_ok
  · simp [resize_length, handles_length]
  · simp [resize_length]
  · simpa [resize_length] using h

theorem setup_framebuffer_views_done_length (d : Driver) (i n : Nat) (S s' : State)
    (h : setup_framebuffer_views d i n S = Outcome.done () s') :
    s'.m_swap_chain_views.length = S.m_swap_chain_views.length := by
  have key := setup_framebuffer_views_keeps (g := fun s => s.m_swap_chain_views.length)
      (fun _ _ _ _ _ => rfl) d (fun s i h => by simp) n i S
  rw [h] at key
  exact key

theorem setup_framebuffer_views_length (d : Driver) (s s' : State)
    (h : setup_framebuffer d s = Outcome.done () s') :
    s'.m_swap_chain_views.length
      = min_image_count (d.surface_capabilities (count Event.is_caps s)) := by
  unfold setup_framebuffer at h
  simp only [bind_apply, Sim.bind, get_surface_capabilities] at h
  split at h
  · rename_i ext s1 hext
    simp only [update, vk_create_swapchain] at h
    split_ifs at h with hr
    · simp only [ne_eq, hr, not_true_eq_false, if_false, bind_apply, Sim.bind, update,
        get_swapchain_images] at h
      rw [setup_framebuffer_views_done_length d _ _ _ _ h]
      simp [resize_length, min_image_count]
    · simp [hr, raise] at h
  · simp at h

theorem create_framebuffer_loop_done_length (d : Driver) (i n : Nat) (S s' : State)
    (h : create_framebuffer_loop d i n S = Outcome.done () s') :
    s'.m_framebuffers.length = S.m_framebuffers.length := by
  have key := create_framebuffer_loop_keeps (g := fun s => s.m_framebuffers.length)
    (fun _ _ _ _ _ => rfl) d (fun s i h => by simp) n i S
  rw [h] at key
  exact key

theorem create_framebuffer_done_length (d : Driver) (s s' : State)
    (h : create_framebuffer d s = Outcome.done () s') :
    s'.m_framebuffers.length = s.m_swap_chain_views.length := by
  unfold create_framebuffer at h
  simp only [bind_apply, Sim.bind, update, get_state] at h
  rw [create_framebuffer_loop_done_length d _ _ _ _ h, resize_length]

theorem create_command_buffers_loop_done_length (d : Driver) (i n : Nat) (S s' : State)
    (h : create_command_buffers_loop d i n S = Outcome.done () s') :
    s'.m_command_buffers.length = S.m_command_buffers.length := by
  have key := create_command_buffers_loop_keeps (g := fun s => s.m_command_buffers.length)
    (fun _ _ _ _ _ => rfl) d n i S
  rw [h] at key
  exact key

theorem create_command_buffers_done_length (d : Driver) (s s' : State)
    (h : create_command_buffers d s = Outcome.done () s') :
    s'.m_command_buffers.length = s.m_framebuffers.length := by
  unfold create_command_buffers at h
  simp only [bind_apply, Sim.bind, update, get_state, vk_allocate] at h
  split_ifs at h with hr
  · simp only [ne_eq, hr, not_true_eq_false, if_false, bind_apply, Sim.bind, update] at h
    rw [create_command_buffers_loop_done_length d _ _ _ _ h, handles_length, resize_length]
  · simp [hr, raise] at h

theorem quiet_not_caps (e : Event) (h : e.is_destroy = true) : e.is_caps = false := by
  cases e <;> first | rfl | cases h

theorem quiet_not_images (e : Event) (h : e.is_destroy = true) : e.is_images = false := by
  cases e <;> first | rfl | cases h

/-- A successful rebuild leaves a command-buffer table with one entry per requested image. -/
theorem rebuild_swapchain_ok (d : Driver) (s : State) (hd : d.reliable)
    (hN : min_image_count (d.surface_capabilities (count Event.is_caps s))
      ≤ d.swapchain_images (count Event.is_images s))
    (hS : min_image_count (d.surface_capabilities (count Event.is_caps s))
      ≤ s.m_descriptor_sets.length) :
    ∃ s', rebuild_swapchain d s = Outcome.done () s' ∧
      s'.m_command_buffers.length
        = min_image_count (d.surface_capabilities (count Event.is_caps s)) := by
  let P : State → Prop := fun t => count Event.is_caps t = count Event.is_caps s
    ∧ count Event.is_images t = count Event.is_images s
    ∧ t.m_descriptor_sets = s.m_descriptor_sets
  let Q2 : State → Prop := fun t => t.m_swap_chain_views.length
      = min_image_count (d.surface_capabilities (count Event.is_caps s))
    ∧ t.m_descriptor_sets = s.m_descriptor_sets
  let Q3 : State → Prop := fun t => t.m_framebuffers.length
      = min_image_count (d.surface_capabilities (count Event.is_caps s))
    ∧ t.m_descriptor_sets = s.m_descriptor_sets
  have sets_of_kept : ∀ a b : State, kept a = kept b → a.m_descriptor_sets = b.m_descriptor_sets :=
    fun a b h => congrArg (fun x => x.2.1) h
  have T1 : ∀ e : Event, e.is_caps = false → e.is_images = false → Triple P (emit e) P := by
    intro e h1 h2 t ht
    refine ⟨(), _, rfl, ?_, ?_, ht.2.2⟩
    · simp [count, List.countP_append, h1]
      exact ht.1
    · simp [count, List.countP_append, h2]
      exact ht.2.1
  have T3 : Triple P cleanup_swapchain P := by
    refine Triple.of (fun t _ => cleanup_swapchain_succeeds t) (fun t ht => ?_)
    obtain ⟨evs, h1, h2⟩ := cleanup_swapchain_emits t
    refine ⟨?_, ?_, ?_⟩
    · rw [count_eq_of_emits h1 h2 quiet_not_caps]; exact ht.1
    · rw [count_eq_of_emits h1 h2 quiet_not_images]; exact ht.2.1
    · rw [sets_of_kept _ _ (cleanup_swapchain_keeps member_kept t)]; exact ht.2.2
  have T4 : Triple P (setup_framebuffer d) Q2 := by
    intro t ht
    obtain ⟨_, t', h⟩ := setup_framebuffer_succeeds d t hd.create_ok (by rw [ht.1, ht.2.1]; exact hN)
    refine ⟨(), t', h, ?_, ?_⟩
    · rw [setup_framebuffer_views_length d t t' h, ht.1]
    · have := sets_of_kept _ _ (setup_framebuffer_keeps d t)
      rw [h] at this
      exact this.trans ht.2.2
  have T5 : Triple Q2 (setup_render_pass d) Q2 := by
    refine Triple.of (fun t _ => setup_render_pass_succeeds d t hd.create_ok) (fun t ht => ?_)
    refine ⟨?_, ?_⟩
    · exact (setup_render_pass_keeps (g := fun s => s.m_swap_chain_views.length)
        (fun _ _ _ _ _ => rfl) d (fun _ _ => rfl) t).trans ht.1
    · rw [sets_of_kept _ _ (setup_render_pass_keeps member_kept d (fun _ _ => rfl) t)]
      exact ht.2
  have T6 : Triple Q2 (create_pipeline d) Q2 := by
    refine Triple.of (fun t _ => create_pipeline_succeeds d t hd.create_ok) (fun t ht => ?_)
    refine ⟨?_, ?_⟩
    · exact (create_pipeline_keeps (g := fun s => s.m_swap_chain_views.length)
        (fun _ _ _ _ _ => rfl) d (fun _ _ => rfl) (fun _ _ => rfl) (fun _ _ => rfl) t).trans ht.1
    · rw [sets_of_kept _ _ (create_pipeline_keeps member_kept d (fun _ _ => rfl)
        (fun _ _ => rfl) (fun _ _ => rfl) t)]
      exact ht.2
  have T7 : Triple Q2 (create_framebuffer d) Q3 := by
    intro t ht
    obtain ⟨_, t', h⟩ := create_framebuffer_succeeds d t hd.create_ok
    refine ⟨(), t', h, ?_, ?_⟩
    · rw [create_framebuffer_done_length d t t' h]; exact ht.1
    · have := sets_of_kept _ _ (create_framebuffer_keeps member_kept d (fun _ _ => rfl) t)
      rw [h] at this
      exact this.trans ht.2
  have T8 : Triple Q3 (create_command_buffers d) (fun t => t.m_command_buffers.length
      = min_image_count (d.surface_capabilities (count Event.is_caps s))) := by
    intro t ht
    obtain ⟨_, t', h⟩ := create_command_buffers_succeeds d t hd
      (by rw [ht.1, ht.2]; exact hS)
    exact ⟨(), t', h, (create_command_buffers_done_length d t t' h).trans ht.1⟩
  have T : Triple P (rebuild_swapchain d) (fun t => t.m_command_buffers.length
      = min_image_count (d.surface_capabilities (count Event.is_caps s))) := by
    unfold rebuild_swapchain
    refine Triple.bind_triple (T1 _ rfl rfl) (fun _ => ?_)
    refine Triple.bind_triple (T1 _ rfl rfl) (fun _ => ?_)
    refine Triple.bind_triple T3 (fun _ => ?_)
    refine Triple.bind_triple T4 (fun _ => ?_)
    refine Triple.bind_triple T5 (fun _ => ?_)
    refine Triple.bind_triple T6 (fun _ => ?_)
    refine Triple.bind_triple T7 (fun _ => ?_)
    exact T8
  obtain ⟨_, s', h, hq⟩ := T s ⟨rfl, rfl, rfl⟩
  exact ⟨s', h, hq⟩

/-! ## One activation of `draw_frame` -/

theorem draw_frame_once_eq (d : Driver) (s : State) :
    draw_frame_once d s =
      if (d.acquire (count Event.is_acquire s)).1 = VK_ERROR_OUT_OF_DATE_KHR
          ∨ s.m_was_resized = true then
        match rebuild_swapchain d (after_acquire d s) with
        | Outcome.done _ s3 => Outcome.done true { s3 with m_was_resized := false }
        | Outcome.abort e s3 => Outcome.abort e s3
      else if (d.acquire (count Event.is_acquire s)).1 ≠ VK_SUCCESS
          ∧ (d.acquire (count Event.is_acquire s)).1 ≠ VK_SUBOPTIMAL_KHR then
        Outcome.abort (Abort.exception Exn.AcquireFailed) (after_acquire d s)
      else
        match s.m_command_buffers[(d.acquire (count Event.is_acquire s)).2]? with
        | none => Outcome.abort (Abort.out_of_bounds Vec.m_command_buffers
            (d.acquire (count Event.is_acquire s)).2 s.m_command_buffers.length) (after_acquire d s)
        | some cb =>
          if d.submit (count Event.is_submit s) ≠ VK_SUCCESS then
            Outcome.abort (Abort.exception Exn.SubmitFailed)
              { s with trace := (after_acquire d s).trace ++
                  [Event.submit s.m_queue cb s.m_image_available_semaphore
                    VK_PIPELINE_STAGE_COLOR_ATTACHMENT_OUTPUT_BIT s.m_render_finished_semaphore
                    (d.submit (count Event.is_submit s))] }
          else
            Outcome.done false
              { s with trace := (after_acquire d s).trace ++
                  [Event.submit s.m_queue cb s.m_image_available_semaphore
                    VK_PIPELINE_STAGE_COLOR_ATTACHMENT_OUTPUT_BIT s.m_render_finished_semaphore
                    (d.submit (count Event.is_submit s)),
                   Event.present s.m_present_queue s.m_swapchain
                    (d.acquire (count Event.is_acquire s)).2 s.m_render_finished_semaphore
                    (d.present (count Event.is_present s))] } := by
  have hc : List.countP Event.is_acquire (s.trace ++ [Event.update_ubo s.m_swapchain_size])
      = List.countP Event.is_acquire s.trace := by
    simp [List.countP_append, Event.is_acquire]
  simp only [draw_frame_once, update_ubo, bind_apply, Sim.bind, get_state, emit,
    vk_acquire_next_image, pure_apply, count, after_acquire, hc, List.append_assoc,
    List.singleton_append]
  by_cases h : (d.acquire (List.countP Event.is_acquire s.trace)).1 = VK_ERROR_OUT_OF_DATE_KHR
          ∨ s.m_was_resized = true
  · simp only [h, if_true, ite_apply, bind_apply, Sim.bind, update, pure_apply]
    cases rebuild_swapchain d _ <;> rfl
  · simp only [h, if_false, ite_apply, bind_apply, Sim.bind, update, pure_apply]
    by_cases h2 : (d.acquire (List.countP Event.is_acquire s.trace)).1 ≠ VK_SUCCESS
          ∧ (d.acquire (List.countP Event.is_acquire s.trace)).1 ≠ VK_SUBOPTIMAL_KHR
    · simp only [h2, if_true, raise, and_self, not_false_eq_true, ne_eq]
    · simp only [h2, if_false, index, bind_apply, Sim.bind]
      cases hcb : s.m_command_buffers[(d.acquire (List.countP Event.is_acquire s.trace)).2]? with
      | none => simp only []
      | some cb =>
        simp only [vk_queue_submit, vk_queue_present, ite_apply, raise, pure_apply, bind_apply,
          Sim.bind]
        by_cases h3 : d.submit (List.countP Event.is_submit s.trace) = VK_SUCCESS
        · simp [h3, count, Event.is_submit, Event.is_present, Event.is_acquire, ite_apply,
            Sim.bind, vk_queue_present]
        · simp [h3, count, Event.is_submit, Event.is_acquire, ite_apply, raise]


theorem quiet_not_acquire (e : Event) (h : e.quiet = true) : e.is_acquire = false := by
  cases e <;> first | rfl | cases h

theorem quiet_not_submit (e : Event) (h : e.quiet = true) : e.is_submit = false := by
  cases e <;> first | rfl | cases h

theorem quiet_not_present (e : Event) (h : e.quiet = true) : e.is_present = false := by
  cases e <;> first | rfl | cases h

theorem quiet_not_rebuild (e : Event) (h : e.quiet = true) : e.is_rebuild = false := by
  cases e <;> first | rfl | cases h

theorem countP_quiet {p : Event → Bool} {evs : List Event} (hq : ∀ e ∈ evs, e.quiet = true)
    (hp : ∀ e, e.quiet = true → p e = false) : List.countP p evs = 0 := by
  rw [List.countP_eq_zero]
  intro e he
  simp [hp e (hq e he)]

/-- Call counts and untouched members across one `rebuild_swapchain`, however it ends. -/
theorem rebuild_swapchain_counts (d : Driver) (s : State) :
    count Event.is_acquire (rebuild_swapchain d s).state = count Event.is_acquire s
    ∧ count Event.is_submit (rebuild_swapchain d s).state = count Event.is_submit s
    ∧ count Event.is_present (rebuild_swapchain d s).state = count Event.is_present s
    ∧ count Event.is_rebuild (rebuild_swapchain d s).state = count Event.is_rebuild s + 1 := by
  obtain ⟨evs, h1, h2⟩ := rebuild_swapchain_trace d s
  refine ⟨?_, ?_, ?_, ?_⟩
  · simp [count, h1, List.countP_append, List.countP_cons, Event.is_acquire,
      countP_quiet h2 quiet_not_acquire]
  · simp [count, h1, List.countP_append, List.countP_cons, Event.is_submit,
      countP_quiet h2 quiet_not_submit]
  · simp [count, h1, List.countP_append, List.countP_cons, Event.is_present,
      countP_quiet h2 quiet_not_present]
  · simp [count, h1, List.countP_append, List.countP_cons, Event.is_rebuild,
      countP_quiet h2 quiet_not_rebuild]

theorem after_acquire_counts (d : Driver) (s : State) :
    count Event.is_acquire (after_acquire d s) = count Event.is_acquire s + 1
    ∧ count Event.is_submit (after_acquire d s) = count Event.is_submit s
    ∧ count Event.is_present (after_acquire d s) = count Event.is_present s
    ∧ count Event.is_rebuild (after_acquire d s) = count Event.is_rebuild s
    ∧ count Event.is_caps (after_acquire d s) = count Event.is_caps s
    ∧ count Event.is_images (after_acquire d s) = count Event.is_images s := by
  simp [count, after_acquire, List.countP_append, List.countP_cons, Event.is_acquire,
    Event.is_submit, Event.is_present, Event.is_rebuild, Event.is_caps, Event.is_images]

/-- An activation that sees out-of-date or the resize flag, against a reliable driver
that makes enough images: it rebuilds once and ends with the call of `draw_frame`. -/
theorem draw_frame_once_retry (d : Driver) (s : State) (hd : d.reliable)
    (hr : (d.acquire (count Event.is_acquire s)).1 = VK_ERROR_OUT_OF_DATE_KHR
      ∨ s.m_was_resized = true)
    (hN : min_image_count (d.surface_capabilities (count Event.is_caps s))
      ≤ d.swapchain_images (count Event.is_images s))
    (hS : min_image_count (d.surface_capabilities (count Event.is_caps s))
      ≤ s.m_descriptor_sets.length) :
    ∃ s1, draw_frame_once d s = Outcome.done true s1
      ∧ s1.m_was_resized = false
      ∧ count Event.is_acquire s1 = count Event.is_acquire s + 1
      ∧ count Event.is_rebuild s1 = count Event.is_rebuild s + 1
      ∧ count Event.is_submit s1 = count Event.is_submit s
      ∧ count Event.is_present s1 = count Event.is_present s
      ∧ s1.m_descriptor_sets = s.m_descriptor_sets
      ∧ s1.m_command_buffers.length
          = min_image_count (d.surface_capabilities (count Event.is_caps s)) := by
  obtain ⟨a1, a2, a3, a4, a5, a6⟩ := after_acquire_counts d s
  obtain ⟨s3, h3, hlen⟩ := rebuild_swapchain_ok d (after_acquire d s) hd
    (by rw [a5, a6]; exact hN) (by rw [a5]; exact hS)
  obtain ⟨c1, c2, c3, c4⟩ := rebuild_swapchain_counts d (after_acquire d s)
  have hk := rebuild_swapchain_keeps d (after_acquire d s)
  rw [h3] at c1 c2 c3 c4 hk
  simp only [Outcome.state] at c1 c2 c3 c4 hk
  refine ⟨{ s3 with m_was_resized := false }, ?_, rfl, ?_, ?_, ?_, ?_, ?_, ?_⟩
  · rw [draw_frame_once_eq, if_pos hr, h3]
  · exact c1.trans a1
  · exact c4.trans (by rw [a4])
  · exact c2.trans a2
  · exact c3.trans a3
  · exact congrArg (fun x => x.2.1) hk
  · rw [a5] at hlen; exact hlen

/-- An activation with the resize flag clear whose acquire does not report
out-of-date: it ends the frame, with one acquire and no rebuild. -/
theorem draw_frame_once_final (d : Driver) (s : State) (hflag : s.m_was_resized = false)
    (hr : (d.acquire (count Event.is_acquire s)).1 ≠ VK_ERROR_OUT_OF_DATE_KHR) :
    (∃ s1, draw_frame_once d s = Outcome.done false s1
        ∧ count Event.is_acquire s1 = count Event.is_acquire s + 1
        ∧ count Event.is_rebuild s1 = count Event.is_rebuild s)
    ∨ (∃ e s1, draw_frame_once d s = Outcome.abort e s1
        ∧ count Event.is_acquire s1 = count Event.is_acquire s + 1
        ∧ count Event.is_rebuild s1 = count Event.is_rebuild s) := by
  obtain ⟨a1, a2, a3, a4, a5, a6⟩ := after_acquire_counts d s
  rw [draw_frame_once_eq, if_neg (by simp [hflag, hr])]
  by_cases h2 : (d.acquire (count Event.is_acquire s)).1 ≠ VK_SUCCESS
      ∧ (d.acquire (count Event.is_acquire s)).1 ≠ VK_SUBOPTIMAL_KHR
  · rw [if_pos h2]
    exact Or.inr ⟨_, _, rfl, a1, a4⟩
  · rw [if_neg h2]
    cases hcb : s.m_command_buffers[(d.acquire (count Event.is_acquire s)).2]? with
    | none => exact Or.inr ⟨_, _, rfl, a1, a4⟩
    | some cb =>
      dsimp only
      by_cases h3 : d.submit (count Event.is_submit s) ≠ VK_SUCCESS
      · rw [if_pos h3]
        refine Or.inr ⟨_, _, rfl, ?_, ?_⟩
        · simp [count, after_acquire, List.countP_append, List.countP_cons, Event.is_acquire]
        · simp [count, after_acquire, List.countP_append, List.countP_cons, Event.is_rebuild]
      · rw [if_neg h3]
        refine Or.inl ⟨_, rfl, ?_, ?_⟩
        · simp [count, after_acquire, List.countP_append, List.countP_cons, Event.is_acquire]
        · simp [count, after_acquire, List.countP_append, List.countP_cons, Event.is_rebuild]


theorem setup_device_steady :
    setup_device (Driver.steady 2 3) State.boot = Outcome.done () State.ready := by
  simp [setup_device, setup_framebuffer, choose_swapchain_extent, setup_framebuffer_views,
    setup_render_pass, make_shader_module, create_pipeline, create_framebuffer,
    create_framebuffer_loop, create_command_pool, create_semaphores, create_descriptor_pool,
    create_descriptor_set, create_command_buffers, create_command_buffers_loop,
    cleanup_swapchain, destroy_each, rebuild_swapchain, update_ubo, draw_frame, draw_frame_once,
    Sim.bind, get_surface_capabilities, get_framebuffer_size, update, emit, vk_create_swapchain,
    vk_create, vk_allocate, vk_destroy, get_swapchain_images, get_state, index, raise,
    vk_begin_command_buffer, vk_end_command_buffer, vk_acquire_next_image, vk_queue_submit,
    vk_queue_present, count, Event.is_caps, Event.is_fbsize, Event.is_create, Event.is_images,
    Event.is_begin, Event.is_end, Event.is_acquire, Event.is_submit, Event.is_present,
    Event.is_rebuild, handles, resize, VK_SUCCESS, VK_SUBOPTIMAL_KHR, VK_ERROR_OUT_OF_DATE_KHR,
    UINT32_MAX, VK_NULL_HANDLE, VK_PIPELINE_STAGE_COLOR_ATTACHMENT_OUTPUT_BIT, Outcome.state,
    Outcome.failure, Outcome.value, ite_apply, List.range, List.range.loop, Driver.steady, State.boot, State.ready]

theorem setup_device_wide :
    setup_device (Driver.steady 2 4) State.boot = Outcome.done () State.wide := by
  simp [setup_device, setup_framebuffer, choose_swapchain_extent, setup_framebuffer_views,
    setup_render_pass, make_shader_module, create_pipeline, create_framebuffer,
    create_framebuffer_loop, create_command_pool, create_semaphores, create_descriptor_pool,
    create_descriptor_set, create_command_buffers, create_command_buffers_loop,
    cleanup_swapchain, destroy_each, rebuild_swapchain, update_ubo, draw_frame, draw_frame_once,
    Sim.bind, get_surface_capabilities, get_framebuffer_size, update, emit, vk_create_swapchain,
    vk_create, vk_allocate, vk_destroy, get_swapchain_images, get_state, index, raise,
    vk_begin_command_buffer, vk_end_command_buffer, vk_acquire_next_image, vk_queue_submit,
    vk_queue_present, count, Event.is_caps, Event.is_fbsize, Event.is_create, Event.is_images,
    Event.is_begin, Event.is_end, Event.is_acquire, Event.is_submit, Event.is_present,
    Event.is_rebuild, handles, resize, VK_SUCCESS, VK_SUBOPTIMAL_KHR, VK_ERROR_OUT_OF_DATE_KHR,
    UINT32_MAX, VK_NULL_HANDLE, VK_PIPELINE_STAGE_COLOR_ATTACHMENT_OUTPUT_BIT, Outcome.state,
    Outcome.failure, Outcome.value, ite_apply, List.range, List.range.loop, Driver.steady, State.boot, State.wide]

/-! ## Frames that rebuild -/

/-- An activation that rebuilds, followed by an activation whose acquire succeeds with
an index inside the new table and whose submission is accepted. -/
theorem draw_frame_after_one_rebuild (d : Driver) (s : State) (fuel i : Nat)
    (hd : d.reliable)
    (hr : (d.acquire (count Event.is_acquire s)).1 = VK_ERROR_OUT_OF_DATE_KHR
      ∨ s.m_was_resized = true)
    (h2 : d.acquire (count Event.is_acquire s + 1) = (VK_SUCCESS, i))
    (hN : min_image_count (d.surface_capabilities (count Event.is_caps s))
      ≤ d.swapchain_images (count Event.is_images s))
    (hS : min_image_count (d.surface_capabilities (count Event.is_caps s))
      ≤ s.m_descriptor_sets.length)
    (hi : i < min_image_count (d.surface_capabilities (count Event.is_caps s)))
    (hsub : d.submit (count Event.is_submit s) = VK_SUCCESS) :
    ∃ pre s' cb, draw_frame d (fuel + 2) s = some (Outcome.done () s')
      ∧ s'.m_was_resized = false
      ∧ count Event.is_rebuild s' = count Event.is_rebuild s + 1
      ∧ count Event.is_acquire s' = count Event.is_acquire s + 2
      ∧ count Event.is_submit s' = count Event.is_submit s + 1
      ∧ count Event.is_present s' = count Event.is_present s + 1
      ∧ s'.m_command_buffers[i]? = some cb
      ∧ s'.trace = pre ++
          [Event.update_ubo s'.m_swapchain_size,
           Event.acquire s'.m_swapchain s'.m_image_available_semaphore VK_SUCCESS i,
           Event.submit s'.m_queue cb s'.m_image_available_semaphore
             VK_PIPELINE_STAGE_COLOR_ATTACHMENT_OUTPUT_BIT s'.m_render_finished_semaphore
             VK_SUCCESS,
           Event.present s'.m_present_queue s'.m_swapchain i s'.m_render_finished_semaphore
             (d.present (count Event.is_present s))] := by
  obtain ⟨s1, e1, f1, c1, c2, c3, c4, _, hlen⟩ := draw_frame_once_retry d s hd hr hN hS
  have hi1 : i < s1.m_command_buffers.length := by rw [hlen]; exact hi
  have hA : d.acquire (count Event.is_acquire s1) = (VK_SUCCESS, i) := by rw [c1, h2]
  have hne : ¬ ((d.acquire (count Event.is_acquire s1)).1 = VK_ERROR_OUT_OF_DATE_KHR
      ∨ s1.m_was_resized = true) := by
    rw [hA, f1]; simp [VK_SUCCESS, VK_ERROR_OUT_OF_DATE_KHR]
  have hne2 : ¬ ((d.acquire (count Event.is_acquire s1)).1 ≠ VK_SUCCESS
      ∧ (d.acquire (count Event.is_acquire s1)).1 ≠ VK_SUBOPTIMAL_KHR) := by
    rw [hA]; simp
  have hS1 : ¬ (d.submit (count Event.is_submit s1) ≠ VK_SUCCESS) := by
    rw [c3, hsub]; simp
  have e2 := draw_frame_once_eq d s1
  rw [if_neg hne, if_neg hne2, hA, List.getElem?_eq_getElem hi1] at e2
  simp only [if_neg hS1] at e2
  cases hdf : draw_frame_once d s1 with
  | abort e s2 => rw [hdf] at e2; cases e2
  | done b s2 =>
    rw [hdf] at e2
    injection e2 with hb hs2
    subst hb
    refine ⟨s1.trace, s2, s1.m_command_buffers[i], ?_, ?_, ?_, ?_, ?_, ?_, ?_, ?_⟩
    · simp only [draw_frame, e1, hdf]
    · rw [hs2]; exact f1
    · rw [hs2]
      simp [count, after_acquire, List.countP_append, List.countP_cons, Event.is_rebuild]
      exact c2
    · rw [hs2]
      simp [count, after_acquire, List.countP_append, List.countP_cons, Event.is_acquire]
      simp only [count] at c1
      omega
    · rw [hs2]
      simp [count, after_acquire, List.countP_append, List.countP_cons, Event.is_submit]
      exact c3
    · rw [hs2]
      simp [count, after_acquire, List.countP_append, List.countP_cons, Event.is_present]
      exact c4
    · rw [hs2]
      simp [List.getElem?_eq_getElem hi1]
    · rw [hs2]
      simp [after_acquire, hA, hsub, c3, c4]

/-- With the resize flag clear, `k` out-of-date acquires followed by one that is not
out-of-date: the call returns after `k` rebuilds and `k + 1` acquires. -/
theorem draw_frame_retries (d : Driver) (hd : d.reliable)
    (hN : ∀ a b, min_image_count (d.surface_capabilities a) ≤ d.swapchain_images b)
    (k : Nat) (s : State)
    (hS : ∀ a, min_image_count (d.surface_capabilities a) ≤ s.m_descriptor_sets.length)
    (hflag : s.m_was_resized = false)
    (hood : ∀ j, j < k →
      (d.acquire (count Event.is_acquire s + j)).1 = VK_ERROR_OUT_OF_DATE_KHR)
    (hlast : (d.acquire (count Event.is_acquire s + k)).1 ≠ VK_ERROR_OUT_OF_DATE_KHR) :
    ∃ o, draw_frame d (k + 1) s = some o
      ∧ count Event.is_rebuild o.state = count Event.is_rebuild s + k
      ∧ count Event.is_acquire o.state = count Event.is_acquire s + k + 1 := by
  induction k generalizing s with
  | zero =>
    rcases draw_frame_once_final d s hflag hlast with ⟨s1, e, c1, c2⟩ | ⟨a, s1, e, c1, c2⟩
    · exact ⟨Outcome.done () s1, by simp only [draw_frame, e], c2, c1⟩
    · exact ⟨Outcome.abort a s1, by simp only [draw_frame, e], c2, c1⟩
  | succ k ih =>
    obtain ⟨s1, e1, f1, c1, c2, _, _, hsets, _⟩ :=
      draw_frame_once_retry d s hd (Or.inl (hood 0 (Nat.succ_pos k))) (hN _ _) (hS _)
    obtain ⟨o, ho, r1, r2⟩ := ih s1 (fun a => by rw [hsets]; exact hS a) f1
      (fun j hj => by
        have := hood (j + 1) (Nat.succ_lt_succ hj)
        rw [c1, Nat.add_assoc, Nat.add_comm 1 j]; exact this)
      (by rw [c1, Nat.add_assoc, Nat.add_comm 1 k]; exact hlast)
    refine ⟨o, ?_, ?_, ?_⟩
    · rw [← ho]
      simp only [draw_frame, e1]
    · rw [r1, c2]; omega
    · rw [r2, c1]; omega

theorem steady_reliable (m n : Nat) : (Driver.steady m n).reliable :=
  ⟨fun _ _ => rfl, fun _ => rfl, fun _ => rfl⟩

/-! ## Recovery from an out-of-date result, and the counterexample to claim C2 -/

/-- Recovery from one out-of-date result, when the rebuilt table covers the image that
is handed out: with the resize flag clear, a first acquire that reports out-of-date and a
second acquire that succeeds with index `i` (against a driver that never fails a
creation, makes at least the requested number of images and accepts the
submission, with `i` below the requested image count): `draw_frame` returns without
error after exactly one rebuild and two acquires, and its last calls are the
acquire of `i`, the submission of the table entry `i` and the presentation of
image `i`. -/
theorem draw_frame_recovers_from_one_out_of_date (d : Driver) (s : State) (fuel i j : Nat)
    (hd : d.reliable) (_hflag : s.m_was_resized = false)
    (h1 : d.acquire (count Event.is_acquire s) = (VK_ERROR_OUT_OF_DATE_KHR, j))
    (h2 : d.acquire (count Event.is_acquire s + 1) = (VK_SUCCESS, i))
    (hN : min_image_count (d.surface_capabilities (count Event.is_caps s))
      ≤ d.swapchain_images (count Event.is_images s))
    (hS : min_image_count (d.surface_capabilities (count Event.is_caps s))
      ≤ s.m_descriptor_sets.length)
    (hi : i < min_image_count (d.surface_capabilities (count Event.is_caps s)))
    (hsub : d.submit (count Event.is_submit s) = VK_SUCCESS) :
    ∃ pre s' cb, draw_frame d (fuel + 2) s = some (Outcome.done () s')
      ∧ count Event.is_rebuild s' = count Event.is_rebuild s + 1
      ∧ count Event.is_acquire s' = count Event.is_acquire s + 2
      ∧ count Event.is_submit s' = count Event.is_submit s + 1
      ∧ count Event.is_present s' = count Event.is_present s + 1
      ∧ s'.m_command_buffers[i]? = some cb
      ∧ s'.trace = pre ++
          [Event.update_ubo s'.m_swapchain_size,
           Event.acquire s'.m_swapchain s'.m_image_available_semaphore VK_SUCCESS i,
           Event.submit s'.m_queue cb s'.m_image_available_semaphore
             VK_PIPELINE_STAGE_COLOR_ATTACHMENT_OUTPUT_BIT s'.m_render_finished_semaphore
             VK_SUCCESS,
           Event.present s'.m_present_queue s'.m_swapchain i s'.m_render_finished_semaphore
             (d.present (count Event.is_present s))] := by
  obtain ⟨pre, s', cb, h, _, r⟩ :=
    draw_frame_after_one_rebuild d s fuel i hd (Or.inl (by rw [h1])) h2 hN hS hi hsub
  exact ⟨pre, s', cb, h, r⟩

theorem draw_frame_recovers_from_one_out_of_date_witness :
    State.ready.m_was_resized = false
    ∧ Driver.out_of_date_once.acquire (count Event.is_acquire State.ready)
        = (VK_ERROR_OUT_OF_DATE_KHR, 0)
    ∧ Driver.out_of_date_once.acquire (count Event.is_acquire State.ready + 1) = (VK_SUCCESS, 1)
    ∧ ∃ pre s' cb, draw_frame Driver.out_of_date_once 2 State.ready = some (Outcome.done () s')
      ∧ count Event.is_rebuild s' = count Event.is_rebuild State.ready + 1
      ∧ count Event.is_acquire s' = count Event.is_acquire State.ready + 2
      ∧ count Event.is_submit s' = count Event.is_submit State.ready + 1
      ∧ count Event.is_present s' = count Event.is_present State.ready + 1
      ∧ s'.m_command_buffers[1]? = some cb
      ∧ s'.trace = pre ++
          [Event.update_ubo s'.m_swapchain_size,
           Event.acquire s'.m_swapchain s'.m_image_available_semaphore VK_SUCCESS 1,
           Event.submit s'.m_queue cb s'.m_image_available_semaphore
             VK_PIPELINE_STAGE_COLOR_ATTACHMENT_OUTPUT_BIT s'.m_render_finished_semaphore
             VK_SUCCESS,
           Event.present s'.m_present_queue s'.m_swapchain 1 s'.m_render_finished_semaphore
             (Driver.out_of_date_once.present (count Event.is_present State.ready))] :=
  ⟨by decide, by decide, by decide,
    draw_frame_recovers_from_one_out_of_date Driver.out_of_date_once State.ready 0 1 0
      ⟨fun _ _ => rfl, fun _ => rfl, fun _ => rfl⟩ (by decide) (by decide) (by decide)
      (by decide) (by decide) (by decide) (by decide)⟩

/-- C2, refuted as stated: when the acquire made after the rebuild reports
out-of-date again, `draw_frame` does not fail; it rebuilds a second time and
acquires a third time, and returns without error. -/
theorem draw_frame_rebuilds_twice :
    (Driver.out_of_date_twice.acquire 1).1 = VK_ERROR_OUT_OF_DATE_KHR
    ∧ (draw_frame Driver.out_of_date_twice 3 State.ready).map
        (fun o => (o.failure, count Event.is_rebuild o.state, count Event.is_acquire o.state))
      = some (none, 2, 3) := by
  refine ⟨by decide, ?_⟩
  have hd : Driver.out_of_date_twice.reliable := ⟨fun _ _ => rfl, fun _ => rfl, fun _ => rfl⟩
  obtain ⟨s1, e1, _, c1, c2, _, _, c5, _⟩ := draw_frame_once_retry Driver.out_of_date_twice
    State.ready hd (Or.inl (by decide)) (by decide) (by decide)
  have a0 : count Event.is_acquire State.ready = 0 := by decide
  have r0 : count Event.is_rebuild State.ready = 0 := by decide
  rw [a0] at c1
  rw [r0] at c2
  obtain ⟨_, s', _, h, _, r, a, _⟩ := draw_frame_after_one_rebuild Driver.out_of_date_twice
    s1 0 0 hd (Or.inl (by rw [c1]; decide)) (by rw [c1]; decide) (Nat.le_refl 3)
    (by rw [c5]; exact Nat.le_refl 3) (by show 0 < 3; decide) rfl
  have e : draw_frame Driver.out_of_date_twice 3 State.ready
      = some (Outcome.done () s') := by
    rw [← h]
    simp only [draw_frame, e1]
  rw [e]
  simp only [Option.map, Outcome.failure, Outcome.state, r, a, c1, c2]

/-! ## Shape of a completed frame -/

theorem quiet_not_queue (e : Event) (h : e.quiet = true) :
    e.is_submit = false ∧ e.is_present = false ∧ e.is_loop = false := by
  cases e <;> first | exact ⟨rfl, rfl, rfl⟩ | cases h

/-- Every completed `draw_frame` call logs first the calls of the activations that
ended in a rebuild, none of them a submission, a present request or a call of the
loop of `run`, and then the calls of its last activation. -/
theorem draw_frame_shape (d : Driver) : ∀ (fuel : Nat) (s : State) (o : Outcome Unit),
    draw_frame d fuel s = some o →
    ∃ pre tail, o.state.trace = s.trace ++ pre ++ tail
      ∧ (∀ e ∈ pre, e.is_submit = false ∧ e.is_present = false ∧ e.is_loop = false)
      ∧ Final o.state o.failure tail := by
  intro fuel
  induction fuel with
  | zero => intro s o h; simp [draw_frame] at h
  | succ n ih =>
    intro s o h
    rw [draw_frame, draw_frame_once_eq] at h
    by_cases hr : (d.acquire (count Event.is_acquire s)).1 = VK_ERROR_OUT_OF_DATE_KHR
        ∨ s.m_was_resized = true
    · rw [if_pos hr] at h
      obtain ⟨evs, h1, h2⟩ := rebuild_swapchain_trace d (after_acquire d s)
      have hpre : ∀ e ∈ [Event.update_ubo s.m_swapchain_size,
          Event.acquire s.m_swapchain s.m_image_available_semaphore
            (d.acquire (count Event.is_acquire s)).1 (d.acquire (count Event.is_acquire s)).2]
          ++ Event.rebuild_swapchain :: evs,
          e.is_submit = false ∧ e.is_present = false ∧ e.is_loop = false := by
        intro e he
        simp only [List.mem_append, List.mem_cons, List.mem_singleton, List.not_mem_nil,
          or_false] at he
        rcases he with (he | he) | he | he
        · subst he; exact ⟨rfl, rfl, rfl⟩
        · subst he; exact ⟨rfl, rfl, rfl⟩
        · subst he; exact ⟨rfl, rfl, rfl⟩
        · exact quiet_not_queue e (h2 e he)
      cases hrb : rebuild_swapchain d (after_acquire d s) with
      | done u s3 =>
        rw [hrb] at h h1
        simp only [Outcome.state] at h1
        obtain ⟨pre, tail, t1, t2, t3⟩ := ih _ o h
        refine ⟨([Event.update_ubo s.m_swapchain_size,
          Event.acquire s.m_swapchain s.m_image_available_semaphore
            (d.acquire (count Event.is_acquire s)).1 (d.acquire (count Event.is_acquire s)).2]
          ++ Event.rebuild_swapchain :: evs) ++ pre, tail, ?_, ?_, t3⟩
        · rw [t1]
          show s3.trace ++ pre ++ tail = _
          rw [h1]
          simp [after_acquire]
        · intro e he
          rcases List.mem_append.mp he with he | he
          · exact hpre e he
          · exact t2 e he
      | abort a s3 =>
        rw [hrb] at h h1
        simp only [Outcome.state] at h1
        simp only [Option.some.injEq] at h
        subst h
        refine ⟨_, [], ?_, hpre, Final.in_rebuild a⟩
        simp only [Outcome.state, h1, after_acquire, List.append_nil, List.append_assoc]
    · rw [if_neg hr] at h
      have hne : (d.acquire (count Event.is_acquire s)).1 ≠ VK_ERROR_OUT_OF_DATE_KHR :=
        fun hh => hr (Or.inl hh)
      by_cases h2 : (d.acquire (count Event.is_acquire s)).1 ≠ VK_SUCCESS
          ∧ (d.acquire (count Event.is_acquire s)).1 ≠ VK_SUBOPTIMAL_KHR
      · rw [if_pos h2] at h
        simp only [Option.some.injEq] at h
        subst h
        refine ⟨[], _, ?_, by simp, Final.acquire_failed (d.acquire (count Event.is_acquire s)).1
          (d.acquire (count Event.is_acquire s)).2 h2.1 h2.2⟩
        simp [Outcome.state, after_acquire, State.ubo_event, State.acquire_event]
      · rw [if_neg h2] at h
        have hok : (d.acquire (count Event.is_acquire s)).1 = VK_SUCCESS
            ∨ (d.acquire (count Event.is_acquire s)).1 = VK_SUBOPTIMAL_KHR := by
          by_cases h3 : (d.acquire (count Event.is_acquire s)).1 = VK_SUCCESS
          · exact Or.inl h3
          · right
            by_contra h4
            exact h2 ⟨h3, h4⟩
        cases hcb : s.m_command_buffers[(d.acquire (count Event.is_acquire s)).2]? with
        | none =>
          rw [hcb] at h
          simp only [Option.some.injEq] at h
          subst h
          refine ⟨[], _, ?_, by simp, Final.out_of_table (d.acquire (count Event.is_acquire s)).1
            (d.acquire (count Event.is_acquire s)).2 hok hcb⟩
          simp [Outcome.state, after_acquire, State.ubo_event, State.acquire_event]
        | some cb =>
          rw [hcb] at h
          dsimp only at h
          by_cases h3 : d.submit (count Event.is_submit s) ≠ VK_SUCCESS
          · rw [if_pos h3] at h
            simp only [Option.some.injEq] at h
            subst h
            refine ⟨[], _, ?_, by simp, Final.submit_failed (d.acquire (count Event.is_acquire s)).1
              (d.acquire (count Event.is_acquire s)).2 cb
              (d.submit (count Event.is_submit s)) hok hcb h3⟩
            simp [Outcome.state, after_acquire, State.ubo_event, State.acquire_event,
              State.submit_event]
          · rw [if_neg h3] at h
            simp only [Option.some.injEq] at h
            subst h
            have h3' : d.submit (count Event.is_submit s) = VK_SUCCESS := by
              by_contra hh; exact h3 hh
            refine ⟨[], _, ?_, by simp, Final.presented (d.acquire (count Event.is_acquire s)).1
              (d.acquire (count Event.is_acquire s)).2 cb
              (d.present (count Event.is_present s)) hok hcb⟩
            simp [Outcome.state, after_acquire, State.ubo_event, State.acquire_event,
              State.submit_event, State.present_event, h3']

/-! ## Frames that do not rebuild -/

/-- A call with the resize flag clear whose acquire succeeds (or is suboptimal) with
an index inside the table: it submits, and presents when the submission is accepted. -/
theorem draw_frame_no_rebuild (d : Driver) (s : State) (fuel : Nat) (cb : Handle)
    (hflag : s.m_was_resized = false)
    (hr : (d.acquire (count Event.is_acquire s)).1 = VK_SUCCESS
      ∨ (d.acquire (count Event.is_acquire s)).1 = VK_SUBOPTIMAL_KHR)
    (hcb : s.m_command_buffers[(d.acquire (count Event.is_acquire s)).2]? = some cb) :
    draw_frame d (fuel + 1) s = some
      (if d.submit (count Event.is_submit s) ≠ VK_SUCCESS then
        Outcome.abort (Abort.exception Exn.SubmitFailed)
          { s with trace := s.trace ++
              [s.ubo_event,
               s.acquire_event (d.acquire (count Event.is_acquire s)).1
                 (d.acquire (count Event.is_acquire s)).2,
               s.submit_event cb (d.submit (count Event.is_submit s))] }
      else
        Outcome.done ()
          { s with trace := s.trace ++
              [s.ubo_event,
               s.acquire_event (d.acquire (count Event.is_acquire s)).1
                 (d.acquire (count Event.is_acquire s)).2,
               s.submit_event cb (d.submit (count Event.is_submit s)),
               s.present_event (d.acquire (count Event.is_acquire s)).2
                 (d.present (count Event.is_present s))] }) := by
  have h1 : ¬ ((d.acquire (count Event.is_acquire s)).1 = VK_ERROR_OUT_OF_DATE_KHR
      ∨ s.m_was_resized = true) := by
    rw [hflag]
    rcases hr with h | h <;> rw [h] <;> decide
  have h2 : ¬ ((d.acquire (count Event.is_acquire s)).1 ≠ VK_SUCCESS
      ∧ (d.acquire (count Event.is_acquire s)).1 ≠ VK_SUBOPTIMAL_KHR) := by
    rcases hr with h | h <;> simp [h]
  rw [draw_frame, draw_frame_once_eq, if_neg h1, if_neg h2, hcb]
  by_cases h3 : d.submit (count Event.is_submit s) ≠ VK_SUCCESS
  · simp only [if_pos h3]
    simp [after_acquire, State.ubo_event, State.acquire_event, State.submit_event]
  · simp only [if_neg h3]
    simp [after_acquire, State.ubo_event, State.acquire_event, State.submit_event,
      State.present_event]

theorem since_append (s : State) (evs : List Event) :
    State.since { s with trace := s.trace ++ evs } s = evs := by
  simp [State.since]

/-- A frame that returns normally ends with its present request. -/
theorem draw_frame_done_ends_with_present (d : Driver) (fuel : Nat) (s s' : State)
    (h : draw_frame d fuel s = some (Outcome.done () s')) :
    ∃ pre i p, s'.trace = s.trace ++ pre ++ [s'.present_event i p] := by
  obtain ⟨pre, tail, t1, _, t3⟩ := draw_frame_shape d fuel s _ h
  simp only [Outcome.state, Outcome.failure] at t1 t3
  cases t3 with
  | presented ra i cb p hra hcb =>
    refine ⟨pre ++ [s'.ubo_event, s'.acquire_event ra i, s'.submit_event cb VK_SUCCESS], i, p, ?_⟩
    rw [t1]
    simp

/-! ## Claims C8, C10, C11 -/

/-- C8: with the resize flag clear, an acquire result other than success, suboptimal
and out-of-date makes `draw_frame` throw the acquire error; the call logs the
uniform update and the acquire and nothing else: no rebuild, no submission, no
present request. -/
theorem draw_frame_acquire_failure_is_fatal (d : Driver) (fuel : Nat) (s : State)
    (hflag : s.m_was_resized = false)
    (h1 : (d.acquire (count Event.is_acquire s)).1 ≠ VK_ERROR_OUT_OF_DATE_KHR)
    (h2 : (d.acquire (count Event.is_acquire s)).1 ≠ VK_SUCCESS)
    (h3 : (d.acquire (count Event.is_acquire s)).1 ≠ VK_SUBOPTIMAL_KHR) :
    draw_frame d (fuel + 1) s = some (Outcome.abort (Abort.exception Exn.AcquireFailed)
      { s with trace := s.trace ++
          [Event.update_ubo s.m_swapchain_size,
           Event.acquire s.m_swapchain s.m_image_available_semaphore
             (d.acquire (count Event.is_acquire s)).1
             (d.acquire (count Event.is_acquire s)).2] }) := by
  have hn : ¬ ((d.acquire (count Event.is_acquire s)).1 = VK_ERROR_OUT_OF_DATE_KHR
      ∨ s.m_was_resized = true) := by
    rw [hflag]; simp [h1]
  rw [draw_frame, draw_frame_once_eq, if_neg hn, if_pos ⟨h2, h3⟩]
  rfl

theorem draw_frame_acquire_failure_is_fatal_witness :
    State.ready.m_was_resized = false
    ∧ (Driver.device_lost.acquire (count Event.is_acquire State.ready)).1
        = VK_ERROR_DEVICE_LOST
    ∧ draw_frame Driver.device_lost 1 State.ready
      = some (Outcome.abort (Abort.exception Exn.AcquireFailed)
          { State.ready with trace := State.ready.trace ++
              [Event.update_ubo State.ready.m_swapchain_size,
               Event.acquire State.ready.m_swapchain State.ready.m_image_available_semaphore
                 (Driver.device_lost.acquire (count Event.is_acquire State.ready)).1
                 (Driver.device_lost.acquire (count Event.is_acquire State.ready)).2] }) :=
  ⟨by decide, by decide,
    draw_frame_acquire_failure_is_fatal Driver.device_lost 0 State.ready (by decide)
      (by decide) (by decide) (by decide)⟩

/-- Whenever a `draw_frame` call that ends has logged a submission whose result is not
success, the call ends with the submit error and logs no present request. -/
theorem draw_frame_refused_submission_ends_call (d : Driver) (fuel : Nat) (s : State)
    (o : Outcome Unit) (h : draw_frame d fuel s = some o)
    (e : Event) (he : e ∈ o.state.since s) (r : VkResult)
    (hres : e.submit_result = some r) (hr : r ≠ VK_SUCCESS) :
    o.failure = some (Abort.exception Exn.SubmitFailed)
      ∧ ∀ e' ∈ o.state.since s, e'.is_present = false := by
  obtain ⟨pre, tail, t1, t2, t3⟩ := draw_frame_shape d fuel s o h
  have hs : o.state.since s = pre ++ tail := by
    simp [State.since, t1, List.append_assoc]
  rw [hs] at he ⊢
  have hsub : e.is_submit = true := by
    cases e <;> first | rfl | simp [Event.submit_result] at hres
  have hetail : e ∈ tail := by
    rcases List.mem_append.mp he with h' | h'
    · have := (t2 e h').1
      rw [hsub] at this
      cases this
    · exact h'
  cases o with
  | done u s' =>
    exfalso
    simp only [Outcome.state, Outcome.failure] at t3
    cases t3 with
    | presented ra i cb p hra hcb =>
      simp only [List.mem_cons, List.mem_singleton, List.not_mem_nil, or_false] at hetail
      rcases hetail with h' | h' | h' | h'
      · subst h'; cases hsub
      · subst h'; cases hsub
      · subst h'
        simp only [State.submit_event, Event.submit_result, Option.some.injEq] at hres
        exact hr hres.symm
      · subst h'; cases hsub
  | abort a s' =>
    simp only [Outcome.state, Outcome.failure] at t3 t2 ⊢
    cases t3 with
    | in_rebuild a => cases hetail
    | acquire_failed ra i h1 h2 =>
      simp only [List.mem_cons, List.mem_singleton, List.not_mem_nil, or_false] at hetail
      rcases hetail with h' | h' <;> subst h' <;> cases hsub
    | out_of_table ra i hra hcb =>
      simp only [List.mem_cons, List.mem_singleton, List.not_mem_nil, or_false] at hetail
      rcases hetail with h' | h' <;> subst h' <;> cases hsub
    | submit_failed ra i cb r' hra hcb hr' =>
      refine ⟨rfl, ?_⟩
      intro e' he'
      rcases List.mem_append.mp he' with h' | h'
      · exact (t2 e' h').2.1
      · simp only [List.mem_cons, List.mem_singleton, List.not_mem_nil, or_false] at h'
        rcases h' with h' | h' | h' <;> subst h' <;> rfl

theorem refused_run :
    draw_frame Driver.submit_refused 1 State.ready
      = some (Outcome.abort (Abort.exception Exn.SubmitFailed) State.refused) := by
  rw [draw_frame_no_rebuild Driver.submit_refused State.ready 0 25 (by decide)
    (Or.inl (by decide)) (by decide)]
  rfl

theorem count_log (p : Event → Bool) (s : State) (evs : List Event) :
    count p (s.log evs) = count p s + List.countP p evs := by
  simp [count, State.log, List.countP_append]

theorem since_log (s : State) (evs : List Event) : (s.log evs).since s = evs := by
  simp [State.since, State.log]

/-- A call with the resize flag clear whose acquire succeeds (or is suboptimal) with
an index inside the table and whose submission is accepted. -/
theorem draw_frame_presents (d : Driver) (s : State) (fuel : Nat) (cb : Handle)
    (hflag : s.m_was_resized = false)
    (hr : (d.acquire (count Event.is_acquire s)).1 = VK_SUCCESS
      ∨ (d.acquire (count Event.is_acquire s)).1 = VK_SUBOPTIMAL_KHR)
    (hcb : s.m_command_buffers[(d.acquire (count Event.is_acquire s)).2]? = some cb)
    (hsub : d.submit (count Event.is_submit s) = VK_SUCCESS) :
    draw_frame d (fuel + 1) s = some (Outcome.done () (s.log
      [s.ubo_event,
       s.acquire_event (d.acquire (count Event.is_acquire s)).1
         (d.acquire (count Event.is_acquire s)).2,
       s.submit_event cb VK_SUCCESS,
       s.present_event (d.acquire (count Event.is_acquire s)).2
         (d.present (count Event.is_present s))])) := by
  rw [draw_frame_no_rebuild d s fuel cb hflag hr hcb, if_neg (by simp [hsub]), hsub]
  rfl

/-- C10, amended: with the resize flag clear, when the acquire succeeds (or is suboptimal)
with an index inside the table and the submission is accepted, `draw_frame` returns
without error whatever result `p` the present request reports; the present request
is its last call and the call performs no rebuild. -/
theorem draw_frame_present_result_is_advisory (d : Driver) (fuel : Nat) (s : State)
    (cb : Handle) (p : VkResult) (hflag : s.m_was_resized = false)
    (hr : (d.acquire (count Event.is_acquire s)).1 = VK_SUCCESS
      ∨ (d.acquire (count Event.is_acquire s)).1 = VK_SUBOPTIMAL_KHR)
    (hcb : s.m_command_buffers[(d.acquire (count Event.is_acquire s)).2]? = some cb)
    (hsub : d.submit (count Event.is_submit s) = VK_SUCCESS)
    (hp : d.present (count Event.is_present s) = p) :
    ∃ s', draw_frame d (fuel + 1) s = some (Outcome.done () s')
      ∧ count Event.is_rebuild s' = count Event.is_rebuild s
      ∧ s'.since s =
          [s.ubo_event,
           s.acquire_event (d.acquire (count Event.is_acquire s)).1
             (d.acquire (count Event.is_acquire s)).2,
           s.submit_event cb VK_SUCCESS,
           s.present_event (d.acquire (count Event.is_acquire s)).2 p] := by
  refine ⟨_, draw_frame_presents d s fuel cb hflag hr hcb hsub, ?_, ?_⟩
  · rw [count_log]
    simp [List.countP_cons, Event.is_rebuild, State.ubo_event,
      State.acquire_event, State.submit_event, State.present_event]
  · rw [since_log, hp]

theorem draw_frame_present_result_is_advisory_witness :
    State.ready.m_was_resized = false
    ∧ Driver.suboptimal.present (count Event.is_present State.ready) = VK_SUBOPTIMAL_KHR
    ∧ ∃ s', draw_frame Driver.suboptimal 1 State.ready = some (Outcome.done () s')
      ∧ count Event.is_rebuild s' = count Event.is_rebuild State.ready
      ∧ s'.since State.ready =
          [State.ready.ubo_event,
           State.ready.acquire_event
             (Driver.suboptimal.acquire (count Event.is_acquire State.ready)).1
             (Driver.suboptimal.acquire (count Event.is_acquire State.ready)).2,
           State.ready.submit_event 25 VK_SUCCESS,
           State.ready.present_event
             (Driver.suboptimal.acquire (count Event.is_acquire State.ready)).2
             VK_SUBOPTIMAL_KHR] :=
  ⟨by decide, by decide,
    draw_frame_present_result_is_advisory Driver.suboptimal 0 State.ready 25
      VK_SUBOPTIMAL_KHR (by decide) (Or.inr (by decide)) (by decide) (by decide) (by decide)⟩

/-- C11, refuted as stated: a suboptimal acquire (resize flag clear) triggers no
rebuild and no second acquire; the frame is submitted and presented at once. -/
theorem draw_frame_suboptimal_acquire_no_rebuild :
    (Driver.suboptimal.acquire 0).1 = VK_SUBOPTIMAL_KHR
    ∧ State.ready.m_was_resized = false
    ∧ (draw_frame Driver.suboptimal 1 State.ready).map
        (fun o => (o.failure, count Event.is_rebuild o.state, count Event.is_acquire o.state))
      = some (none, 0, 1) := by
  refine ⟨by decide, by decide, ?_⟩
  rw [draw_frame_presents Driver.suboptimal State.ready 0 25 (by decide)
    (Or.inr (by decide)) (by decide) (by decide)]
  decide

/-- C11, amended: a suboptimal status at acquire (resize flag clear) is treated as a
success. `draw_frame` performs no rebuild and no acquire retry; it submits the table
entry of the returned index and presents it, and returns without error when the
submission is accepted. -/
theorem draw_frame_suboptimal_acquire_is_tolerated (d : Driver) (fuel : Nat) (s : State)
    (i : Nat) (cb : Handle) (hflag : s.m_was_resized = false)
    (hr : d.acquire (count Event.is_acquire s) = (VK_SUBOPTIMAL_KHR, i))
    (hcb : s.m_command_buffers[i]? = some cb)
    (hsub : d.submit (count Event.is_submit s) = VK_SUCCESS) :
    ∃ s', draw_frame d (fuel + 1) s = some (Outcome.done () s')
      ∧ count Event.is_rebuild s' = count Event.is_rebuild s
      ∧ count Event.is_acquire s' = count Event.is_acquire s + 1
      ∧ s'.since s =
          [s.ubo_event, s.acquire_event VK_SUBOPTIMAL_KHR i, s.submit_event cb VK_SUCCESS,
           s.present_event i (d.present (count Event.is_present s))] := by
  have hcb' : s.m_command_buffers[(d.acquire (count Event.is_acquire s)).2]? = some cb := by
    rw [hr]; exact hcb
  refine ⟨_, draw_frame_presents d s fuel cb hflag (Or.inr (by rw [hr])) hcb' hsub, ?_, ?_, ?_⟩
  · rw [count_log]
    simp [List.countP_cons, Event.is_rebuild, State.ubo_event,
      State.acquire_event, State.submit_event, State.present_event]
  · rw [count_log]
    simp [List.countP_cons, Event.is_acquire, State.ubo_event,
      State.acquire_event, State.submit_event, State.present_event]
  · rw [since_log, hr]

theorem draw_frame_suboptimal_acquire_is_tolerated_witness :
    State.ready.m_was_resized = false
    ∧ Driver.suboptimal.acquire (count Event.is_acquire State.ready) = (VK_SUBOPTIMAL_KHR, 0)
    ∧ ∃ s', draw_frame Driver.suboptimal 1 State.ready = some (Outcome.done () s')
      ∧ count Event.is_rebuild s' = count Event.is_rebuild State.ready
      ∧ count Event.is_acquire s' = count Event.is_acquire State.ready + 1
      ∧ s'.since State.ready =
          [State.ready.ubo_event, State.ready.acquire_event VK_SUBOPTIMAL_KHR 0,
           State.ready.submit_event 25 VK_SUCCESS,
           State.ready.present_event 0
             (Driver.suboptimal.present (count Event.is_present State.ready))] :=
  ⟨by decide, by decide,
    draw_frame_suboptimal_acquire_is_tolerated Driver.suboptimal 0 State.ready 0 25
      (by decide) (by decide) (by decide) (by decide)⟩

/-! ## Claim C14 -/

theorem presented_run :
    draw_frame (Driver.steady 2 3) 1 State.ready = some (Outcome.done () State.presented) := by
  rw [draw_frame_presents (Driver.steady 2 3) State.ready 0 25 (by decide)
    (Or.inl (by decide)) (by decide) (by decide)]
  rfl

/-- C14: the calls logged by a completed `draw_frame` call split into a first part
without any submission or present request and the calls of the last activation. If
the last activation submits, its calls are exactly: uniform update, an acquire that
returned success (or suboptimal) with an index `i`, the submission of the table
entry `i`, with nothing (no rebuild) between acquire and submission; a present
request, if any, is for the same index `i` and comes directly after the accepted
submission. -/
theorem draw_frame_submits_after_acquire (d : Driver) (fuel : Nat) (s : State)
    (o : Outcome Unit) (h : draw_frame d fuel s = some o) :
    ∃ pre tail, o.state.since s = pre ++ tail
      ∧ (∀ e ∈ pre, e.is_submit = false ∧ e.is_present = false)
      ∧ ((∀ e ∈ tail, e.is_submit = false ∧ e.is_present = false)
        ∨ ∃ ra i cb, (ra = VK_SUCCESS ∨ ra = VK_SUBOPTIMAL_KHR)
            ∧ o.state.m_command_buffers[i]? = some cb
            ∧ ((∃ r, tail =
                [Event.update_ubo o.state.m_swapchain_size,
                 Event.acquire o.state.m_swapchain o.state.m_image_available_semaphore ra i,
                 Event.submit o.state.m_queue cb o.state.m_image_available_semaphore
                   VK_PIPELINE_STAGE_COLOR_ATTACHMENT_OUTPUT_BIT
                   o.state.m_render_finished_semaphore r])
              ∨ (∃ p, tail =
                [Event.update_ubo o.state.m_swapchain_size,
                 Event.acquire o.state.m_swapchain o.state.m_image_available_semaphore ra i,
                 Event.submit o.state.m_queue cb o.state.m_image_available_semaphore
                   VK_PIPELINE_STAGE_COLOR_ATTACHMENT_OUTPUT_BIT
                   o.state.m_render_finished_semaphore VK_SUCCESS,
                 Event.present o.state.m_present_queue o.state.m_swapchain i
                   o.state.m_render_finished_semaphore p]))) := by
  obtain ⟨pre, tail, t1, t2, t3⟩ := draw_frame_shape d fuel s o h
  refine ⟨pre, tail, by simp [State.since, t1, List.append_assoc],
    fun e he => ⟨(t2 e he).1, (t2 e he).2.1⟩, ?_⟩
  cases o with
  | done u s' =>
    simp only [Outcome.state, Outcome.failure] at t3 ⊢
    cases t3 with
    | presented ra i cb p hra hcb => exact Or.inr ⟨ra, i, cb, hra, hcb, Or.inr ⟨p, rfl⟩⟩
  | abort a s' =>
    simp only [Outcome.state, Outcome.failure] at t3 ⊢
    cases t3 with
    | in_rebuild a => exact Or.inl (by simp)
    | acquire_failed ra i h1 h2 =>
      left
      intro e he
      simp only [List.mem_cons, List.mem_singleton, List.not_mem_nil, or_false] at he
      rcases he with h' | h' <;> subst h' <;> exact ⟨rfl, rfl⟩
    | out_of_table ra i hra hcb =>
      left
      intro e he
      simp only [List.mem_cons, List.mem_singleton, List.not_mem_nil, or_false] at he
      rcases he with h' | h' <;> subst h' <;> exact ⟨rfl, rfl⟩
    | submit_failed ra i cb r hra hcb hr =>
      exact Or.inr ⟨ra, i, cb, hra, hcb, Or.inl ⟨r, rfl⟩⟩

theorem draw_frame_submits_after_acquire_witness :
    draw_frame (Driver.steady 2 3) 1 State.ready = some (Outcome.done () State.presented)
    ∧ ∃ pre tail, State.presented.since State.ready = pre ++ tail
      ∧ (∀ e ∈ pre, e.is_submit = false ∧ e.is_present = false)
      ∧ ((∀ e ∈ tail, e.is_submit = false ∧ e.is_present = false)
        ∨ ∃ ra i cb, (ra = VK_SUCCESS ∨ ra = VK_SUBOPTIMAL_KHR)
            ∧ State.presented.m_command_buffers[i]? = some cb
            ∧ ((∃ r, tail =
                [Event.update_ubo State.presented.m_swapchain_size,
                 Event.acquire State.presented.m_swapchain
                   State.presented.m_image_available_semaphore ra i,
                 Event.submit State.presented.m_queue cb
                   State.presented.m_image_available_semaphore
                   VK_PIPELINE_STAGE_COLOR_ATTACHMENT_OUTPUT_BIT
                   State.presented.m_render_finished_semaphore r])
              ∨ (∃ p, tail =
                [Event.update_ubo State.presented.m_swapchain_size,
                 Event.acquire State.presented.m_swapchain
                   State.presented.m_image_available_semaphore ra i,
                 Event.submit State.presented.m_queue cb
                   State.presented.m_image_available_semaphore
                   VK_PIPELINE_STAGE_COLOR_ATTACHMENT_OUTPUT_BIT
                   State.presented.m_render_finished_semaphore VK_SUCCESS,
                 Event.present State.presented.m_present_queue State.presented.m_swapchain i
                   State.presented.m_render_finished_semaphore p]))) :=
  ⟨presented_run,
    draw_frame_submits_after_acquire (Driver.steady 2 3) 1 State.ready
      (Outcome.done () State.presented) presented_run⟩

/-! ## Claims C3, C4, C6 -/

/-- C3, evaluated at the failing input: the surface asks for at least 2 images, the
program requests 3 and the driver makes 4. `setup_device` succeeds and holds 4
images but 3 views, 3 framebuffers and 3 command buffers. -/
theorem setup_device_counts_differ :
    setup_device (Driver.steady 2 4) State.boot = Outcome.done () State.wide
    ∧ State.wide.m_swap_chain_images.length = 4
    ∧ State.wide.m_swap_chain_views.length = 3
    ∧ State.wide.m_framebuffers.length = 3
    ∧ State.wide.m_command_buffers.length = 3 :=
  ⟨setup_device_wide, by decide, by decide, by decide, by decide⟩

/-- C4, evaluated at the failing input: after `setup_device` against a driver that
made 4 images for a request of 3, the acquire returns the valid image index 3 and
`draw_frame` indexes the 3-entry command-buffer table at 3. -/
theorem draw_frame_indexes_outside_table :
    setup_device (Driver.steady 2 4) State.boot = Outcome.done () State.wide
    ∧ (Driver.last_image.acquire (count Event.is_acquire State.wide)) = (VK_SUCCESS, 3)
    ∧ 3 < State.wide.m_swap_chain_images.length
    ∧ (draw_frame Driver.last_image 1 State.wide).map Outcome.failure
      = some (some (Abort.out_of_bounds Vec.m_command_buffers 3 3)) := by
  refine ⟨setup_device_wide, by decide, by decide, ?_⟩
  rw [draw_frame, draw_frame_once_eq]
  decide

/-- C6, refuted as stated: a current extent of width 0xFFFFFFFF and height 600 is
not the undefined extent, yet `choose_swapchain_extent` returns the framebuffer
size 800x600 instead of it. -/
theorem choose_swapchain_extent_half_sentinel :
    (Driver.half_sentinel.surface_capabilities 0).currentExtent
        ≠ { width := UINT32_MAX, height := UINT32_MAX }
    ∧ (choose_swapchain_extent Driver.half_sentinel State.boot).value
        = some { width := 800, height := 600 }
    ∧ ({ width := 800, height := 600 } : VkExtent2D)
        ≠ (Driver.half_sentinel.surface_capabilities 0).currentExtent := by
  decide

/-- C6, amended: `choose_swapchain_extent` looks at the width only. It returns the
reported framebuffer size (each component converted to `uint32_t`) when the width
of the current extent is 0xFFFFFFFF, whatever the height, and the current extent
unchanged for every other width. -/
theorem choose_swapchain_extent_by_width (d : Driver) (s : State) :
    (choose_swapchain_extent d s).value =
      some (if (d.surface_capabilities (count Event.is_caps s)).currentExtent.width = UINT32_MAX
        then { width := to_uint32 (d.framebuffer_size (count Event.is_fbsize s)).1,
               height := to_uint32 (d.framebuffer_size (count Event.is_fbsize s)).2 }
        else (d.surface_capabilities (count Event.is_caps s)).currentExtent) := by
  simp only [choose_swapchain_extent, bind_apply, Sim.bind, get_surface_capabilities, count]
  by_cases h : (d.surface_capabilities (List.countP Event.is_caps s.trace)).currentExtent.width
      = UINT32_MAX
  · simp [h, Outcome.value, get_framebuffer_size, Sim.bind, count, Event.is_fbsize,
      List.countP_append, ite_apply]
  · simp [h, Outcome.value, ite_apply]


/-! ## Order of the calls of `cleanup_swapchain` and `rebuild_swapchain` -/

theorem Logs.bind_logs {α β : Type} {e1 e2 : List Event} {m : Sim α} {f : α → Sim β}
    (h1 : Logs e1 m) (h2 : ∀ a, Logs e2 (f a)) : Logs (e1 ++ e2) (m >>= f) := by
  intro s
  obtain ⟨a, s1, hm, t1⟩ := h1 s
  obtain ⟨b, s2, hf, t2⟩ := h2 a s1
  refine ⟨b, s2, ?_, ?_⟩
  · simp only [bind_apply, Sim.bind, hm, hf]
  · rw [t2, t1, List.append_assoc]

theorem vk_destroy_logs (kind : Res) (h : Handle) :
    Logs [Event.destroy kind h] (vk_destroy kind h) := by
  intro s
  unfold vk_destroy
  dsimp only
  split_ifs
  · exact ⟨(), _, rfl, rfl⟩
  · exact ⟨(), _, rfl, rfl⟩
  · exact ⟨(), _, rfl, rfl⟩

theorem destroy_each_logs (kind : Res) : ∀ l : List Handle,
    Logs (l.map (Event.destroy kind)) (destroy_each kind l)
  | [] => fun s => ⟨(), s, rfl, by simp⟩
  | h :: rest => by
    have := Logs.bind_logs (vk_destroy_logs kind h) (fun _ => destroy_each_logs kind rest)
    simpa [destroy_each] using this

theorem cleanup_swapchain_logs (s : State) :
    ∃ s', cleanup_swapchain s = Outcome.done () s'
      ∧ s'.trace = s.trace ++ (s.m_framebuffers.map (Event.destroy Res.framebuffer)
          ++ ([Event.destroy Res.render_pass s.m_render_pass]
          ++ ([Event.destroy Res.pipeline_layout s.m_pipeline_layout]
          ++ ([Event.destroy Res.pipeline s.m_pipeline]
          ++ (s.m_swap_chain_views.map (Event.destroy Res.image_view)
          ++ [Event.destroy Res.swapchain s.m_swapchain]))))) := by
  have h := Logs.bind_logs (destroy_each_logs Res.framebuffer s.m_framebuffers) (fun _ =>
    Logs.bind_logs (vk_destroy_logs Res.render_pass s.m_render_pass) (fun _ =>
    Logs.bind_logs (vk_destroy_logs Res.pipeline_layout s.m_pipeline_layout) (fun _ =>
    Logs.bind_logs (vk_destroy_logs Res.pipeline s.m_pipeline) (fun _ =>
    Logs.bind_logs (destroy_each_logs Res.image_view s.m_swap_chain_views) (fun _ =>
    vk_destroy_logs Res.swapchain s.m_swapchain)))))
  obtain ⟨a, s', hm, ht⟩ := h s
  exact ⟨s', hm, ht⟩

/-- Claim C17, as stated, fails on the swapchain built by `setup_device`: the render
pass 9 and the pipeline layout 13 are destroyed before the pipeline 14, not after it. -/
theorem cleanup_swapchain_destroys_pipeline_last :
    (cleanup_swapchain State.ready).state.since State.ready =
      [Event.destroy Res.framebuffer 15, Event.destroy Res.framebuffer 16,
       Event.destroy Res.framebuffer 17, Event.destroy Res.render_pass 9,
       Event.destroy Res.pipeline_layout 13, Event.destroy Res.pipeline 14,
       Event.destroy Res.image_view 6, Event.destroy Res.image_view 7,
       Event.destroy Res.image_view 8, Event.destroy Res.swapchain 2] := by
  obtain ⟨s', hm, ht⟩ := cleanup_swapchain_logs State.ready
  rw [hm]
  simp only [Outcome.state, State.since, ht, List.drop_left]
  rfl

/-- Claim C17, amended: `cleanup_swapchain` always returns, and it destroys every
framebuffer first, then the render pass, then the pipeline layout, then the pipeline,
then every image view, then the swapchain handle last; these are all its calls. -/
theorem cleanup_swapchain_order (s : State) :
    ∃ s', cleanup_swapchain s = Outcome.done () s'
      ∧ s'.since s = s.m_framebuffers.map (Event.destroy Res.framebuffer)
          ++ [Event.destroy Res.render_pass s.m_render_pass,
              Event.destroy Res.pipeline_layout s.m_pipeline_layout,
              Event.destroy Res.pipeline s.m_pipeline]
          ++ s.m_swap_chain_views.map (Event.destroy Res.image_view)
          ++ [Event.destroy Res.swapchain s.m_swapchain] := by
  obtain ⟨s', hm, ht⟩ := cleanup_swapchain_logs s
  refine ⟨s', hm, ?_⟩
  simp [State.since, ht]

theorem rebuild_swapchain_rest_emits (d : Driver) : Emits Event.quiet (do
    cleanup_swapchain
    setup_framebuffer d
    setup_render_pass d
    create_pipeline d
    create_framebuffer d
    create_command_buffers d) := by
  refine Emits.bind_emits (cleanup_swapchain_emits.mono quiet_of_destroy) (fun _ => ?_)
  refine Emits.bind_emits (setup_framebuffer_emits d) (fun _ => ?_)
  refine Emits.bind_emits (setup_render_pass_emits d) (fun _ => ?_)
  refine Emits.bind_emits (create_pipeline_emits d) (fun _ => ?_)
  refine Emits.bind_emits (create_framebuffer_emits d) (fun _ => ?_)
  exact create_command_buffers_emits d

theorem rebuild_swapchain_waits_first (d : Driver) (s : State) :
    ∃ evs, (rebuild_swapchain d s).state.trace
        = s.trace ++ [Event.rebuild_swapchain, Event.device_wait_idle] ++ evs
      ∧ ∀ e ∈ evs, e.quiet = true := by
  obtain ⟨evs, h1, h2⟩ := rebuild_swapchain_rest_emits d
    { s with trace := s.trace ++ [Event.rebuild_swapchain] ++ [Event.device_wait_idle] }
  refine ⟨evs, ?_, h2⟩
  rw [show s.trace ++ [Event.rebuild_swapchain, Event.device_wait_idle] ++ evs
    = (s.trace ++ [Event.rebuild_swapchain] ++ [Event.device_wait_idle]) ++ evs by simp]
  rw [← h1]
  rfl

/-- Claim C18: whatever the driver answers and whether it ends normally or by an
exception, `rebuild_swapchain` logs its entry, then `vkDeviceWaitIdle`, and only then
the rest of its calls, so every destroy and create call of the rebuild comes after the
wait. An activation of `draw_frame` rebuilds only by calling `rebuild_swapchain`:
after the uniform update and the acquire it either makes no destroy or create call
at all, or it logs the entry of the rebuild, then the wait, then the other calls. -/
theorem rebuild_swapchain_waits_for_device (d : Driver) (s : State) :
    (∃ evs, (rebuild_swapchain d s).state.since s
        = [Event.rebuild_swapchain, Event.device_wait_idle] ++ evs
      ∧ ∀ e ∈ evs, e.quiet = true)
    ∧ (∃ rest, (draw_frame_once d s).state.since s
        = [s.ubo_event, s.acquire_event (d.acquire (count Event.is_acquire s)).1
            (d.acquire (count Event.is_acquire s)).2] ++ rest
      ∧ ((∀ e ∈ rest, e.is_rebuild = false ∧ e.quiet = false)
        ∨ ∃ evs, rest = [Event.rebuild_swapchain, Event.device_wait_idle] ++ evs
            ∧ ∀ e ∈ evs, e.quiet = true)) := by
  constructor
  · obtain ⟨evs, h1, h2⟩ := rebuild_swapchain_waits_first d s
    exact ⟨evs, by simp [State.since, h1], h2⟩
  · rw [draw_frame_once_eq]
    by_cases hr : (d.acquire (count Event.is_acquire s)).1 = VK_ERROR_OUT_OF_DATE_KHR
      ∨ s.m_was_resized = true
    · rw [if_pos hr]
      obtain ⟨evs, h1, h2⟩ := rebuild_swapchain_waits_first d (after_acquire d s)
      refine ⟨[Event.rebuild_swapchain, Event.device_wait_idle] ++ evs, ?_,
        Or.inr ⟨evs, rfl, h2⟩⟩
      cases hrb : rebuild_swapchain d (after_acquire d s) with
      | done a s3 =>
        rw [hrb] at h1
        simp only [Outcome.state] at h1 ⊢
        simp [State.since, h1, after_acquire, State.ubo_event, State.acquire_event]
      | abort e s3 =>
        rw [hrb] at h1
        simp only [Outcome.state] at h1 ⊢
        simp [State.since, h1, after_acquire, State.ubo_event, State.acquire_event]
    rw [if_neg hr]
    by_cases hf : (d.acquire (count Event.is_acquire s)).1 ≠ VK_SUCCESS
      ∧ (d.acquire (count Event.is_acquire s)).1 ≠ VK_SUBOPTIMAL_KHR
    · rw [if_pos hf]
      refine ⟨[], ?_, Or.inl (by simp)⟩
      simp [State.since, Outcome.state, after_acquire, State.ubo_event, State.acquire_event]
    · rw [if_neg hf]
      cases hcb : s.m_command_buffers[(d.acquire (count Event.is_acquire s)).2]? with
      | none =>
        refine ⟨[], ?_, Or.inl (by simp)⟩
        simp [State.since, Outcome.state, after_acquire, State.ubo_event,
          State.acquire_event]
      | some cb =>
        dsimp only
        by_cases hsub : d.submit (count Event.is_submit s) ≠ VK_SUCCESS
        · rw [if_pos hsub]
          refine ⟨[s.submit_event cb (d.submit (count Event.is_submit s))], ?_, Or.inl ?_⟩
          · simp [State.since, Outcome.state, after_acquire, State.ubo_event,
              State.acquire_event, State.submit_event]
          · intro e he
            simp only [List.mem_singleton] at he
            subst he
            exact ⟨rfl, rfl⟩
        · rw [if_neg hsub]
          refine ⟨[s.submit_event cb (d.submit (count Event.is_submit s)),
            s.present_event (d.acquire (count Event.is_acquire s)).2
              (d.present (count Event.is_present s))], ?_, Or.inl ?_⟩
          · simp [State.since, Outcome.state, after_acquire, State.ubo_event,
              State.acquire_event, State.submit_event, State.present_event]
          · intro e he
            simp only [List.mem_cons, List.mem_singleton, List.not_mem_nil, or_false] at he
            rcases he with he | he
            · subst he; exact ⟨rfl, rfl⟩
            · subst he; exact ⟨rfl, rfl⟩

/-- Claim C18 on the swapchain built by `setup_device`, for a reliable driver. -/
theorem rebuild_swapchain_waits_for_device_witness :
    ∃ evs, (rebuild_swapchain (Driver.steady 2 3) State.ready).state.since State.ready
        = [Event.rebuild_swapchain, Event.device_wait_idle] ++ evs
      ∧ ∀ e ∈ evs, e.quiet = true :=
  (rebuild_swapchain_waits_for_device (Driver.steady 2 3) State.ready).1

/-! ## The image count `setup_framebuffer` asks for -/

theorem choose_swapchain_extent_succeeds (d : Driver) (s : State) :
    Succeeds (choose_swapchain_extent d) s := by
  unfold choose_swapchain_extent
  simp only [Succeeds, bind_apply, Sim.bind, get_surface_capabilities]
  split_ifs
  · exact ⟨_, _, rfl⟩
  · exact ⟨_, _, rfl⟩

theorem vk_create_swapchain_done (d : Driver) (n : Nat) (ext : VkExtent2D) (s : State) :
    ∃ r h s', vk_create_swapchain d n ext s = Outcome.done (r, h) s'
      ∧ s'.trace = s.trace ++ [Event.create_swapchain n ext r h] := by
  unfold vk_create_swapchain
  dsimp only
  split_ifs
  · exact ⟨_, _, _, rfl, rfl⟩
  · exact ⟨_, _, _, rfl, rfl⟩

theorem setup_framebuffer_rest_emits (d : Driver) (n : Nat) (x : VkResult × Handle) :
    Emits (fun e => e.requested_image_count.isNone)
      (if x.1 ≠ VK_SUCCESS then raise Exn.SwapchainCreationFailed
       else do
        update fun s => { s with m_swapchain := x.2 }
        let images ← get_swapchain_images d x.2
        update fun s => { s with m_swap_chain_images := images }
        update fun s => { s with m_swap_chain_views := resize s.m_swap_chain_views n }
        setup_framebuffer_views d 0 n) := by
  split_ifs
  · exact Emits.raise_emits _ _
  · refine Emits.bind_emits (Emits.update_emits _ _ (fun _ => rfl)) (fun _ => ?_)
    refine Emits.bind_emits (Emits.get_swapchain_images_emits d _ (fun _ _ _ => rfl)) (fun imgs => ?_)
    refine Emits.bind_emits (Emits.update_emits _ _ (fun _ => rfl)) (fun _ => ?_)
    refine Emits.bind_emits (Emits.update_emits _ _ (fun _ => rfl)) (fun _ => ?_)
    exact setup_framebuffer_views_emits d (fun _ _ => rfl) n 0

theorem setup_framebuffer_request (d : Driver) (s : State) :
    ∃ pre ext r h post, (setup_framebuffer d s).state.trace
        = s.trace ++ pre ++ Event.create_swapchain
            (min_image_count (d.surface_capabilities (count Event.is_caps s))) ext r h :: post
      ∧ (∀ e ∈ pre, e.requested_image_count = none)
      ∧ (∀ e ∈ post, e.requested_image_count = none) := by
  obtain ⟨n, hn⟩ : ∃ n, n = max (d.surface_capabilities (count Event.is_caps s)).minImageCount 3 :=
    ⟨_, rfl⟩
  obtain ⟨ext, s2, hch⟩ := choose_swapchain_extent_succeeds d
    { s with trace := s.trace ++
      [Event.get_surface_capabilities (d.surface_capabilities (count Event.is_caps s))] }
  obtain ⟨evs1, t1, q1⟩ := choose_swapchain_extent_emits
    (q := fun e => e.requested_image_count.isNone) d (fun _ => rfl) (fun _ _ => rfl)
    { s with trace := s.trace ++
      [Event.get_surface_capabilities (d.surface_capabilities (count Event.is_caps s))] }
  rw [hch] at t1
  simp only [Outcome.state] at t1
  obtain ⟨r, h, s4, hsc, t4⟩ := vk_create_swapchain_done d n ext
    { s2 with m_swapchain_size := ext }
  obtain ⟨evs2, t5, q5⟩ := setup_framebuffer_rest_emits d n (r, h) s4
  refine ⟨Event.get_surface_capabilities (d.surface_capabilities (count Event.is_caps s))
    :: evs1, ext, r, h, evs2, ?_, ?_, ?_⟩
  · have e : setup_framebuffer d s = (if (r, h).1 ≠ VK_SUCCESS then
          raise Exn.SwapchainCreationFailed
        else do
          update fun s => { s with m_swapchain := (r, h).2 }
          let images ← get_swapchain_images d (r, h).2
          update fun s => { s with m_swap_chain_images := images }
          update fun s => { s with m_swap_chain_views := resize s.m_swap_chain_views n }
          setup_framebuffer_views d 0 n) s4 := by
      unfold setup_framebuffer
      simp only [bind_apply, Sim.bind, get_surface_capabilities, hch, update, ← hn, hsc]
    rw [e, t5, t4, min_image_count, ← hn]
    simp [t1]
  · intro e he
    simp only [List.mem_cons] at he
    rcases he with he | he
    · subst he; rfl
    · simpa using q1 e he
  · intro e he
    simpa using q5 e he

theorem setup_framebuffer_views_count (d : Driver) : ∀ (todo i : Nat) (S s' : State),
    setup_framebuffer_views d i todo S = Outcome.done () s' →
    count (Event.is_create Res.image_view) s'
      = count (Event.is_create Res.image_view) S + todo := by
  intro todo
  induction todo with
  | zero =>
    intro i S s' h
    simp only [setup_framebuffer_views, pure_apply] at h
    injection h with _ hs
    rw [← hs]; rfl
  | succ k ih =>
    intro i S s' h
    unfold setup_framebuffer_views at h
    simp only [bind_apply, Sim.bind, get_state, index] at h
    cases hi : S.m_swap_chain_images[i]? with
    | none => simp [hi] at h
    | some img =>
      simp only [hi, vk_create] at h
      split_ifs at h with hr
      · simp only [hr, ne_eq, not_true_eq_false, if_false, bind_apply, Sim.bind, update] at h
        rw [ih _ _ _ h]
        simp [count, List.countP_append, Event.is_create]
        omega
      · simp [hr, raise] at h

theorem setup_framebuffer_view_count (d : Driver) (s s' : State)
    (h : setup_framebuffer d s = Outcome.done () s') :
    count (Event.is_create Res.image_view) s' = count (Event.is_create Res.image_view) s
      + min_image_count (d.surface_capabilities (count Event.is_caps s)) := by
  unfold setup_framebuffer at h
  simp only [bind_apply, Sim.bind, get_surface_capabilities] at h
  obtain ⟨evs1, t1, q1⟩ := choose_swapchain_extent_emits
    (q := fun e => !Event.is_create Res.image_view e) d (fun _ => rfl) (fun _ _ => rfl)
    { s with trace := s.trace ++
      [Event.get_surface_capabilities (d.surface_capabilities (count Event.is_caps s))] }
  split at h
  · rename_i ext s1 hext
    rw [hext] at t1
    simp only [Outcome.state] at t1
    have c1 : List.countP (Event.is_create Res.image_view) evs1 = 0 := by
      rw [List.countP_eq_zero]
      intro e he
      simpa using q1 e he
    simp only [update, vk_create_swapchain] at h
    split_ifs at h with hr
    · simp only [ne_eq, hr, not_true_eq_false, if_false, bind_apply, Sim.bind, update,
        get_swapchain_images] at h
      rw [setup_framebuffer_views_count d _ _ _ _ h]
      simp [count, t1, List.countP_append, c1, Event.is_create, min_image_count]
    · simp [hr, raise] at h
  · simp at h

/-- Claim C5: with `m` the minimum image count the surface reports, `setup_framebuffer`
calls `vkCreateSwapchainKHR` exactly once, whatever the driver answers, and asks for
max(m, 3) images, which is at least m; when it reaches its end it holds max(m, 3)
image views and has made max(m, 3) image-view creation calls. -/
theorem setup_framebuffer_requests_max (d : Driver) (s : State) :
    ((setup_framebuffer d s).state.since s).filterMap Event.requested_image_count
        = [max (d.surface_capabilities (count Event.is_caps s)).minImageCount 3]
    ∧ (d.surface_capabilities (count Event.is_caps s)).minImageCount
        ≤ max (d.surface_capabilities (count Event.is_caps s)).minImageCount 3
    ∧ ((setup_framebuffer d s).failure = none →
        (setup_framebuffer d s).state.m_swap_chain_views.length
          = max (d.surface_capabilities (count Event.is_caps s)).minImageCount 3
        ∧ List.countP (Event.is_create Res.image_view) ((setup_framebuffer d s).state.since s)
          = max (d.surface_capabilities (count Event.is_caps s)).minImageCount 3) := by
  obtain ⟨pre, ext, r, h, post, t, hpre, hpost⟩ := setup_framebuffer_request d s
  refine ⟨?_, le_max_left _ _, ?_⟩
  · have e1 : pre.filterMap Event.requested_image_count = [] :=
      List.filterMap_eq_nil_iff.mpr hpre
    have e2 : post.filterMap Event.requested_image_count = [] :=
      List.filterMap_eq_nil_iff.mpr hpost
    simp [State.since, t, List.append_assoc, List.filterMap_append, e1, e2,
      Event.requested_image_count, min_image_count]
  · intro hf
    cases ho : setup_framebuffer d s with
    | abort e s' => rw [ho] at hf; cases hf
    | done a s' =>
      have hc := setup_framebuffer_view_count d s s' ho
      have hl := setup_framebuffer_views_length d s s' ho
      rw [ho] at t
      simp only [Outcome.state, min_image_count, count] at t hc hl ⊢
      refine ⟨hl, ?_⟩
      simp only [t, List.countP_append] at hc
      simp only [State.since, t, List.append_assoc, List.drop_left, List.countP_append]
      omega

/-- Claim C5 on two drivers that never fail: a surface minimum of 2 gives a request
for 3 images and 3 image views, a surface minimum of 4 gives 4 and 4. -/
theorem setup_framebuffer_requests_max_witness :
    (((setup_framebuffer (Driver.steady 2 3) State.boot).state.since State.boot).filterMap
        Event.requested_image_count = [3]
      ∧ (setup_framebuffer (Driver.steady 2 3) State.boot).failure = none
      ∧ (setup_framebuffer (Driver.steady 2 3) State.boot).state.m_swap_chain_views.length = 3)
    ∧ (((setup_framebuffer (Driver.steady 4 4) State.boot).state.since State.boot).filterMap
        Event.requested_image_count = [4]
      ∧ (setup_framebuffer (Driver.steady 4 4) State.boot).failure = none
      ∧ (setup_framebuffer (Driver.steady 4 4) State.boot).state.m_swap_chain_views.length
          = 4) := by
  have f2 : (setup_framebuffer (Driver.steady 2 3) State.boot).failure = none := by
    obtain ⟨a, s', h⟩ := setup_framebuffer_succeeds (Driver.steady 2 3) State.boot
      (fun _ _ => rfl) (by decide)
    rw [h]; rfl
  have f4 : (setup_framebuffer (Driver.steady 4 4) State.boot).failure = none := by
    obtain ⟨a, s', h⟩ := setup_framebuffer_succeeds (Driver.steady 4 4) State.boot
      (fun _ _ => rfl) (by decide)
    rw [h]; rfl
  have h2 := setup_framebuffer_requests_max (Driver.steady 2 3) State.boot
  have h4 := setup_framebuffer_requests_max (Driver.steady 4 4) State.boot
  exact ⟨⟨h2.1, f2, (h2.2.2 f2).1⟩, ⟨h4.1, f4, (h4.2.2 f4).1⟩⟩

/-! ## Calling `cleanup_swapchain` twice -/

theorem vk_destroy_done (kind : Res) (h : Handle) (s : State) :
    vk_destroy kind h s = Outcome.done () (vk_destroy kind h s).state := by
  unfold vk_destroy
  dsimp only
  split_ifs <;> rfl

theorem destroyed_append (a b : List (Res × Handle)) : ∀ s,
    destroyed (a ++ b) s = destroyed b (destroyed a s) := by
  induction a with
  | nil => intro s; rfl
  | cons x rest ih => intro s; exact ih _

theorem destroy_each_eq (kind : Res) : ∀ (l : List Handle) (s : State),
    destroy_each kind l s = Outcome.done () (destroyed (l.map (fun h => (kind, h))) s) := by
  intro l
  induction l with
  | nil => intro s; rfl
  | cons h rest ih =>
    intro s
    simp only [destroy_each, bind_apply, Sim.bind]
    rw [vk_destroy_done]
    exact ih _

theorem cleanup_swapchain_eq (s : State) :
    cleanup_swapchain s = Outcome.done () (destroyed (held s) s) := by
  simp only [cleanup_swapchain, bind_apply, Sim.bind, get_state, destroy_each_eq, held,
    destroyed_append]
  rw [vk_destroy_done Res.render_pass]
  dsimp only
  rw [vk_destroy_done Res.pipeline_layout]
  dsimp only
  rw [vk_destroy_done Res.pipeline]
  dsimp only
  rw [vk_destroy_done Res.swapchain]
  rfl

theorem vk_destroy_held (kind : Res) (h : Handle) (s : State) :
    held (vk_destroy kind h s).state = held s := by
  unfold vk_destroy
  dsimp only
  split_ifs <;> rfl

theorem vk_destroy_live_subset (kind : Res) (h : Handle) (s : State) (x : Res × Handle)
    (hx : x ∈ (vk_destroy kind h s).state.live) : x ∈ s.live := by
  unfold vk_destroy at hx
  dsimp only at hx
  split_ifs at hx
  · exact hx
  · exact (List.mem_filter.mp hx).1
  · exact hx

theorem vk_destroy_not_live (kind : Res) (h : Handle) (s : State) (hn : h ≠ VK_NULL_HANDLE) :
    (kind, h) ∉ (vk_destroy kind h s).state.live := by
  unfold vk_destroy
  dsimp only
  split_ifs with h1 h2
  · exact absurd h1 hn
  · intro hx
    simpa using (List.mem_filter.mp hx).2
  · exact h2

theorem vk_destroy_faults_mono (kind : Res) (h : Handle) (s : State) (x : Res × Handle)
    (hx : x ∈ s.faults) : x ∈ (vk_destroy kind h s).state.faults := by
  unfold vk_destroy
  dsimp only
  split_ifs
  · exact hx
  · exact hx
  · exact List.mem_append_left _ hx

theorem vk_destroy_faults (kind : Res) (h : Handle) (s : State) (hn : h ≠ VK_NULL_HANDLE)
    (hl : (kind, h) ∉ s.live) : (kind, h) ∈ (vk_destroy kind h s).state.faults := by
  unfold vk_destroy
  dsimp only
  split_ifs with h1
  · exact absurd h1 hn
  · simp [Outcome.state]

theorem destroyed_held (l : List (Res × Handle)) : ∀ s, held (destroyed l s) = held s := by
  induction l with
  | nil => intro s; rfl
  | cons x rest ih => intro s; exact (ih _).trans (vk_destroy_held _ _ _)

theorem destroyed_live_subset (l : List (Res × Handle)) : ∀ (s : State) (x : Res × Handle),
    x ∈ (destroyed l s).live → x ∈ s.live := by
  induction l with
  | nil => intro s x hx; exact hx
  | cons y rest ih => intro s x hx; exact vk_destroy_live_subset _ _ _ _ (ih _ _ hx)

theorem destroyed_not_live (l : List (Res × Handle)) : ∀ (s : State) (x : Res × Handle),
    x ∈ l → x.2 ≠ VK_NULL_HANDLE → x ∉ (destroyed l s).live := by
  induction l with
  | nil => intro s x hx; cases hx
  | cons y rest ih =>
    intro s x hx hn
    rcases List.mem_cons.mp hx with rfl | hx
    · intro hl
      exact vk_destroy_not_live x.1 x.2 s hn (destroyed_live_subset rest _ _ hl)
    · exact ih _ x hx hn

theorem destroyed_faults_mono (l : List (Res × Handle)) : ∀ (s : State) (x : Res × Handle),
    x ∈ s.faults → x ∈ (destroyed l s).faults := by
  induction l with
  | nil => intro s x hx; exact hx
  | cons y rest ih => intro s x hx; exact ih _ x (vk_destroy_faults_mono _ _ _ _ hx)

theorem destroyed_faults (l : List (Res × Handle)) : ∀ (s : State),
    (∀ x ∈ l, x.2 ≠ VK_NULL_HANDLE → x ∉ s.live) →
    ∀ x ∈ l, x.2 ≠ VK_NULL_HANDLE → x ∈ (destroyed l s).faults := by
  induction l with
  | nil => intro s _ x hx; cases hx
  | cons y rest ih =>
    intro s hl x hx hn
    rcases List.mem_cons.mp hx with rfl | hx
    · exact destroyed_faults_mono rest _ _
        (vk_destroy_faults x.1 x.2 s hn (hl x (List.mem_cons_self _ _) hn))
    · refine ih _ (fun z hz hzn hzl => ?_) x hx hn
      exact hl z (List.mem_cons_of_mem _ hz) hzn (vk_destroy_live_subset _ _ _ _ hzl)

theorem destroyed_trace (l : List (Res × Handle)) : ∀ (s : State),
    (destroyed l s).trace = s.trace ++ l.map (fun x => Event.destroy x.1 x.2) := by
  induction l with
  | nil => intro s; simp [destroyed]
  | cons y rest ih =>
    intro s
    obtain ⟨a, s1, h1, t1⟩ := vk_destroy_logs y.1 y.2 s
    simp only [destroyed, ih, h1, Outcome.state, t1, List.map_cons, List.append_assoc,
      List.singleton_append]

/-- Claim C7, as stated, fails on the swapchain built by `setup_device`: the second of
two successive `cleanup_swapchain` calls destroys the ten non-null objects of the
first call again, and each of them is a fault. -/
theorem cleanup_swapchain_twice_faults :
    (cleanup_swapchain State.ready).state.faults = []
    ∧ (cleanup_swapchain (cleanup_swapchain State.ready).state).state.faults
      = [(Res.framebuffer, 15), (Res.framebuffer, 16), (Res.framebuffer, 17),
         (Res.render_pass, 9), (Res.pipeline_layout, 13), (Res.pipeline, 14),
         (Res.image_view, 6), (Res.image_view, 7), (Res.image_view, 8),
         (Res.swapchain, 2)] := by
  simp [setup_device, setup_framebuffer, choose_swapchain_extent, setup_framebuffer_views,
    setup_render_pass, make_shader_module, create_pipeline, create_framebuffer,
    create_framebuffer_loop, create_command_pool, create_semaphores, create_descriptor_pool,
    create_descriptor_set, create_command_buffers, create_command_buffers_loop,
    cleanup_swapchain, destroy_each, rebuild_swapchain, update_ubo, draw_frame, draw_frame_once,
    Sim.bind, get_surface_capabilities, get_framebuffer_size, update, emit, vk_create_swapchain,
    vk_create, vk_allocate, vk_destroy, get_swapchain_images, get_state, index, raise,
    vk_begin_command_buffer, vk_end_command_buffer, vk_acquire_next_image, vk_queue_submit,
    vk_queue_present, count, Event.is_caps, Event.is_fbsize, Event.is_create, Event.is_images,
    Event.is_begin, Event.is_end, Event.is_acquire, Event.is_submit, Event.is_present,
    Event.is_rebuild, handles, resize, VK_SUCCESS, VK_SUBOPTIMAL_KHR, VK_ERROR_OUT_OF_DATE_KHR,
    UINT32_MAX, VK_NULL_HANDLE, VK_PIPELINE_STAGE_COLOR_ATTACHMENT_OUTPUT_BIT, Outcome.state,
    Outcome.failure, Outcome.value, ite_apply, List.range, List.range.loop, State.ready]

/-- Claim C7, amended: `cleanup_swapchain` does not reset the handles it destroys, so
for every state two successive calls both return, the second call repeats exactly
the `vkDestroy*` calls of the first, and every non-null object the state holds
(framebuffer, render pass, pipeline layout, pipeline, image view, swapchain) is
destroyed a second time, which the allocator records as a fault. -/
theorem cleanup_swapchain_twice (s : State) :
    ∃ s1 s2, cleanup_swapchain s = Outcome.done () s1
      ∧ cleanup_swapchain s1 = Outcome.done () s2
      ∧ s2.since s1 = s1.since s
      ∧ s1.since s = (held s).map (fun x => Event.destroy x.1 x.2)
      ∧ ∀ x ∈ held s, x.2 ≠ VK_NULL_HANDLE → x ∈ s2.faults := by
  refine ⟨destroyed (held s) s, destroyed (held s) (destroyed (held s) s),
    cleanup_swapchain_eq s, ?_, ?_, ?_, ?_⟩
  · have := cleanup_swapchain_eq (destroyed (held s) s)
    rwa [destroyed_held] at this
  · simp [State.since, destroyed_trace]
  · simp [State.since, destroyed_trace]
  · exact destroyed_faults (held s) _
      (fun x hx hn => destroyed_not_live (held s) s x hx hn)

/-- Claim C7, amended, on the swapchain built by `setup_device`: the swapchain handle 2
is destroyed by both calls and is a fault of the second. -/
theorem cleanup_swapchain_twice_witness :
    ∃ s1 s2, cleanup_swapchain State.ready = Outcome.done () s1
      ∧ cleanup_swapchain s1 = Outcome.done () s2
      ∧ (Res.swapchain, 2) ∈ s2.faults := by
  obtain ⟨s1, s2, h1, h2, _, _, hf⟩ := cleanup_swapchain_twice State.ready
  exact ⟨s1, s2, h1, h2, hf (Res.swapchain, 2) (by decide) (by decide)⟩

/-! ## The resize flag is read after the acquire -/

theorem draw_frame_flag_trace (d : Driver) (s : State) (fuel : Nat) (o : Outcome Unit)
    (hflag : s.m_was_resized = true) (h : draw_frame d fuel s = some o) :
    ∃ rest, o.state.since s
      = [s.ubo_event,
         s.acquire_event (d.acquire (count Event.is_acquire s)).1
           (d.acquire (count Event.is_acquire s)).2,
         Event.rebuild_swapchain, Event.device_wait_idle] ++ rest := by
  cases fuel with
  | zero => cases h
  | succ n =>
    obtain ⟨evs, t1, _⟩ := rebuild_swapchain_waits_first d (after_acquire d s)
    simp only [draw_frame] at h
    rw [draw_frame_once_eq, if_pos (Or.inr hflag)] at h
    cases hrb : rebuild_swapchain d (after_acquire d s) with
    | abort e s3 =>
      rw [hrb] at h t1
      simp only [Option.some.injEq] at h
      subst h
      simp only [Outcome.state] at t1 ⊢
      exact ⟨evs, by simp [State.since, t1, after_acquire, State.ubo_event,
        State.acquire_event]⟩
    | done a s3 =>
      rw [hrb] at h t1
      simp only [Outcome.state] at t1 h
      obtain ⟨pre, tail, t2, _, _⟩ := draw_frame_shape d n _ o h
      refine ⟨evs ++ pre ++ tail, ?_⟩
      simp only at t2
      simp [State.since, t2, t1, after_acquire, State.ubo_event, State.acquire_event]

theorem setup_framebuffer_to_views (d : Driver) (s : State)
    (hsc : d.create Res.swapchain (count (Event.is_create Res.swapchain) s) = VK_SUCCESS) :
    ∃ S, setup_framebuffer d s = setup_framebuffer_views d 0
          (min_image_count (d.surface_capabilities (count Event.is_caps s))) S
      ∧ S.live = s.live ++ [(Res.swapchain, s.fresh)]
      ∧ S.fresh = s.fresh + 1 + d.swapchain_images (count Event.is_images s)
      ∧ S.m_swapchain = s.fresh
      ∧ S.m_swap_chain_images.length = d.swapchain_images (count Event.is_images s)
      ∧ S.m_swap_chain_views.length
          = min_image_count (d.surface_capabilities (count Event.is_caps s))
      ∧ S.m_framebuffers = s.m_framebuffers
      ∧ count (Event.is_create Res.image_view) S = count (Event.is_create Res.image_view) s := by
  simp only [count] at hsc
  unfold setup_framebuffer choose_swapchain_extent
  by_cases hw : (d.surface_capabilities (List.countP Event.is_caps s.trace + 1)).currentExtent.width
      = UINT32_MAX
  · simp only [bind_apply, Sim.bind, get_surface_capabilities, get_framebuffer_size, ite_apply,
      update, vk_create_swapchain, get_swapchain_images, count, List.countP_append,
      Event.is_caps, Event.is_create, Event.is_images, Event.is_fbsize, hw, hsc, pure_apply,
      List.countP_cons, List.countP_nil, ne_eq, not_true_eq_false, if_false, if_true,
      Nat.add_zero, Nat.zero_add, min_image_count, decide_False, decide_True, Bool.false_eq_true,
      List.countP_singleton]
    exact ⟨_, rfl, rfl, rfl, rfl, handles_length _ _, resize_length _ _, rfl,
      by simp [List.countP_append, Event.is_create]⟩
  · simp only [bind_apply, Sim.bind, get_surface_capabilities, get_framebuffer_size, ite_apply,
      update, vk_create_swapchain, get_swapchain_images, count, List.countP_append,
      Event.is_caps, Event.is_create, Event.is_images, Event.is_fbsize, hw, hsc, pure_apply,
      List.countP_cons, List.countP_nil, ne_eq, not_true_eq_false, if_false, if_true,
      Nat.add_zero, Nat.zero_add, min_image_count, decide_False, decide_True, Bool.false_eq_true,
      List.countP_singleton, not_false_eq_true]
    exact ⟨_, rfl, rfl, rfl, rfl, handles_length _ _, resize_length _ _, rfl,
      by simp [List.countP_append, Event.is_create]⟩

theorem setup_framebuffer_swapchain_fails (d : Driver) (s : State)
    (hsc : d.create Res.swapchain (count (Event.is_create Res.swapchain) s) ≠ VK_SUCCESS) :
    (setup_framebuffer d s).failure = some (Abort.exception Exn.SwapchainCreationFailed)
    ∧ (setup_framebuffer d s).state.live = s.live
    ∧ (setup_framebuffer d s).state.m_swapchain = s.m_swapchain
    ∧ (setup_framebuffer d s).state.m_swap_chain_images = s.m_swap_chain_images
    ∧ (setup_framebuffer d s).state.m_swap_chain_views = s.m_swap_chain_views
    ∧ (setup_framebuffer d s).state.m_framebuffers = s.m_framebuffers := by
  simp only [count] at hsc
  unfold setup_framebuffer choose_swapchain_extent
  by_cases hw : (d.surface_capabilities (List.countP Event.is_caps s.trace + 1)).currentExtent.width
      = UINT32_MAX
  · simp [Sim.bind, get_surface_capabilities, get_framebuffer_size, ite_apply,
      update, vk_create_swapchain, count, List.countP_append, Event.is_caps, Event.is_create,
      hw, hsc, raise, Outcome.failure, Outcome.state]
  · simp [Sim.bind, get_surface_capabilities, get_framebuffer_size, ite_apply,
      update, vk_create_swapchain, count, List.countP_append, Event.is_caps, Event.is_create,
      hw, hsc, raise, Outcome.failure, Outcome.state]

theorem rebuild_swapchain_images_length (d : Driver) (s s' : State)
    (h : rebuild_swapchain d s = Outcome.done () s') :
    s'.m_swap_chain_images.length = d.swapchain_images (count Event.is_images s) := by
  have hclean := cleanup_swapchain_eq
    ((s.log [Event.rebuild_swapchain]).log [Event.device_wait_idle])
  have hcount : count Event.is_images (destroyed
      (held ((s.log [Event.rebuild_swapchain]).log [Event.device_wait_idle]))
      ((s.log [Event.rebuild_swapchain]).log [Event.device_wait_idle]))
      = count Event.is_images s := by
    simp only [count, destroyed_trace, State.log, List.countP_append]
    have : List.countP Event.is_images (List.map (fun x => Event.destroy x.1 x.2)
        (held { s with trace := s.trace ++ [Event.rebuild_swapchain]
          ++ [Event.device_wait_idle] })) = 0 := by
      rw [List.countP_eq_zero]
      intro e he
      obtain ⟨x, _, rfl⟩ := List.mem_map.mp he
      simp [Event.is_images]
    simp [this, Event.is_images]
  have hk : Keeps (fun t : State => t.m_swap_chain_images.length) (do
      setup_render_pass d
      create_pipeline d
      create_framebuffer d
      create_command_buffers d) := by
    have hg : Member (fun t : State => t.m_swap_chain_images.length) :=
      fun _ _ _ _ _ => rfl
    refine Keeps.bind_keeps (setup_render_pass_keeps hg d (fun _ _ => rfl)) (fun _ => ?_)
    refine Keeps.bind_keeps (create_pipeline_keeps hg d (fun _ _ => rfl)
      (fun _ _ => rfl) (fun _ _ => rfl)) (fun _ => ?_)
    refine Keeps.bind_keeps (create_framebuffer_keeps hg d (fun _ _ => rfl)) (fun _ => ?_)
    exact create_command_buffers_keeps hg d (fun _ _ => rfl)
  simp only [rebuild_swapchain, bind_apply, Sim.bind, emit] at h
  simp only [State.log] at hclean hcount
  rw [hclean] at h
  simp only at h
  rw [← hcount]
  cases hsf : setup_framebuffer d (destroyed
      (held { s with trace := s.trace ++ [Event.rebuild_swapchain] ++ [Event.device_wait_idle] })
      { s with trace := s.trace ++ [Event.rebuild_swapchain] ++ [Event.device_wait_idle] }) with
  | abort e t3 => rw [hsf] at h; cases h
  | done a t3 =>
    rw [hsf] at h
    simp only at h
    have h3 := hk t3
    simp only [bind_apply, Sim.bind] at h3
    rw [h] at h3
    simp only [Outcome.state] at h3
    rw [h3]
    by_cases hsc : d.create Res.swapchain (count (Event.is_create Res.swapchain) (destroyed
      (held { s with trace := s.trace ++ [Event.rebuild_swapchain] ++ [Event.device_wait_idle] })
      { s with trace := s.trace ++ [Event.rebuild_swapchain] ++ [Event.device_wait_idle] }))
        = VK_SUCCESS
    · obtain ⟨S, hS, _, _, _, l4, _⟩ := setup_framebuffer_to_views d _ hsc
      rw [hS] at hsf
      have hg : Member (fun t : State => t.m_swap_chain_images.length) :=
        fun _ _ _ _ _ => rfl
      have hv := setup_framebuffer_views_keeps hg d (fun _ _ _ => rfl)
        (min_image_count (d.surface_capabilities (count Event.is_caps (destroyed
          (held { s with trace := s.trace ++ [Event.rebuild_swapchain]
            ++ [Event.device_wait_idle] })
          { s with trace := s.trace ++ [Event.rebuild_swapchain]
            ++ [Event.device_wait_idle] })))) 0 S
      rw [hsf] at hv
      simp only [Outcome.state] at hv
      rw [hv, l4]
    · have hf := (setup_framebuffer_swapchain_fails d _ hsc).1
      rw [hsf] at hf
      cases hf

/-- C15, evaluated at the failing input: two consecutive `rebuild_swapchain` calls
from `State.ready`, the driver making 4 images for each new swapchain where 3 were
requested. Both calls succeed, and after each of them the command-buffer table has 3
entries for 4 swapchain images. -/
theorem rebuild_twice_table_shorter_than_images :
    ∃ s1 s2, rebuild_swapchain Driver.growing State.ready = Outcome.done () s1
      ∧ rebuild_swapchain Driver.growing s1 = Outcome.done () s2
      ∧ s1.m_command_buffers.length = 3 ∧ s1.m_swap_chain_images.length = 4
      ∧ s2.m_command_buffers.length = 3 ∧ s2.m_swap_chain_images.length = 4 := by
  have hd : Driver.growing.reliable := ⟨fun _ _ => rfl, fun _ => rfl, fun _ => rfl⟩
  have hN : ∀ s : State, min_image_count (Driver.growing.surface_capabilities
      (count Event.is_caps s)) ≤ Driver.growing.swapchain_images (count Event.is_images s) := by
    intro s
    show 3 ≤ if count Event.is_images s = 0 then 3 else 4
    split_ifs <;> decide
  obtain ⟨s1, h1, c1⟩ := rebuild_swapchain_ok Driver.growing State.ready hd (hN _)
    (by decide)
  have k1 := rebuild_swapchain_keeps Driver.growing State.ready
  rw [h1] at k1
  have hsets : s1.m_descriptor_sets = State.ready.m_descriptor_sets :=
    congrArg (fun x => x.2.1) k1
  obtain ⟨evs, t1, _⟩ := rebuild_swapchain_trace Driver.growing State.ready
  rw [h1] at t1
  simp only [Outcome.state] at t1
  have hc1 : count Event.is_images s1 ≠ 0 := by
    have : count Event.is_images State.ready = 1 := by decide
    simp only [count] at this ⊢
    rw [t1, List.countP_append, this]
    omega
  obtain ⟨s2, h2, c2⟩ := rebuild_swapchain_ok Driver.growing s1 hd (hN _)
    (by rw [hsets]; exact Nat.le_refl 3)
  have i1 := rebuild_swapchain_images_length Driver.growing State.ready s1 h1
  have i2 := rebuild_swapchain_images_length Driver.growing s1 s2 h2
  refine ⟨s1, s2, h1, h2, c1, ?_, c2, ?_⟩
  · rw [i1]; decide
  · rw [i2]
    show (if count Event.is_images s1 = 0 then 3 else 4) = 4
    rw [if_neg hc1]

/-! ## Claim C22: the accessors of `VkVersion` -/

theorem testBit_of_lt_of_le {x n i : Nat} (hx : x < 2 ^ n) (hi : n ≤ i) : x.testBit i = false :=
  Nat.testBit_lt_two_pow (Nat.lt_of_lt_of_le hx (Nat.pow_le_pow_right (by decide) hi))

/-- What the accessors return on a version built from components in range: the major
version is returned, the minor version loses bit 8 and the patch loses bits 8 to 10. -/
theorem VkVersion_accessors (major minor patch : Nat) (h1 : major < 1024) (h2 : minor < 1024)
    (h3 : patch < 4096) :
    (VkVersion.from_components major minor patch).major_version = major
    ∧ (VkVersion.from_components major minor patch).minor_version = minor &&& 0x2FF
    ∧ (VkVersion.from_components major minor patch).patch = patch &&& 0x8FF := by
  have e1 : major % 2 ^ 16 % 2 ^ 32 = major := by omega
  have e2 : minor % 2 ^ 16 % 2 ^ 32 = minor := by omega
  have e3 : patch % 2 ^ 16 % 2 ^ 32 = patch := by omega
  have m1 : (major <<< 22) % 2 ^ 32 = major <<< 22 := by
    rw [Nat.shiftLeft_eq]; omega
  have m2 : (minor <<< 12) % 2 ^ 32 = minor <<< 12 := by
    rw [Nat.shiftLeft_eq]; omega
  have hM : ∀ i, 10 ≤ i → major.testBit i = false := fun i hi =>
    testBit_of_lt_of_le (n := 10) (by simpa using h1) hi
  have hm : ∀ i, 10 ≤ i → minor.testBit i = false := fun i hi =>
    testBit_of_lt_of_le (n := 10) (by simpa using h2) hi
  have hp : ∀ i, 12 ≤ i → patch.testBit i = false := fun i hi =>
    testBit_of_lt_of_le (n := 12) (by simpa using h3) hi
  simp only [VkVersion.from_components, VkVersion.major_version, VkVersion.minor_version,
    VkVersion.patch, VK_MAKE_VERSION, e1, e2, e3, m1, m2]
  refine ⟨?_, ?_, ?_⟩
  · apply Nat.eq_of_testBit_eq
    intro i
    simp only [Nat.testBit_mod_two_pow, Nat.testBit_shiftRight, Nat.testBit_or,
      Nat.testBit_shiftLeft]
    by_cases hi : i < 16
    · simp [hi, hm (22 + i - 12) (by omega), hp (22 + i) (by omega)]
    · simp [hi, hM i (by omega)]
  · apply Nat.eq_of_testBit_eq
    intro i
    simp only [Nat.testBit_mod_two_pow, Nat.testBit_shiftRight, Nat.testBit_or,
      Nat.testBit_shiftLeft, Nat.testBit_and]
    by_cases hi : i < 10
    · have : 12 + i - 12 = i := by omega
      simp [this, hp (12 + i) (by omega), show ¬ (12 + i ≥ 22) by omega,
        show i < 16 by omega]
    · simp [hm i (by omega), hm (12 + i - 12) (by omega), hp (12 + i) (by omega),
        testBit_of_lt_of_le (x := 0x2FF) (n := 10) (by decide) (by omega : 10 ≤ i)]
  · apply Nat.eq_of_testBit_eq
    intro i
    simp only [Nat.testBit_mod_two_pow, Nat.testBit_or, Nat.testBit_shiftLeft, Nat.testBit_and]
    by_cases hi : i < 12
    · simp [show ¬ (i ≥ 22) by omega, show ¬ (i ≥ 12) by omega, show i < 16 by omega]
    · simp [hp i (by omega),
        testBit_of_lt_of_le (x := 0x8FF) (n := 12) (by decide) (by omega : 12 ≤ i)]

/-- C22, evaluated at the failing input: version 1.256.256 is built with the raw
value 1<<22 | 256<<12 | 256, its major version reads back as 1, but its minor version
and its patch both read back as 0, because bit 8 is missing from the masks `0x2FF`
and `0x8FF`. -/
theorem VkVersion_loses_bit_8 :
    (VkVersion.from_components 1 256 256).raw_version = 1 <<< 22 ||| 256 <<< 12 ||| 256
    ∧ (VkVersion.from_components 1 256 256).major_version = 1
    ∧ (VkVersion.from_components 1 256 256).minor_version = 0
    ∧ (VkVersion.from_components 1 256 256).patch = 0 := by
  decide

/-! ## Claims C24 and C23: `ExtensionSet` -/

theorem ExtensionSet_contains_loop_iff (name : String) : ∀ exts : List VkExtensionProperties,
    ExtensionSet.contains_loop exts name = true ↔ ∃ e ∈ exts, e.extensionName = name
  | [] => by simp [ExtensionSet.contains_loop]
  | extension :: rest => by
    have ih := ExtensionSet_contains_loop_iff name rest
    by_cases h : extension.extensionName = name
    · simp [ExtensionSet.contains_loop, h]
    · simp [ExtensionSet.contains_loop, h, ih]

theorem ExtensionSet_contains_all_loop_iff (s : ExtensionSet) : ∀ names : List String,
    ExtensionSet.contains_all_loop s names = true
      ↔ ∀ name ∈ names, ∃ e ∈ s.m_extensions, e.extensionName = name
  | [] => by simp [ExtensionSet.contains_all_loop]
  | name :: rest => by
    have ih := ExtensionSet_contains_all_loop_iff s rest
    have hc := ExtensionSet_contains_loop_iff name s.m_extensions
    by_cases h : s.contains name = true
    · have h' : ∃ e ∈ s.m_extensions, e.extensionName = name := hc.mp h
      simp only [ExtensionSet.contains_all_loop, h, Bool.not_true, Bool.false_eq_true,
        if_false, ih, List.mem_cons, forall_eq_or_imp, h', true_and]
    · have h' : ¬ ∃ e ∈ s.m_extensions, e.extensionName = name := fun hx => h (hc.mpr hx)
      simp only [Bool.not_eq_true] at h
      simp only [ExtensionSet.contains_all_loop, h, Bool.not_false, if_true,
        Bool.false_eq_true, List.mem_cons, forall_eq_or_imp, h', false_and]

/-- Claim C24: `contains_all(names)` is true exactly when every name of the list is the
`extensionName` of some extension of the set; it is true for the empty list; and
`Simulation::get_instance_extensions` returns the requested list exactly when all of
it is supported and throws otherwise. -/
theorem ExtensionSet_contains_all_iff (s : ExtensionSet) (names : List String) :
    (s.contains_all names = true
      ↔ ∀ name ∈ names, ∃ e ∈ s.m_extensions, e.extensionName = name)
    ∧ s.contains_all [] = true
    ∧ (get_instance_extensions s names = Except.ok (names ++ ["VK_EXT_debug_report"])
        ↔ ∀ name ∈ names ++ ["VK_EXT_debug_report"],
            ∃ e ∈ s.m_extensions, e.extensionName = name)
    ∧ (get_instance_extensions s names
          = Except.error (Abort.exception Exn.ExtensionsNotSupported)
        ↔ ¬ ∀ name ∈ names ++ ["VK_EXT_debug_report"],
            ∃ e ∈ s.m_extensions, e.extensionName = name) := by
  refine ⟨ExtensionSet_contains_all_loop_iff s names, rfl, ?_, ?_⟩
  · rw [← ExtensionSet_contains_all_loop_iff s (names ++ ["VK_EXT_debug_report"])]
    unfold get_instance_extensions ExtensionSet.contains_all
    cases h : ExtensionSet.contains_all_loop s (names ++ ["VK_EXT_debug_report"]) <;> simp [h]
  · rw [← ExtensionSet_contains_all_loop_iff s (names ++ ["VK_EXT_debug_report"])]
    unfold get_instance_extensions ExtensionSet.contains_all
    cases h : ExtensionSet.contains_all_loop s (names ++ ["VK_EXT_debug_report"]) <;> simp [h]

theorem ExtensionSet_difference_search_found (name : String) :
    ∀ (exts : List VkExtensionProperties) (j : Nat),
      ExtensionSet.contains_loop exts name = true →
      (ExtensionSet.difference_search exts name j).1 = true
  | [], _ => by simp [ExtensionSet.contains_loop]
  | extension :: rest, j => by
    intro h
    by_cases hn : name = extension.extensionName
    · simp [ExtensionSet.difference_search, hn]
    · have hn' : ¬ extension.extensionName = name := fun e => hn e.symm
      simp only [ExtensionSet.contains_loop, hn', if_false] at h
      simp only [ExtensionSet.difference_search, hn, if_false]
      exact ExtensionSet_difference_search_found name rest (j + 1) h

theorem ExtensionSet_difference_search_missing (name : String) :
    ∀ (exts : List VkExtensionProperties) (j : Nat),
      ExtensionSet.contains_loop exts name = false →
      ExtensionSet.difference_search exts name j = (false, j + exts.length)
  | [], _ => by simp [ExtensionSet.difference_search]
  | extension :: rest, j => by
    intro h
    by_cases hn : name = extension.extensionName
    · simp [ExtensionSet.contains_loop, hn] at h
    · have hn' : ¬ extension.extensionName = name := fun e => hn e.symm
      simp only [ExtensionSet.contains_loop, hn', if_false] at h
      simp only [ExtensionSet.difference_search, hn, if_false]
      rw [ExtensionSet_difference_search_missing name rest (j + 1) h]
      simp only [List.length_cons, Prod.mk.injEq, true_and]
      omega

/-- What `ExtensionSet::difference` does: it returns the empty list when every name is
in the set, and otherwise reads `m_extensions` at the index of its size. -/
theorem ExtensionSet_difference_loop_eq (s : ExtensionSet) :
    ∀ (names output : List String),
      ExtensionSet.difference_loop s names output
        = if ExtensionSet.contains_all_loop s names = true then Except.ok output
          else Except.error
            (Abort.out_of_bounds Vec.m_extensions s.m_extensions.length s.m_extensions.length)
  | [], output => by simp [ExtensionSet.difference_loop, ExtensionSet.contains_all_loop]
  | name :: rest, output => by
    have ih := ExtensionSet_difference_loop_eq s rest output
    cases hc : ExtensionSet.contains_loop s.m_extensions name with
    | true =>
      have hf := ExtensionSet_difference_search_found name s.m_extensions 0 hc
      cases hd : ExtensionSet.difference_search s.m_extensions name 0 with
      | mk found j =>
        rw [hd] at hf
        simp only at hf
        subst hf
        simp only [ExtensionSet.difference_loop, hd, ExtensionSet.contains_all_loop,
          ExtensionSet.contains, hc, Bool.not_true, Bool.false_eq_true, if_false, ih]
    | false =>
      have hd := ExtensionSet_difference_search_missing name s.m_extensions 0 hc
      simp only [Nat.zero_add] at hd
      simp [ExtensionSet.difference_loop, hd, ExtensionSet.contains_all_loop,
        ExtensionSet.contains, hc]

/-- C23, evaluated at the failing input: the set holds "VK_KHR_surface" and the names
are "VK_KHR_surface" and "VK_EXT_debug_report". The second name is not in the set, and
instead of returning it `difference` reads `m_extensions[1]` of a vector of size 1. -/
theorem ExtensionSet_difference_reads_past_the_end :
    surface_only.m_extensions.length = 1
    ∧ surface_only.contains "VK_EXT_debug_report" = false
    ∧ surface_only.difference ["VK_KHR_surface", "VK_EXT_debug_report"]
      = Except.error (Abort.out_of_bounds Vec.m_extensions 1 1) := by
  refine ⟨rfl, by decide, ?_⟩
  rw [ExtensionSet.difference, ExtensionSet_difference_loop_eq, if_neg (by decide)]
  rfl

/-! ## Claim C28: `select_memory_type` -/

theorem filter_bit_iff (typeFilter i : Nat) (hi : i < 32) :
    typeFilter &&& ((1 <<< i) % 2 ^ 32) ≠ 0 ↔ typeFilter.testBit i = true := by
  have hlt : 2 ^ i < 2 ^ 32 := Nat.pow_lt_pow_right (by decide) hi
  rw [Nat.one_shiftLeft, Nat.mod_eq_of_lt hlt, Nat.and_two_pow]
  have hpos : 0 < 2 ^ i := Nat.pos_pow_of_pos i (by decide)
  cases typeFilter.testBit i
  · simp
  · simp only [Bool.toNat_true, Nat.one_mul, ne_eq, iff_true]
    omega

theorem select_memory_type_loop_spec (mp : VkPhysicalDeviceMemoryProperties)
    (typeFilter properties : Nat) (hlen : mp.memoryTypes.length = 32) :
    ∀ (todo i : Nat), i + todo ≤ 32 →
      (∀ k, select_memory_type_loop mp typeFilter properties i todo = Except.ok k ↔
        i ≤ k ∧ k < i + todo ∧ suitable mp typeFilter properties k
          ∧ ∀ j, i ≤ j → j < k → ¬ suitable mp typeFilter properties j)
      ∧ (select_memory_type_loop mp typeFilter properties i todo
            = Except.error (Abort.exception Exn.NoSuitableMemoryType) ↔
          ∀ j, i ≤ j → j < i + todo → ¬ suitable mp typeFilter properties j)
      ∧ (∀ e, select_memory_type_loop mp typeFilter properties i todo = Except.error e →
          e = Abort.exception Exn.NoSuitableMemoryType) := by
  intro todo
  induction todo with
  | zero =>
    intro i _
    refine ⟨fun k => ?_, ?_, ?_⟩
    · simp only [select_memory_type_loop, Nat.add_zero]
      constructor
      · intro h; cases h
      · rintro ⟨h1, h2, _⟩; omega
    · simp only [select_memory_type_loop, Nat.add_zero, true_iff]
      intro j h1 h2; omega
    · intro e h
      simp only [select_memory_type_loop] at h
      injection h with h
      exact h.symm
  | succ n ih =>
    intro i hi
    obtain ⟨ih1, ih2, ih3⟩ := ih (i + 1) (by omega)
    have hi32 : i < 32 := by omega
    have hget : ∃ t, mp.memoryTypes[i]? = some t :=
      ⟨mp.memoryTypes[i], List.getElem?_eq_getElem (by omega)⟩
    obtain ⟨t, ht⟩ := hget
    have hbit := filter_bit_iff typeFilter i hi32
    by_cases hs : suitable mp typeFilter properties i
    · obtain ⟨b1, t', ht', hf⟩ := hs
      rw [ht] at ht'
      injection ht' with ht'
      subst ht'
      have hrun : select_memory_type_loop mp typeFilter properties i (n + 1) = Except.ok i := by
        simp only [select_memory_type_loop, hbit.mpr b1, ht, hf, if_true, ne_eq,
          not_false_eq_true]
      have hsi : suitable mp typeFilter properties i := ⟨b1, t, ht, hf⟩
      rw [hrun]
      refine ⟨fun k => ?_, ?_, ?_⟩
      · constructor
        · intro h
          injection h with h
          subst h
          exact ⟨Nat.le_refl _, by omega, hsi, fun j h1 h2 => by omega⟩
        · rintro ⟨h1, _, _, h4⟩
          by_cases hk : k = i
          · rw [hk]
          · exact absurd hsi (h4 i (Nat.le_refl _) (by omega))
      · constructor
        · intro h; cases h
        · intro h
          exact absurd hsi (h i (Nat.le_refl _) (by omega))
      · intro e h; cases h
    · have hrun : select_memory_type_loop mp typeFilter properties i (n + 1)
          = select_memory_type_loop mp typeFilter properties (i + 1) n := by
        by_cases hb : typeFilter.testBit i = true
        · have hf : ¬ (t.propertyFlags &&& properties = properties) :=
            fun hf => hs ⟨hb, t, ht, hf⟩
          simp only [select_memory_type_loop, hbit.mpr hb, ht, hf, if_true, if_false, ne_eq,
            not_false_eq_true]
        · have hb' : ¬ (typeFilter &&& ((1 <<< i) % 2 ^ 32) ≠ 0) := fun h => hb (hbit.mp h)
          simp only [select_memory_type_loop, hb', if_false]
      rw [hrun]
      refine ⟨fun k => ?_, ?_, ih3⟩
      · rw [ih1 k]
        constructor
        · rintro ⟨h1, h2, h3, h4⟩
          refine ⟨by omega, by omega, h3, fun j hj1 hj2 => ?_⟩
          by_cases hj : j = i
          · rw [hj]; exact hs
          · exact h4 j (by omega) hj2
        · rintro ⟨h1, h2, h3, h4⟩
          have hk : k ≠ i := fun e => hs (e ▸ h3)
          exact ⟨by omega, by omega, h3, fun j hj1 hj2 => h4 j (by omega) hj2⟩
      · rw [ih2]
        constructor
        · intro h j hj1 hj2
          by_cases hj : j = i
          · rw [hj]; exact hs
          · exact h j (by omega) (by omega)
        · intro h j hj1 hj2
          exact h j (by omega) (by omega)

/-- Claim C28: for every filter, every set of required flags and every memory-type
table of at most 32 entries, `select_memory_type` returns `i` exactly when `i` is the
least index below `memoryTypeCount` whose filter bit is set and whose property flags
include all required flags; it throws exactly when no such index exists, and it ends
in no other way. -/
theorem select_memory_type_least (mp : VkPhysicalDeviceMemoryProperties)
    (typeFilter properties : Nat) (hlen : mp.memoryTypes.length = 32)
    (hcount : mp.memoryTypeCount ≤ 32) :
    (∀ i, select_memory_type mp typeFilter properties = Except.ok i ↔
      i < mp.memoryTypeCount ∧ suitable mp typeFilter properties i
        ∧ ∀ j, j < i → ¬ suitable mp typeFilter properties j)
    ∧ (select_memory_type mp typeFilter properties
          = Except.error (Abort.exception Exn.NoSuitableMemoryType) ↔
        ∀ j, j < mp.memoryTypeCount → ¬ suitable mp typeFilter properties j)
    ∧ (∀ e, select_memory_type mp typeFilter properties = Except.error e →
        e = Abort.exception Exn.NoSuitableMemoryType) := by
  obtain ⟨h1, h2, h3⟩ := select_memory_type_loop_spec mp typeFilter properties hlen
    mp.memoryTypeCount 0 (by omega)
  refine ⟨fun i => ?_, ?_, h3⟩
  · rw [select_memory_type, h1 i]
    simp
  · rw [select_memory_type, h2]
    simp

/-- Claim C28 on a table of three memory types with the flags 1, 6 and 7: for the
filter 0b110 and the required flags 6 the answer is index 1, the least suitable one;
for the filter 0b001 and the required flags 6 no type is suitable and the function
throws. -/
theorem select_memory_type_least_witness :
    three_memory_types.memoryTypes.length = 32
    ∧ three_memory_types.memoryTypeCount ≤ 32
    ∧ (select_memory_type three_memory_types 6 6 = Except.ok 1
      ∧ suitable three_memory_types 6 6 1
      ∧ ∀ j, j < 1 → ¬ suitable three_memory_types 6 6 j)
    ∧ (select_memory_type three_memory_types 1 6
          = Except.error (Abort.exception Exn.NoSuitableMemoryType)
      ∧ ∀ j, j < three_memory_types.memoryTypeCount → ¬ suitable three_memory_types 1 6 j) := by
  have hlen : three_memory_types.memoryTypes.length = 32 := by decide
  have hcount : three_memory_types.memoryTypeCount ≤ 32 := by decide
  have r1 : select_memory_type three_memory_types 6 6 = Except.ok 1 := by rfl
  have r2 : select_memory_type three_memory_types 1 6
      = Except.error (Abort.exception Exn.NoSuitableMemoryType) := by rfl
  have a := (select_memory_type_least three_memory_types 6 6 hlen hcount).1 1
  have b := (select_memory_type_least three_memory_types 1 6 hlen hcount).2.1
  exact ⟨hlen, hcount, ⟨r1, (a.mp r1).2.1, (a.mp r1).2.2⟩, ⟨r2, b.mp r2⟩⟩

theorem Triple.then_outcome {α β : Type} {P Q : State → Prop} {m : Sim α} {f : α → Sim β}
    {R : Outcome β → Prop} (h1 : Triple P m Q) (h2 : ∀ a t, Q t → R (f a t)) :
    ∀ s, P s → R ((m >>= f) s) := by
  intro s hp
  obtain ⟨a, t, hm, hq⟩ := h1 s hp
  simp only [bind_apply, Sim.bind, hm]
  exact h2 a t hq

/-- Against a reliable driver that makes enough images, `rebuild_swapchain` ends as its
last step `create_command_buffers` ends, and that step starts with one framebuffer per
requested image and the descriptor sets held before the rebuild. -/
theorem rebuild_swapchain_reaches (d : Driver) (s : State) (hd : d.reliable)
    (hN : min_image_count (d.surface_capabilities (count Event.is_caps s))
      ≤ d.swapchain_images (count Event.is_images s))
    (R : Outcome Unit → Prop)
    (hR : ∀ t : State, t.m_framebuffers.length
        = min_image_count (d.surface_capabilities (count Event.is_caps s)) →
      t.m_descriptor_sets = s.m_descriptor_sets → R (create_command_buffers d t)) :
    R (rebuild_swapchain d s) := by
  let P : State → Prop := fun t => count Event.is_caps t = count Event.is_caps s
    ∧ count Event.is_images t = count Event.is_images s
    ∧ t.m_descriptor_sets = s.m_descriptor_sets
  let Q2 : State → Prop := fun t => t.m_swap_chain_views.length
      = min_image_count (d.surface_capabilities (count Event.is_caps s))
    ∧ t.m_descriptor_sets = s.m_descriptor_sets
  let Q3 : State → Prop := fun t => t.m_framebuffers.length
      = min_image_count (d.surface_capabilities (count Event.is_caps s))
    ∧ t.m_descriptor_sets = s.m_descriptor_sets
  have sets_of_kept : ∀ a b : State, kept a = kept b → a.m_descriptor_sets = b.m_descriptor_sets :=
    fun a b h => congrArg (fun x => x.2.1) h
  have T1 : ∀ e : Event, e.is_caps = false → e.is_images = false → Triple P (emit e) P := by
    intro e h1 h2 t ht
    refine ⟨(), _, rfl, ?_, ?_, ht.2.2⟩
    · simp [count, List.countP_append, h1]
      exact ht.1
    · simp [count, List.countP_append, h2]
      exact ht.2.1
  have T3 : Triple P cleanup_swapchain P := by
    refine Triple.of (fun t _ => cleanup_swapchain_succeeds t) (fun t ht => ?_)
    obtain ⟨evs, h1, h2⟩ := cleanup_swapchain_emits t
    refine ⟨?_, ?_, ?_⟩
    · rw [count_eq_of_emits h1 h2 quiet_not_caps]; exact ht.1
    · rw [count_eq_of_emits h1 h2 quiet_not_images]; exact ht.2.1
    · rw [sets_of_kept _ _ (cleanup_swapchain_keeps member_kept t)]; exact ht.2.2
  have T4 : Triple P (setup_framebuffer d) Q2 := by
    intro t ht
    obtain ⟨_, t', h⟩ := setup_framebuffer_succeeds d t hd.create_ok (by rw [ht.1, ht.2.1]; exact hN)
    refine ⟨(), t', h, ?_, ?_⟩
    · rw [setup_framebuffer_views_length d t t' h, ht.1]
    · have := sets_of_kept _ _ (setup_framebuffer_keeps d t)
      rw [h] at this
      exact this.trans ht.2.2
  have T5 : Triple Q2 (setup_render_pass d) Q2 := by
    refine Triple.of (fun t _ => setup_render_pass_succeeds d t hd.create_ok) (fun t ht => ?_)
    refine ⟨?_, ?_⟩
    · exact (setup_render_pass_keeps (g := fun s => s.m_swap_chain_views.length)
        (fun _ _ _ _ _ => rfl) d (fun _ _ => rfl) t).trans ht.1
    · rw [sets_of_kept _ _ (setup_render_pass_keeps member_kept d (fun _ _ => rfl) t)]
      exact ht.2
  have T6 : Triple Q2 (create_pipeline d) Q2 := by
    refine Triple.of (fun t _ => create_pipeline_succeeds d t hd.create_ok) (fun t ht => ?_)
    refine ⟨?_, ?_⟩
    · exact (create_pipeline_keeps (g := fun s => s.m_swap_chain_views.length)
        (fun _ _ _ _ _ => rfl) d (fun _ _ => rfl) (fun _ _ => rfl) (fun _ _ => rfl) t).trans ht.1
    · rw [sets_of_kept _ _ (create_pipeline_keeps member_kept d (fun _ _ => rfl)
        (fun _ _ => rfl) (fun _ _ => rfl) t)]
      exact ht.2
  have T7 : Triple Q2 (create_framebuffer d) Q3 := by
    intro t ht
    obtain ⟨_, t', h⟩ := create_framebuffer_succeeds d t hd.create_ok
    refine ⟨(), t', h, ?_, ?_⟩
    · rw [create_framebuffer_done_length d t t' h]; exact ht.1
    · have := sets_of_kept _ _ (create_framebuffer_keeps member_kept d (fun _ _ => rfl) t)
      rw [h] at this
      exact this.trans ht.2
  unfold rebuild_swapchain
  refine Triple.then_outcome (T1 Event.rebuild_swapchain rfl rfl) (fun _ t1 h1 => ?_) s
    ⟨rfl, rfl, rfl⟩
  refine Triple.then_outcome (T1 Event.device_wait_idle rfl rfl) (fun _ t2 h2 => ?_) t1 h1
  refine Triple.then_outcome T3 (fun _ t3 h3 => ?_) t2 h2
  refine Triple.then_outcome T4 (fun _ t4 h4 => ?_) t3 h3
  refine Triple.then_outcome T5 (fun _ t5 h5 => ?_) t4 h4
  refine Triple.then_outcome T6 (fun _ t6 h6 => ?_) t5 h5
  refine Triple.then_outcome T7 (fun _ t7 h7 => ?_) t6 h6
  exact hR t7 h7.1 h7.2

/-! ## Claim C27: the descriptor sets read by `create_command_buffers` -/

theorem create_command_buffers_loop_aborts (d : Driver)
    (hb : ∀ n, d.begin_command_buffer n = VK_SUCCESS)
    (he : ∀ n, d.end_command_buffer n = VK_SUCCESS) (todo : Nat) :
    ∀ i s, i ≤ s.m_descriptor_sets.length → s.m_descriptor_sets.length < i + todo →
      i + todo ≤ s.m_command_buffers.length → i + todo ≤ s.m_framebuffers.length →
      (create_command_buffers_loop d i todo s).failure
        = some (Abort.out_of_bounds Vec.m_descriptor_sets s.m_descriptor_sets.length
            s.m_descriptor_sets.length) := by
  induction todo with
  | zero => intro i s h1 h2 _ _; omega
  | succ k ih =>
    intro i s h1 h2 h3 h4
    have hi1 : i < s.m_command_buffers.length := by omega
    have hi2 : i < s.m_framebuffers.length := by omega
    unfold create_command_buffers_loop
    by_cases hi : i = s.m_descriptor_sets.length
    · have hnone : s.m_descriptor_sets[i]? = none := by
        rw [List.getElem?_eq_none_iff]; omega
      simp only [bind_apply, Sim.bind, get_state, index, List.getElem?_eq_getElem hi1,
        List.getElem?_eq_getElem hi2, hnone, vk_begin_command_buffer, hb, ne_eq,
        not_true_eq_false, if_false, Outcome.failure]
      rw [hi]
    · have hi3 : i < s.m_descriptor_sets.length := by omega
      simp only [bind_apply, Sim.bind, get_state, index, List.getElem?_eq_getElem hi1,
        List.getElem?_eq_getElem hi2, List.getElem?_eq_getElem hi3,
        vk_begin_command_buffer, vk_end_command_buffer, hb, he, if_true, ne_eq,
        not_true_eq_false, if_false, emit]
      exact ih (i + 1) _ (by show i + 1 ≤ s.m_descriptor_sets.length; omega)
        (by show s.m_descriptor_sets.length < i + 1 + k; omega)
        (by show i + 1 + k ≤ s.m_command_buffers.length; omega)
        (by show i + 1 + k ≤ s.m_framebuffers.length; omega)

theorem create_command_buffers_aborts (d : Driver) (s : State) (hd : d.reliable)
    (h : s.m_descriptor_sets.length < s.m_framebuffers.length) :
    (create_command_buffers d s).failure
      = some (Abort.out_of_bounds Vec.m_descriptor_sets s.m_descriptor_sets.length
          s.m_descriptor_sets.length) := by
  unfold create_command_buffers
  simp only [bind_apply, Sim.bind, update, get_state, vk_allocate, hd.create_ok,
    if_true, ne_eq, not_true_eq_false, if_false]
  exact create_command_buffers_loop_aborts d hd.begin_ok hd.end_ok _ 0 _
    (Nat.zero_le _) (by simpa [resize_length] using h)
    (by simp [resize_length, handles_length]) (by simp [resize_length])

/-- C27, evaluated at the failing input: the swapchain is built by `setup_device` for a
surface minimum of 2 (3 images requested and made, 3 descriptor sets); then the surface
minimum is 4 and `rebuild_swapchain` runs against a driver that never fails and makes
the 4 images requested. The recording loop of `create_command_buffers` reads the
descriptor-set vector of size 3 at index 3. -/
theorem rebuild_swapchain_reads_descriptor_set_out_of_range :
    setup_device (Driver.steady 2 3) State.boot = Outcome.done () State.ready
    ∧ State.ready.m_descriptor_sets.length = 3
    ∧ (rebuild_swapchain (Driver.steady 4 4) State.ready).failure
      = some (Abort.out_of_bounds Vec.m_descriptor_sets 3 3) := by
  refine ⟨setup_device_steady, rfl, ?_⟩
  refine rebuild_swapchain_reaches (Driver.steady 4 4) State.ready (steady_reliable 4 4)
    (Nat.le_refl 4) (fun o => o.failure = some (Abort.out_of_bounds Vec.m_descriptor_sets 3 3))
    (fun t h1 h2 => ?_)
  have hl : t.m_descriptor_sets.length = 3 := by rw [h2]; rfl
  have hf : t.m_framebuffers.length = 4 := h1
  have := create_command_buffers_aborts (Driver.steady 4 4) t (steady_reliable 4 4)
    (by rw [hl, hf]; decide)
  rw [hl] at this
  exact this

/-! ## Claim C26: the image-available semaphore across a rebuild -/

/-- A call entered with the resize flag set whose restarted attempt succeeds: the
calls of the frame are the uniform update and the first acquire, then the rebuild and
the second uniform update, none of them a submission, then the second acquire, the
submission and the present request. Both acquires signal the same semaphore. -/
theorem draw_frame_resized_trace (d : Driver) (s : State) (fuel i : Nat) (hd : d.reliable)
    (hflag : s.m_was_resized = true)
    (h2 : d.acquire (count Event.is_acquire s + 1) = (VK_SUCCESS, i))
    (hN : min_image_count (d.surface_capabilities (count Event.is_caps s))
      ≤ d.swapchain_images (count Event.is_images s))
    (hS : min_image_count (d.surface_capabilities (count Event.is_caps s))
      ≤ s.m_descriptor_sets.length)
    (hi : i < min_image_count (d.surface_capabilities (count Event.is_caps s)))
    (hsub : d.submit (count Event.is_submit s) = VK_SUCCESS) :
    ∃ s' mid cb, draw_frame d (fuel + 2) s = some (Outcome.done () s')
      ∧ s'.since s =
        [Event.update_ubo s.m_swapchain_size,
         Event.acquire s.m_swapchain s.m_image_available_semaphore
           (d.acquire (count Event.is_acquire s)).1 (d.acquire (count Event.is_acquire s)).2]
        ++ mid ++
        [Event.acquire s'.m_swapchain s.m_image_available_semaphore VK_SUCCESS i,
         Event.submit s.m_queue cb s.m_image_available_semaphore
           VK_PIPELINE_STAGE_COLOR_ATTACHMENT_OUTPUT_BIT s.m_render_finished_semaphore
           VK_SUCCESS,
         Event.present s.m_present_queue s'.m_swapchain i s.m_render_finished_semaphore
           (d.present (count Event.is_present s))]
      ∧ ∀ e ∈ mid, e.is_submit = false := by
  obtain ⟨a1, a2, a3, a4, a5, a6⟩ := after_acquire_counts d s
  obtain ⟨s3, hrb, hlen⟩ := rebuild_swapchain_ok d (after_acquire d s) hd
    (by rw [a5, a6]; exact hN) (by rw [a5]; exact hS)
  obtain ⟨evs, t3, q3⟩ := rebuild_swapchain_trace d (after_acquire d s)
  obtain ⟨c1, c2, c3, _⟩ := rebuild_swapchain_counts d (after_acquire d s)
  have k3 := rebuild_swapchain_keeps d (after_acquire d s)
  rw [hrb] at t3 c1 c2 c3 k3
  simp only [Outcome.state] at t3 c1 c2 c3 k3
  simp only [kept, after_acquire, Prod.mk.injEq] at k3
  obtain ⟨_, _, k1, k2, k4, k5⟩ := k3
  rw [a5] at hlen
  have e1 := draw_frame_once_eq d s
  rw [if_pos (Or.inr hflag), hrb] at e1
  simp only at e1
  have hi3 : i < s3.m_command_buffers.length := by rw [hlen]; exact hi
  have hA : d.acquire (count Event.is_acquire
      { s3 with m_was_resized := false }) = (VK_SUCCESS, i) := by
    have : count Event.is_acquire { s3 with m_was_resized := false }
        = count Event.is_acquire s + 1 := by
      show count Event.is_acquire s3 = _
      rw [c1, a1]
    rw [this, h2]
  have hSb : d.submit (count Event.is_submit { s3 with m_was_resized := false })
      = VK_SUCCESS := by
    have : count Event.is_submit { s3 with m_was_resized := false }
        = count Event.is_submit s := by
      show count Event.is_submit s3 = _
      rw [c2, a2]
    rw [this, hsub]
  have hP : count Event.is_present { s3 with m_was_resized := false }
      = count Event.is_present s := by
    show count Event.is_present s3 = _
    rw [c3, a3]
  have hp := draw_frame_presents d { s3 with m_was_resized := false } fuel
    s3.m_command_buffers[i] rfl (Or.inl (by rw [hA]))
    (by rw [hA]; exact List.getElem?_eq_getElem hi3) hSb
  obtain ⟨sf, hsf⟩ : ∃ sf, sf = State.log { s3 with m_was_resized := false }
      [State.ubo_event { s3 with m_was_resized := false },
       State.acquire_event { s3 with m_was_resized := false }
         (d.acquire (count Event.is_acquire { s3 with m_was_resized := false })).1
         (d.acquire (count Event.is_acquire { s3 with m_was_resized := false })).2,
       State.submit_event { s3 with m_was_resized := false } s3.m_command_buffers[i] VK_SUCCESS,
       State.present_event { s3 with m_was_resized := false }
         (d.acquire (count Event.is_acquire { s3 with m_was_resized := false })).2
         (d.present (count Event.is_present { s3 with m_was_resized := false }))] := ⟨_, rfl⟩
  rw [← hsf] at hp
  rw [hA, hP] at hsf
  refine ⟨sf, Event.rebuild_swapchain :: evs ++ [Event.update_ubo s3.m_swapchain_size],
    s3.m_command_buffers[i], ?_, ?_, ?_⟩
  · rw [← hp]
    simp only [draw_frame, e1]
  · rw [hsf]
    simp only [State.since, State.log, t3, after_acquire, State.ubo_event,
      State.acquire_event, State.submit_event, State.present_event, k1, k2, k4, k5,
      List.append_assoc, List.drop_left, List.cons_append, List.nil_append]
  · intro e he
    simp only [List.cons_append, List.mem_cons, List.mem_append, List.mem_singleton,
      List.not_mem_nil, or_false] at he
    rcases he with rfl | he | rfl
    · rfl
    · exact (quiet_not_queue e (q3 e he)).1
    · rfl

/-- C26, evaluated at the failing input: the swapchain built by `setup_device`, the
resize flag set by the size callback, a driver that never fails and whose acquires all
succeed. The frame returns normally; its first acquire signals semaphore 19, the
rebuild follows, and the second acquire is passed semaphore 19 again although no
submission has waited on it in between. -/
theorem draw_frame_resized_signals_semaphore_twice :
    State.resized.m_was_resized = true ∧ State.resized.m_image_available_semaphore = 19
    ∧ ∃ s' mid cb, draw_frame (Driver.steady 2 3) 2 State.resized = some (Outcome.done () s')
      ∧ s'.since State.resized =
        [Event.update_ubo { width := 800, height := 600 }, Event.acquire 2 19 VK_SUCCESS 0]
        ++ mid ++
        [Event.acquire s'.m_swapchain 19 VK_SUCCESS 0,
         Event.submit 1 cb 19 VK_PIPELINE_STAGE_COLOR_ATTACHMENT_OUTPUT_BIT 20 VK_SUCCESS,
         Event.present 1 s'.m_swapchain 0 20 VK_SUCCESS]
      ∧ ∀ e ∈ mid, e.is_submit = false :=
  ⟨rfl, rfl, draw_frame_resized_trace (Driver.steady 2 3) State.resized 0 0
    (steady_reliable 2 3) rfl rfl (by decide) (by decide) (by decide) rfl⟩

/-! ## Claim C21: the uniform update of the frame that is submitted -/

/-- Claim C21: whenever a completed `draw_frame` call has logged a submission, the calls
of the frame end with the uniform update, the acquire and the submission (and the
present request, when the submission was accepted). No submission comes earlier, every
rebuild of the call comes before that uniform update, and the update is computed
from the swapchain extent held when the call ends, which nothing after the update
assigns. -/
theorem draw_frame_updates_uniforms_before_submit (d : Driver) (fuel : Nat) (s : State)
    (o : Outcome Unit) (h : draw_frame d fuel s = some o)
    (hsub : count Event.is_submit o.state ≠ count Event.is_submit s) :
    ∃ pre ra i cb r rest,
      o.state.since s = pre ++
        [Event.update_ubo o.state.m_swapchain_size,
         Event.acquire o.state.m_swapchain o.state.m_image_available_semaphore ra i,
         Event.submit o.state.m_queue cb o.state.m_image_available_semaphore
           VK_PIPELINE_STAGE_COLOR_ATTACHMENT_OUTPUT_BIT o.state.m_render_finished_semaphore r]
        ++ rest
      ∧ (∀ e ∈ pre, e.is_submit = false)
      ∧ (rest = [] ∨ ∃ p, rest = [Event.present o.state.m_present_queue o.state.m_swapchain i
            o.state.m_render_finished_semaphore p]) := by
  obtain ⟨pre, tail, t1, t2, t3⟩ := draw_frame_shape d fuel s o h
  have hpre : List.countP Event.is_submit pre = 0 := by
    rw [List.countP_eq_zero]
    intro e he
    simp [(t2 e he).1]
  have hc : List.countP Event.is_submit tail ≠ 0 := by
    intro h0
    apply hsub
    simp only [count, t1, List.countP_append, hpre, h0, Nat.add_zero]
  have hs : o.state.since s = pre ++ tail := by
    simp [State.since, t1, List.append_assoc]
  have hp : ∀ e ∈ pre, e.is_submit = false := fun e he => (t2 e he).1
  cases o with
  | done u s' =>
    simp only [Outcome.state, Outcome.failure] at t3 hs ⊢
    cases t3 with
    | presented ra i cb p hra hcb =>
      exact ⟨pre, ra, i, cb, VK_SUCCESS, _, by rw [hs]; simp [State.ubo_event, State.acquire_event,
        State.submit_event, State.present_event], hp, Or.inr ⟨p, rfl⟩⟩
  | abort a s' =>
    simp only [Outcome.state, Outcome.failure] at t3 hs ⊢
    cases t3 with
    | in_rebuild a => exact absurd rfl hc
    | acquire_failed ra i h1 h2 => exact absurd rfl hc
    | out_of_table ra i hra hcb => exact absurd rfl hc
    | submit_failed ra i cb r hra hcb hr =>
      exact ⟨pre, ra, i, cb, r, [], by rw [hs]; simp [State.ubo_event, State.acquire_event,
        State.submit_event], hp, Or.inl rfl⟩

/-- Claim C21 on a frame that rebuilds: the swapchain built by `setup_device`, the
resize flag set, a driver that never fails. The frame returns after one rebuild and
one submission, and its last calls are the uniform update, the acquire, the submission
and the present request. -/
theorem draw_frame_updates_uniforms_before_submit_witness :
    ∃ o, draw_frame (Driver.steady 2 3) 2 State.resized = some o
      ∧ count Event.is_rebuild o.state = count Event.is_rebuild State.resized + 1
      ∧ ∃ pre ra i cb r rest,
        o.state.since State.resized = pre ++
          [Event.update_ubo o.state.m_swapchain_size,
           Event.acquire o.state.m_swapchain o.state.m_image_available_semaphore ra i,
           Event.submit o.state.m_queue cb o.state.m_image_available_semaphore
             VK_PIPELINE_STAGE_COLOR_ATTACHMENT_OUTPUT_BIT
             o.state.m_render_finished_semaphore r]
          ++ rest
        ∧ (∀ e ∈ pre, e.is_submit = false)
        ∧ (rest = [] ∨ ∃ p, rest = [Event.present o.state.m_present_queue
              o.state.m_swapchain i o.state.m_render_finished_semaphore p]) := by
  obtain ⟨_, s', _, h, _, r, _, c, _⟩ := draw_frame_after_one_rebuild (Driver.steady 2 3)
    State.resized 0 0 (steady_reliable 2 3) (Or.inr rfl) rfl (by decide) (by decide)
    (by decide) rfl
  exact ⟨Outcome.done () s', h, r,
    draw_frame_updates_uniforms_before_submit (Driver.steady 2 3) 2 State.resized _ h
      (by simp only [Outcome.state]; omega)⟩

/-! ## Claim C25: `LayerSet::contains` -/

theorem LayerSet_contains_loop_iff (name : string_view) (min_version : Nat) :
    ∀ layers : List VkLayerProperties,
      LayerSet.contains_loop layers name min_version = true
        ↔ ∃ l ∈ layers, l.layerName = name.data ∧ min_version ≤ l.implementationVersion
  | [] => by simp [LayerSet.contains_loop]
  | props :: rest => by
    have ih := LayerSet_contains_loop_iff name min_version rest
    by_cases h1 : props.layerName = name.data
    · by_cases h2 : props.implementationVersion ≥ min_version
      · simp only [LayerSet.contains_loop, h1, h2, if_true, true_iff]
        exact ⟨props, List.mem_cons_self _ _, h1, h2⟩
      · rw [show LayerSet.contains_loop (props :: rest) name min_version
            = LayerSet.contains_loop rest name min_version by
          simp [LayerSet.contains_loop, h1, h2], ih]
        constructor
        · rintro ⟨l, hl, e⟩
          exact ⟨l, List.mem_cons_of_mem _ hl, e⟩
        · rintro ⟨l, hl, e1, e2⟩
          rcases List.mem_cons.mp hl with rfl | hl
          · exact absurd e2 h2
          · exact ⟨l, hl, e1, e2⟩
    · simp only [LayerSet.contains_loop, h1, if_false, ih, List.mem_cons, exists_eq_or_imp,
        false_and, false_or]

/-- What `LayerSet::contains` decides: whether some layer of the set has the C string
at `name.data()` as its `layerName` and an `implementationVersion` of at least
`min_version`. For a view that ends where that C string ends, this is the name the
view holds; a layer of the name with a lower version does not end the search. -/
theorem LayerSet_contains_iff (s : LayerSet) (name : string_view) (min_version : Nat) :
    (s.contains name min_version = true
      ↔ ∃ l ∈ s.m_layers, l.layerName = name.data ∧ l.implementationVersion ≥ min_version)
    ∧ (name.data = name.chars →
        (s.contains name min_version = true
          ↔ ∃ l ∈ s.m_layers, l.layerName = name.chars
              ∧ l.implementationVersion ≥ min_version)) := by
  have h := LayerSet_contains_loop_iff name min_version s.m_layers
  refine ⟨h, fun e => ?_⟩
  rw [← e]
  exact h

/-- C25, evaluated at the failing input: the name is `std::string_view("LAYER_extra", 5)`,
the five characters "LAYER". Against the set that holds the layer "LAYER" with
version 1 the answer for the minimum version 0 is `false`, although that layer has
the name and the version asked for; against the set that holds only the layer
"LAYER_extra" the answer is `true`, although no layer of it is named "LAYER". The
comparison reads `name.data()` up to the next NUL and ignores the length of the view. -/
theorem LayerSet_contains_ignores_view_length :
    layer_prefix.chars = "LAYER"
    ∧ layer_prefix.data = "LAYER_extra"
    ∧ (∃ l ∈ [layer "LAYER" 1], l.layerName = layer_prefix.chars ∧ l.implementationVersion ≥ 0)
    ∧ LayerSet.contains { m_layers := [layer "LAYER" 1] } layer_prefix 0 = false
    ∧ (¬ ∃ l ∈ [layer "LAYER_extra" 1], l.layerName = layer_prefix.chars)
    ∧ LayerSet.contains { m_layers := [layer "LAYER_extra" 1] } layer_prefix 0 = true := by
  refine ⟨by decide, by decide, ⟨layer "LAYER" 1, by simp, by decide, by decide⟩, by decide,
    ?_, by decide⟩
  rintro ⟨l, hl, e⟩
  rw [List.mem_singleton] at hl
  subst hl
  revert e
  decide
/-! ## Claim C1: the index handed out after the rebuild -/

/-- An activation that rebuilds, followed by an activation whose acquire succeeds with
an index at or beyond the length of the rebuilt table: the call reads the table out
of bounds, after one rebuild and two acquires, without any submission or present
request. -/
theorem draw_frame_retry_out_of_table (d : Driver) (s : State) (fuel i : Nat)
    (hd : d.reliable)
    (hr : (d.acquire (count Event.is_acquire s)).1 = VK_ERROR_OUT_OF_DATE_KHR
      ∨ s.m_was_resized = true)
    (h2 : d.acquire (count Event.is_acquire s + 1) = (VK_SUCCESS, i))
    (hN : min_image_count (d.surface_capabilities (count Event.is_caps s))
      ≤ d.swapchain_images (count Event.is_images s))
    (hS : min_image_count (d.surface_capabilities (count Event.is_caps s))
      ≤ s.m_descriptor_sets.length)
    (hi : min_image_count (d.surface_capabilities (count Event.is_caps s)) ≤ i) :
    ∃ s', draw_frame d (fuel + 2) s = some (Outcome.abort
        (Abort.out_of_bounds Vec.m_command_buffers i
          (min_image_count (d.surface_capabilities (count Event.is_caps s)))) s')
      ∧ count Event.is_rebuild s' = count Event.is_rebuild s + 1
      ∧ count Event.is_acquire s' = count Event.is_acquire s + 2
      ∧ count Event.is_submit s' = count Event.is_submit s
      ∧ count Event.is_present s' = count Event.is_present s := by
  obtain ⟨s1, e1, f1, c1, c2, c3, c4, _, hlen⟩ := draw_frame_once_retry d s hd hr hN hS
  obtain ⟨a1, a2, a3, a4, _, _⟩ := after_acquire_counts d s1
  have hA : d.acquire (count Event.is_acquire s1) = (VK_SUCCESS, i) := by rw [c1, h2]
  have hne : ¬ ((d.acquire (count Event.is_acquire s1)).1 = VK_ERROR_OUT_OF_DATE_KHR
      ∨ s1.m_was_resized = true) := by
    rw [hA, f1]; simp [VK_SUCCESS, VK_ERROR_OUT_OF_DATE_KHR]
  have hne2 : ¬ ((d.acquire (count Event.is_acquire s1)).1 ≠ VK_SUCCESS
      ∧ (d.acquire (count Event.is_acquire s1)).1 ≠ VK_SUBOPTIMAL_KHR) := by
    rw [hA]; simp
  have hnone : s1.m_command_buffers[(d.acquire (count Event.is_acquire s1)).2]? = none := by
    rw [hA, List.getElem?_eq_none_iff, hlen]
    exact hi
  have e2 := draw_frame_once_eq d s1
  rw [if_neg hne, if_neg hne2, hnone] at e2
  simp only [hA, hlen] at e2
  refine ⟨after_acquire d s1, ?_, ?_, ?_, ?_, ?_⟩
  · simp only [draw_frame, e1, e2]
  · rw [a4, c2]
  · rw [a1, c1]
  · rw [a2, c3]
  · rw [a3, c4]

/-- C1, evaluated at the failing input: the swapchain built by `setup_device` against a
driver that makes four images for the three requested, the resize flag clear, a first
acquire that reports out-of-date and a second acquire that succeeds with the index 3
of the fourth image. The call rebuilds once and acquires twice, but then reads
`m_command_buffers[3]` in a table of three entries; it makes no submission and no
present request. -/
theorem draw_frame_retry_indexes_outside_table :
    setup_device (Driver.steady 2 4) State.boot = Outcome.done () State.wide
    ∧ State.wide.m_was_resized = false
    ∧ Driver.out_of_date_then_last_image.acquire 0 = (VK_ERROR_OUT_OF_DATE_KHR, 0)
    ∧ Driver.out_of_date_then_last_image.acquire 1 = (VK_SUCCESS, 3)
    ∧ Driver.out_of_date_then_last_image.swapchain_images 1 = 4
    ∧ (draw_frame Driver.out_of_date_then_last_image 2 State.wide).map
        (fun o => (o.failure, count Event.is_rebuild o.state, count Event.is_acquire o.state,
          count Event.is_submit o.state, count Event.is_present o.state))
      = some (some (Abort.out_of_bounds Vec.m_command_buffers 3 3), 1, 2, 0, 0) := by
  refine ⟨setup_device_wide, rfl, rfl, rfl, rfl, ?_⟩
  have hd : Driver.out_of_date_then_last_image.reliable :=
    ⟨fun _ _ => rfl, fun _ => rfl, fun _ => rfl⟩
  obtain ⟨s', h, r, a, u, p⟩ := draw_frame_retry_out_of_table
    Driver.out_of_date_then_last_image State.wide 0 3 hd (Or.inl (by decide)) (by decide)
    (by decide) (by decide) (by decide)
  have r0 : count Event.is_rebuild State.wide = 0 := by decide
  have a0 : count Event.is_acquire State.wide = 0 := by decide
  have u0 : count Event.is_submit State.wide = 0 := by decide
  have p0 : count Event.is_present State.wide = 0 := by decide
  rw [r0] at r
  rw [a0] at a
  rw [u0] at u
  rw [p0] at p
  rw [h]
  simp only [Option.map, Outcome.failure, Outcome.state, r, a, u, p]
  rfl

/-! ## Claim C2: an engine that reports out-of-date forever -/

/-- With the resize flag clear, against an engine all of whose acquires report
out-of-date and a driver whose rebuilds succeed, no depth of calls is enough for
`draw_frame` to return. -/
theorem draw_frame_out_of_date_forever (d : Driver) (hd : d.reliable)
    (hN : ∀ a b, min_image_count (d.surface_capabilities a) ≤ d.swapchain_images b)
    (hood : ∀ n, (d.acquire n).1 = VK_ERROR_OUT_OF_DATE_KHR) :
    ∀ (fuel : Nat) (s : State),
      (∀ a, min_image_count (d.surface_capabilities a) ≤ s.m_descriptor_sets.length) →
      draw_frame d fuel s = none := by
  intro fuel
  induction fuel with
  | zero => intro s _; rfl
  | succ n ih =>
    intro s hS
    obtain ⟨s1, e1, _, _, _, _, _, hsets, _⟩ :=
      draw_frame_once_retry d s hd (Or.inl (hood _)) (hN _ _) (hS _)
    rw [draw_frame, e1]
    exact ih s1 (fun a => by rw [hsets]; exact hS a)

/-- C2, amended: the retry is bounded only by the presentation engine. Against a driver
that never fails a creation or a recording, makes at least the requested number of
images and never asks for more images than there are descriptor sets, and with
the resize flag clear: if the first `k` acquires of a call report out-of-date and
the next one does not, `draw_frame` ends after exactly `k` rebuilds and `k + 1`
acquires; if every acquire reports out-of-date, no depth of calls is enough for
it to return. -/
theorem draw_frame_rebuilds_per_out_of_date (d : Driver) (hd : d.reliable)
    (hN : ∀ a b, min_image_count (d.surface_capabilities a) ≤ d.swapchain_images b)
    (s : State)
    (hS : ∀ a, min_image_count (d.surface_capabilities a) ≤ s.m_descriptor_sets.length)
    (hflag : s.m_was_resized = false) :
    (∀ k, (∀ j, j < k →
          (d.acquire (count Event.is_acquire s + j)).1 = VK_ERROR_OUT_OF_DATE_KHR) →
        (d.acquire (count Event.is_acquire s + k)).1 ≠ VK_ERROR_OUT_OF_DATE_KHR →
        ∃ o, draw_frame d (k + 1) s = some o
          ∧ count Event.is_rebuild o.state = count Event.is_rebuild s + k
          ∧ count Event.is_acquire o.state = count Event.is_acquire s + k + 1)
    ∧ ((∀ n, (d.acquire n).1 = VK_ERROR_OUT_OF_DATE_KHR) →
        ∀ fuel, draw_frame d fuel s = none) :=
  ⟨fun k hood hlast => draw_frame_retries d hd hN k s hS hflag hood hlast,
    fun hood fuel => draw_frame_out_of_date_forever d hd hN hood fuel s hS⟩

/-- C2, amended, on the swapchain built by `setup_device`: two out-of-date results and
then a success give two rebuilds and three acquires; an engine that always reports
out-of-date gives no result at any depth. -/
theorem draw_frame_rebuilds_per_out_of_date_witness :
    State.ready.m_was_resized = false
    ∧ (∃ o, draw_frame Driver.out_of_date_twice (2 + 1) State.ready = some o
      ∧ count Event.is_rebuild o.state = count Event.is_rebuild State.ready + 2
      ∧ count Event.is_acquire o.state = count Event.is_acquire State.ready + 2 + 1)
    ∧ ∀ fuel, draw_frame Driver.out_of_date_forever fuel State.ready = none :=
  ⟨by decide,
    (draw_frame_rebuilds_per_out_of_date Driver.out_of_date_twice
      ⟨fun _ _ => rfl, fun _ => rfl, fun _ => rfl⟩ (fun _ _ => Nat.le_refl 3) State.ready
      (fun _ => Nat.le_refl 3) (by decide)).1 2 (by decide) (by decide),
    (draw_frame_rebuilds_per_out_of_date Driver.out_of_date_forever
      ⟨fun _ _ => rfl, fun _ => rfl, fun _ => rfl⟩ (fun _ _ => Nat.le_refl 3) State.ready
      (fun _ => Nat.le_refl 3) (by decide)).2 (fun _ => rfl)⟩
/-! ## Claim C9: a refused submission -/

/-- An activation that ends with `draw_frame(); return;` has cleared the resize flag
and has logged no submission and no present request. -/
theorem draw_frame_once_restart (d : Driver) (s s1 : State)
    (h : draw_frame_once d s = Outcome.done true s1) :
    s1.m_was_resized = false
    ∧ ∃ pre, s1.trace = s.trace ++ pre
        ∧ ∀ e ∈ pre, e.is_submit = false ∧ e.is_present = false := by
  rw [draw_frame_once_eq] at h
  by_cases hr : (d.acquire (count Event.is_acquire s)).1 = VK_ERROR_OUT_OF_DATE_KHR
      ∨ s.m_was_resized = true
  · rw [if_pos hr] at h
    obtain ⟨evs, h1, h2⟩ := rebuild_swapchain_trace d (after_acquire d s)
    cases hrb : rebuild_swapchain d (after_acquire d s) with
    | abort a s3 => rw [hrb] at h; cases h
    | done u s3 =>
      rw [hrb] at h h1
      simp only [Outcome.state] at h1
      injection h with _ hs
      subst hs
      refine ⟨rfl, [Event.update_ubo s.m_swapchain_size,
          Event.acquire s.m_swapchain s.m_image_available_semaphore
            (d.acquire (count Event.is_acquire s)).1 (d.acquire (count Event.is_acquire s)).2]
          ++ Event.rebuild_swapchain :: evs, ?_, ?_⟩
      · show s3.trace = _
        rw [h1]
        simp [after_acquire]
      · intro e he
        simp only [List.mem_append, List.mem_cons, List.mem_singleton, List.not_mem_nil,
          or_false] at he
        rcases he with (he | he) | he | he
        · subst he; exact ⟨rfl, rfl⟩
        · subst he; exact ⟨rfl, rfl⟩
        · subst he; exact ⟨rfl, rfl⟩
        · exact ⟨(quiet_not_queue e (h2 e he)).1, (quiet_not_queue e (h2 e he)).2.1⟩
  · rw [if_neg hr] at h
    by_cases h2 : (d.acquire (count Event.is_acquire s)).1 ≠ VK_SUCCESS
        ∧ (d.acquire (count Event.is_acquire s)).1 ≠ VK_SUBOPTIMAL_KHR
    · rw [if_pos h2] at h; cases h
    · rw [if_neg h2] at h
      cases hcb : s.m_command_buffers[(d.acquire (count Event.is_acquire s)).2]? with
      | none => rw [hcb] at h; cases h
      | some cb =>
        rw [hcb] at h
        dsimp only at h
        by_cases h3 : d.submit (count Event.is_submit s) ≠ VK_SUCCESS
        · rw [if_pos h3] at h; cases h
        · rw [if_neg h3] at h
          injection h with hb _
          cases hb

/-- After `k` restarts the call goes on as a call from the state reached. -/
theorem draw_frame_of_restarts (d : Driver) : ∀ (k : Nat) (s t : State),
    draw_frame_restarts d k s = some t →
    ∀ fuel, draw_frame d (fuel + k) s = draw_frame d fuel t := by
  intro k
  induction k with
  | zero =>
    intro s t h fuel
    simp only [draw_frame_restarts, Option.some.injEq] at h
    rw [h]
    rfl
  | succ n ih =>
    intro s t h fuel
    rw [draw_frame_restarts] at h
    show draw_frame d (fuel + n + 1) s = _
    rw [draw_frame]
    cases hone : draw_frame_once d s with
    | abort a s1 => rw [hone] at h; cases h
    | done b s1 =>
      rw [hone] at h
      cases b with
      | false => cases h
      | true => exact ih s1 t h fuel

/-- The state reached by restarts extends the trace by calls that are neither
submissions nor present requests, and after at least one restart the resize flag is
clear. -/
theorem draw_frame_restarts_trace (d : Driver) : ∀ (k : Nat) (s t : State),
    draw_frame_restarts d k s = some t →
    (0 < k → t.m_was_resized = false)
    ∧ ∃ pre, t.trace = s.trace ++ pre
        ∧ ∀ e ∈ pre, e.is_submit = false ∧ e.is_present = false := by
  intro k
  induction k with
  | zero =>
    intro s t h
    simp only [draw_frame_restarts, Option.some.injEq] at h
    subst h
    exact ⟨fun h0 => absurd h0 (Nat.lt_irrefl 0), [], by simp, by simp⟩
  | succ n ih =>
    intro s t h
    rw [draw_frame_restarts] at h
    cases hone : draw_frame_once d s with
    | abort a s1 => rw [hone] at h; cases h
    | done b s1 =>
      rw [hone] at h
      cases b with
      | false => cases h
      | true =>
        obtain ⟨f1, pre1, t1, q1⟩ := draw_frame_once_restart d s s1 hone
        obtain ⟨f2, pre2, t2, q2⟩ := ih s1 t h
        refine ⟨fun _ => ?_, pre1 ++ pre2, by rw [t2, t1, List.append_assoc], ?_⟩
        · cases n with
          | zero =>
            simp only [draw_frame_restarts, Option.some.injEq] at h
            rw [← h]; exact f1
          | succ m => exact f2 (Nat.succ_pos m)
        · intro e he
          rcases List.mem_append.mp he with he | he
          · exact q1 e he
          · exact q2 e he

/-- An activation that ends the call and has logged a submission with a result other
than success: it was entered with the resize flag clear, its acquire was successful
or suboptimal with an index that has a command buffer in the table, and the driver
refused the submission. -/
theorem draw_frame_once_refused (d : Driver) (s : State)
    (hend : ∀ s1, draw_frame_once d s ≠ Outcome.done true s1)
    (e : Event) (he : e ∈ (draw_frame_once d s).state.since s) (r : VkResult)
    (hres : e.submit_result = some r) (hr : r ≠ VK_SUCCESS) :
    s.m_was_resized = false
    ∧ ((d.acquire (count Event.is_acquire s)).1 = VK_SUCCESS
        ∨ (d.acquire (count Event.is_acquire s)).1 = VK_SUBOPTIMAL_KHR)
    ∧ (∃ cb, s.m_command_buffers[(d.acquire (count Event.is_acquire s)).2]? = some cb)
    ∧ d.submit (count Event.is_submit s) ≠ VK_SUCCESS := by
  have hsub : e.is_submit = true := by
    cases e <;> first | rfl | simp [Event.submit_result] at hres
  rw [draw_frame_once_eq] at hend he
  by_cases hr1 : (d.acquire (count Event.is_acquire s)).1 = VK_ERROR_OUT_OF_DATE_KHR
      ∨ s.m_was_resized = true
  · exfalso
    rw [if_pos hr1] at hend he
    obtain ⟨evs, h1, h2⟩ := rebuild_swapchain_trace d (after_acquire d s)
    cases hrb : rebuild_swapchain d (after_acquire d s) with
    | done u s3 => rw [hrb] at hend; exact hend _ rfl
    | abort a s3 =>
      rw [hrb] at he h1
      simp only [Outcome.state] at he h1
      simp only [State.since, h1, after_acquire, List.append_assoc, List.drop_left,
        List.mem_append, List.mem_cons, List.mem_singleton, List.not_mem_nil, or_false,
        List.cons_append, List.nil_append] at he
      rcases he with he | he | he | he
      · subst he; cases hsub
      · subst he; cases hsub
      · subst he; cases hsub
      · have := (quiet_not_queue e (h2 e he)).1
        rw [hsub] at this; cases this
  · rw [if_neg hr1] at he
    have hflag : s.m_was_resized = false := by
      cases hf : s.m_was_resized with
      | false => rfl
      | true => exact absurd (Or.inr hf) hr1
    by_cases h2 : (d.acquire (count Event.is_acquire s)).1 ≠ VK_SUCCESS
        ∧ (d.acquire (count Event.is_acquire s)).1 ≠ VK_SUBOPTIMAL_KHR
    · exfalso
      rw [if_pos h2] at he
      simp only [Outcome.state, State.since, after_acquire, List.drop_left,
        List.mem_cons, List.mem_singleton, List.not_mem_nil, or_false] at he
      rcases he with he | he <;> subst he <;> cases hsub
    · rw [if_neg h2] at he
      have hok : (d.acquire (count Event.is_acquire s)).1 = VK_SUCCESS
          ∨ (d.acquire (count Event.is_acquire s)).1 = VK_SUBOPTIMAL_KHR := by
        by_cases h3 : (d.acquire (count Event.is_acquire s)).1 = VK_SUCCESS
        · exact Or.inl h3
        · right
          by_contra h4
          exact h2 ⟨h3, h4⟩
      cases hcb : s.m_command_buffers[(d.acquire (count Event.is_acquire s)).2]? with
      | none =>
        exfalso
        rw [hcb] at he
        simp only [Outcome.state, State.since, after_acquire, List.drop_left,
          List.mem_cons, List.mem_singleton, List.not_mem_nil, or_false] at he
        rcases he with he | he <;> subst he <;> cases hsub
      | some cb =>
        rw [hcb] at he
        dsimp only at he
        by_cases h3 : d.submit (count Event.is_submit s) ≠ VK_SUCCESS
        · exact ⟨hflag, hok, ⟨cb, rfl⟩, h3⟩
        · exfalso
          rw [if_neg h3] at he
          have h3' : d.submit (count Event.is_submit s) = VK_SUCCESS := by
            by_contra hh; exact h3 hh
          simp only [Outcome.state, State.since, after_acquire, List.append_assoc,
            List.drop_left, List.mem_append, List.mem_cons, List.mem_singleton,
            List.not_mem_nil, or_false, List.cons_append, List.nil_append] at he
          rcases he with he | he | he | he
          · subst he; cases hsub
          · subst he; cases hsub
          · subst he
            simp only [Event.submit_result, Option.some.injEq] at hres
            exact hr (hres.symm.trans h3')
          · subst he; cases hsub

/-- Every `draw_frame` call that ends having logged a submission with a result other
than success is a call of the kind claim C9 is proved for: some number `k` of
restarts, then an activation entered with the resize flag clear whose acquire is
successful or suboptimal with an index that has a command buffer in the table and
whose submission the driver refuses. -/
theorem draw_frame_refused_submission_restarts (d : Driver) :
    ∀ (fuel : Nat) (s : State) (o : Outcome Unit), draw_frame d fuel s = some o →
    ∀ (e : Event), e ∈ o.state.since s → ∀ (r : VkResult), e.submit_result = some r →
    r ≠ VK_SUCCESS →
    ∃ k t cb, k < fuel ∧ draw_frame_restarts d k s = some t
      ∧ (k = 0 → s.m_was_resized = false)
      ∧ ((d.acquire (count Event.is_acquire t)).1 = VK_SUCCESS
          ∨ (d.acquire (count Event.is_acquire t)).1 = VK_SUBOPTIMAL_KHR)
      ∧ t.m_command_buffers[(d.acquire (count Event.is_acquire t)).2]? = some cb
      ∧ d.submit (count Event.is_submit t) ≠ VK_SUCCESS := by
  intro fuel
  induction fuel with
  | zero => intro s o h; cases h
  | succ n ih =>
    intro s o h e he r hres hr
    have hsub : e.is_submit = true := by
      cases e <;> first | rfl | simp [Event.submit_result] at hres
    have last : (∀ s1, draw_frame_once d s ≠ Outcome.done true s1) →
        o.state = (draw_frame_once d s).state →
        ∃ k t cb, k < n + 1 ∧ draw_frame_restarts d k s = some t
          ∧ (k = 0 → s.m_was_resized = false)
          ∧ ((d.acquire (count Event.is_acquire t)).1 = VK_SUCCESS
              ∨ (d.acquire (count Event.is_acquire t)).1 = VK_SUBOPTIMAL_KHR)
          ∧ t.m_command_buffers[(d.acquire (count Event.is_acquire t)).2]? = some cb
          ∧ d.submit (count Event.is_submit t) ≠ VK_SUCCESS := by
      intro hend hst
      rw [hst] at he
      obtain ⟨f, a, ⟨cb, hcb⟩, u⟩ := draw_frame_once_refused d s hend e he r hres hr
      exact ⟨0, s, cb, Nat.succ_pos n, rfl, fun _ => f, a, hcb, u⟩
    rw [draw_frame] at h
    cases hone : draw_frame_once d s with
    | abort a s1 =>
      rw [hone] at h
      simp only [Option.some.injEq] at h
      subst h
      exact last (fun s2 hh => by rw [hone] at hh; cases hh) (by rw [hone]; rfl)
    | done b s1 =>
      rw [hone] at h
      cases b with
      | false =>
        simp only [Option.some.injEq] at h
        subst h
        exact last (fun s2 hh => by rw [hone] at hh; cases hh) (by rw [hone]; rfl)
      | true =>
        simp only at h
        obtain ⟨_, pre1, t1, q1⟩ := draw_frame_once_restart d s s1 hone
        obtain ⟨pre, tail, t2, _, _⟩ := draw_frame_shape d n s1 o h
        have hs1 : o.state.since s1 = pre ++ tail := by
          simp [State.since, t2, List.append_assoc]
        have hs : o.state.since s = pre1 ++ (pre ++ tail) := by
          simp [State.since, t2, t1, List.append_assoc]
        have he1 : e ∈ o.state.since s1 := by
          rw [hs1]
          rw [hs] at he
          rcases List.mem_append.mp he with he | he
          · have := (q1 e he).1
            rw [hsub] at this; cases this
          · exact he
        obtain ⟨k, t, cb, hk, hrs, _, a, hcb, u⟩ := ih s1 o h e he1 r hres hr
        refine ⟨k + 1, t, cb, Nat.succ_lt_succ hk, ?_, fun h0 => absurd h0 (Nat.succ_ne_zero k),
          a, hcb, u⟩
        simp only [draw_frame_restarts, hone]
        exact hrs

/-- C9: whatever number `k` of restarts precedes it, when the activation that is not
restarted (resize flag clear on entry if it is the first) gets a successful or
suboptimal acquire of an index `i` that has a command buffer in the table and the
submission reports a result other than success, `draw_frame` ends with the submit
error at depth `k + 1`; the submission is the last call it logs and no present
request is made in the whole call. -/
theorem draw_frame_submit_failure_is_fatal (d : Driver) (s t : State) (k fuel : Nat)
    (ra : VkResult) (i : Nat) (cb : Handle)
    (hk : draw_frame_restarts d k s = some t)
    (hflag : k = 0 → s.m_was_resized = false)
    (hacq : d.acquire (count Event.is_acquire t) = (ra, i))
    (hra : ra = VK_SUCCESS ∨ ra = VK_SUBOPTIMAL_KHR)
    (hcb : t.m_command_buffers[i]? = some cb)
    (hr : d.submit (count Event.is_submit t) ≠ VK_SUCCESS) :
    draw_frame d (fuel + k + 1) s = some (Outcome.abort (Abort.exception Exn.SubmitFailed)
        (t.log [t.ubo_event, t.acquire_event ra i,
          t.submit_event cb (d.submit (count Event.is_submit t))]))
    ∧ ∀ e ∈ (t.log [t.ubo_event, t.acquire_event ra i,
          t.submit_event cb (d.submit (count Event.is_submit t))]).since s,
        e.is_present = false := by
  obtain ⟨f, pre, t1, q⟩ := draw_frame_restarts_trace d k s t hk
  have hf : t.m_was_resized = false := by
    cases k with
    | zero =>
      simp only [draw_frame_restarts, Option.some.injEq] at hk
      rw [← hk]; exact hflag rfl
    | succ n => exact f (Nat.succ_pos n)
  have hr' : (d.acquire (count Event.is_acquire t)).1 = VK_SUCCESS
      ∨ (d.acquire (count Event.is_acquire t)).1 = VK_SUBOPTIMAL_KHR := by
    rw [hacq]; exact hra
  have hcb' : t.m_command_buffers[(d.acquire (count Event.is_acquire t)).2]? = some cb := by
    rw [hacq]; exact hcb
  refine ⟨?_, ?_⟩
  · rw [show fuel + k + 1 = (fuel + 1) + k by omega, draw_frame_of_restarts d k s t hk,
      draw_frame_no_rebuild d t fuel cb hf hr' hcb', if_pos hr, hacq]
    rfl
  · intro e he
    simp only [State.since, State.log, t1, List.append_assoc, List.drop_left,
      List.mem_append, List.mem_cons, List.mem_singleton, List.not_mem_nil, or_false] at he
    rcases he with he | he | he | he
    · exact (q e he).2
    · subst he; rfl
    · subst he; rfl
    · subst he; rfl

/-- C9 on the swapchain built by `setup_device`, against a queue that refuses every
submission: with the resize flag clear the call ends with the submit error after its
first acquire, and with the resize flag set it does so after one restart. -/
theorem draw_frame_submit_failure_is_fatal_witness :
    (draw_frame Driver.submit_refused 1 State.ready
        = some (Outcome.abort (Abort.exception Exn.SubmitFailed)
            (State.ready.log [State.ready.ubo_event, State.ready.acquire_event VK_SUCCESS 0,
              State.ready.submit_event 25 VK_ERROR_DEVICE_LOST]))
      ∧ ∀ e ∈ (State.ready.log [State.ready.ubo_event, State.ready.acquire_event VK_SUCCESS 0,
              State.ready.submit_event 25 VK_ERROR_DEVICE_LOST]).since State.ready,
          e.is_present = false)
    ∧ ∃ t cb, draw_frame_restarts Driver.submit_refused 1 State.resized = some t
      ∧ draw_frame Driver.submit_refused 2 State.resized
        = some (Outcome.abort (Abort.exception Exn.SubmitFailed)
            (t.log [t.ubo_event, t.acquire_event VK_SUCCESS 0,
              t.submit_event cb VK_ERROR_DEVICE_LOST]))
      ∧ ∀ e ∈ (t.log [t.ubo_event, t.acquire_event VK_SUCCESS 0,
              t.submit_event cb VK_ERROR_DEVICE_LOST]).since State.resized,
          e.is_present = false := by
  have hd : Driver.submit_refused.reliable := ⟨fun _ _ => rfl, fun _ => rfl, fun _ => rfl⟩
  refine ⟨draw_frame_submit_failure_is_fatal Driver.submit_refused State.ready State.ready 0 0
    VK_SUCCESS 0 25 rfl (fun _ => rfl) rfl (Or.inl rfl) rfl (by decide), ?_⟩
  obtain ⟨s1, e1, _, _, _, _, _, _, hlen⟩ := draw_frame_once_retry Driver.submit_refused
    State.resized hd (Or.inr rfl) (by decide) (by decide)
  have h0 : 0 < s1.m_command_buffers.length := by rw [hlen]; decide
  have hk : draw_frame_restarts Driver.submit_refused 1 State.resized = some s1 := by
    simp only [draw_frame_restarts, e1]
  exact ⟨s1, s1.m_command_buffers[0], hk,
    draw_frame_submit_failure_is_fatal Driver.submit_refused State.resized s1 1 0
      VK_SUCCESS 0 s1.m_command_buffers[0] hk (fun h => absurd h (by decide)) rfl (Or.inl rfl)
      (List.getElem?_eq_getElem h0) (by show VK_ERROR_DEVICE_LOST ≠ VK_SUCCESS; decide)⟩
/-! ## Claims C10, C12, C20: frames entered with the resize flag set -/

/-- C10, refuted as stated: on the swapchain built by `setup_device`, with the resize
flag set, both acquires and the submission succeed and the present request reports
suboptimal. The call returns without error, but it has performed a rebuild in that
frame. -/
theorem draw_frame_resized_rebuilds_before_present :
    State.resized.m_was_resized = true
    ∧ Driver.present_suboptimal.acquire 0 = (VK_SUCCESS, 0)
    ∧ Driver.present_suboptimal.acquire 1 = (VK_SUCCESS, 0)
    ∧ Driver.present_suboptimal.submit 0 = VK_SUCCESS
    ∧ ∃ pre s' cb, draw_frame Driver.present_suboptimal 2 State.resized
          = some (Outcome.done () s')
      ∧ count Event.is_rebuild s' = count Event.is_rebuild State.resized + 1
      ∧ s'.trace = pre ++
          [Event.update_ubo s'.m_swapchain_size,
           Event.acquire s'.m_swapchain s'.m_image_available_semaphore VK_SUCCESS 0,
           Event.submit s'.m_queue cb s'.m_image_available_semaphore
             VK_PIPELINE_STAGE_COLOR_ATTACHMENT_OUTPUT_BIT s'.m_render_finished_semaphore
             VK_SUCCESS,
           Event.present s'.m_present_queue s'.m_swapchain 0 s'.m_render_finished_semaphore
             VK_SUBOPTIMAL_KHR] := by
  refine ⟨rfl, rfl, rfl, rfl, ?_⟩
  obtain ⟨pre, s', cb, h, _, r, _, _, _, _, t⟩ := draw_frame_after_one_rebuild
    Driver.present_suboptimal State.resized 0 0 ⟨fun _ _ => rfl, fun _ => rfl, fun _ => rfl⟩
    (Or.inr rfl) rfl (by decide) (by decide) (by decide) rfl
  exact ⟨pre, s', cb, h, r, t⟩

/-- C20, refuted as stated: on the swapchain built by `setup_device`, with the resize
flag set, the first acquire succeeds with index 1. The call rebuilds instead of
submitting; its only submission and its only present request follow the second
acquire and are for the index 0 that this acquire returned. -/
theorem draw_frame_resized_drops_acquired_index :
    State.resized.m_was_resized = true
    ∧ ∃ s' rest pre cb, draw_frame Driver.index_changes 2 State.resized
          = some (Outcome.done () s')
      ∧ s'.since State.resized
        = [Event.update_ubo { width := 800, height := 600 },
           Event.acquire 2 19 VK_SUCCESS 1,
           Event.rebuild_swapchain, Event.device_wait_idle] ++ rest
      ∧ count Event.is_submit s' = count Event.is_submit State.resized + 1
      ∧ count Event.is_present s' = count Event.is_present State.resized + 1
      ∧ s'.m_command_buffers[0]? = some cb
      ∧ s'.trace = pre ++
          [Event.update_ubo s'.m_swapchain_size,
           Event.acquire s'.m_swapchain s'.m_image_available_semaphore VK_SUCCESS 0,
           Event.submit s'.m_queue cb s'.m_image_available_semaphore
             VK_PIPELINE_STAGE_COLOR_ATTACHMENT_OUTPUT_BIT s'.m_render_finished_semaphore
             VK_SUCCESS,
           Event.present s'.m_present_queue s'.m_swapchain 0 s'.m_render_finished_semaphore
             VK_SUCCESS] := by
  refine ⟨rfl, ?_⟩
  obtain ⟨pre, s', cb, h, _, _, _, u, p, hcb, t⟩ := draw_frame_after_one_rebuild
    Driver.index_changes State.resized 0 0 ⟨fun _ _ => rfl, fun _ => rfl, fun _ => rfl⟩
    (Or.inr rfl) rfl (by decide) (by decide) (by decide) rfl
  obtain ⟨rest, hrest⟩ := draw_frame_flag_trace Driver.index_changes State.resized 2 _ rfl h
  exact ⟨s', rest, pre, cb, h, hrest, u, p, hcb, t⟩

/-- C20, amended: with the resize flag clear, after an acquire that succeeds (or is
suboptimal) with an index `i` that has a command buffer in the table, `draw_frame`
makes exactly one submission, to `m_queue`, of the table entry `i`, waiting on
`m_image_available_semaphore` at the color-attachment-output stage and signalling
`m_render_finished_semaphore`. When the submission is accepted, the next and last
call is the present request on `m_present_queue` for index `i` of `m_swapchain`,
waiting on `m_render_finished_semaphore`, and the call returns; when it is refused,
the submission is the last call and the call throws the submit error. -/
theorem draw_frame_submission_and_present (d : Driver) (fuel : Nat) (s : State)
    (ra : VkResult) (i : Nat) (cb : Handle) (hflag : s.m_was_resized = false)
    (hacq : d.acquire (count Event.is_acquire s) = (ra, i))
    (hr : ra = VK_SUCCESS ∨ ra = VK_SUBOPTIMAL_KHR)
    (hcb : s.m_command_buffers[i]? = some cb) :
    ∃ o, draw_frame d (fuel + 1) s = some o
      ∧ count Event.is_submit o.state = count Event.is_submit s + 1
      ∧ (d.submit (count Event.is_submit s) = VK_SUCCESS →
          o.failure = none
          ∧ o.state.since s =
            [Event.update_ubo s.m_swapchain_size,
             Event.acquire s.m_swapchain s.m_image_available_semaphore ra i,
             Event.submit s.m_queue cb s.m_image_available_semaphore
               VK_PIPELINE_STAGE_COLOR_ATTACHMENT_OUTPUT_BIT s.m_render_finished_semaphore
               VK_SUCCESS,
             Event.present s.m_present_queue s.m_swapchain i s.m_render_finished_semaphore
               (d.present (count Event.is_present s))])
      ∧ (d.submit (count Event.is_submit s) ≠ VK_SUCCESS →
          o.failure = some (Abort.exception Exn.SubmitFailed)
          ∧ o.state.since s =
            [Event.update_ubo s.m_swapchain_size,
             Event.acquire s.m_swapchain s.m_image_available_semaphore ra i,
             Event.submit s.m_queue cb s.m_image_available_semaphore
               VK_PIPELINE_STAGE_COLOR_ATTACHMENT_OUTPUT_BIT s.m_render_finished_semaphore
               (d.submit (count Event.is_submit s))]) := by
  have hcb' : s.m_command_buffers[(d.acquire (count Event.is_acquire s)).2]? = some cb := by
    rw [hacq]; exact hcb
  have hr' : (d.acquire (count Event.is_acquire s)).1 = VK_SUCCESS
      ∨ (d.acquire (count Event.is_acquire s)).1 = VK_SUBOPTIMAL_KHR := by
    rw [hacq]; exact hr
  have h := draw_frame_no_rebuild d s fuel cb hflag hr' hcb'
  by_cases h3 : d.submit (count Event.is_submit s) ≠ VK_SUCCESS
  · rw [if_pos h3, hacq] at h
    refine ⟨_, h, ?_, fun h4 => absurd h4 h3, fun _ => ⟨rfl, ?_⟩⟩
    · simp [Outcome.state, count, List.countP_append, List.countP_cons, Event.is_submit,
        State.ubo_event, State.acquire_event, State.submit_event]
    · simp [Outcome.state, State.since, State.ubo_event, State.acquire_event,
        State.submit_event]
  · rw [if_neg h3, hacq] at h
    have h3' : d.submit (count Event.is_submit s) = VK_SUCCESS := by
      by_contra hh; exact h3 hh
    refine ⟨_, h, ?_, fun _ => ⟨rfl, ?_⟩, fun h4 => absurd h3' h4⟩
    · simp [Outcome.state, count, List.countP_append, List.countP_cons, Event.is_submit,
        State.ubo_event, State.acquire_event, State.submit_event, State.present_event]
    · simp [Outcome.state, State.since, State.ubo_event, State.acquire_event,
        State.submit_event, State.present_event, h3']

/-- C20, amended, on the swapchain built by `setup_device` for a driver that never
fails and for a queue that refuses every submission. -/
theorem draw_frame_submission_and_present_witness :
    State.ready.m_was_resized = false
    ∧ (Driver.steady 2 3).acquire (count Event.is_acquire State.ready) = (VK_SUCCESS, 0)
    ∧ State.ready.m_command_buffers[0]? = some 25
    ∧ (∃ o, draw_frame (Driver.steady 2 3) 1 State.ready = some o
      ∧ o.failure = none
      ∧ o.state.since State.ready =
          [Event.update_ubo { width := 800, height := 600 },
           Event.acquire 2 19 VK_SUCCESS 0,
           Event.submit 1 25 19 VK_PIPELINE_STAGE_COLOR_ATTACHMENT_OUTPUT_BIT 20 VK_SUCCESS,
           Event.present 1 2 0 20 VK_SUCCESS])
    ∧ ∃ o, draw_frame Driver.submit_refused 1 State.ready = some o
      ∧ o.failure = some (Abort.exception Exn.SubmitFailed)
      ∧ o.state.since State.ready =
          [Event.update_ubo { width := 800, height := 600 },
           Event.acquire 2 19 VK_SUCCESS 0,
           Event.submit 1 25 19 VK_PIPELINE_STAGE_COLOR_ATTACHMENT_OUTPUT_BIT 20
             VK_ERROR_DEVICE_LOST] := by
  obtain ⟨o1, h1, _, p1, _⟩ := draw_frame_submission_and_present (Driver.steady 2 3) 0
    State.ready VK_SUCCESS 0 25 (by decide) (by decide) (Or.inl rfl) (by decide)
  obtain ⟨o2, h2, _, _, p2⟩ := draw_frame_submission_and_present Driver.submit_refused 0
    State.ready VK_SUCCESS 0 25 (by decide) (by decide) (Or.inl rfl) (by decide)
  exact ⟨by decide, by decide, by decide, ⟨o1, h1, p1 (by decide)⟩, ⟨o2, h2, p2 (by decide)⟩⟩

/-! ## Claim C19: the wait of the loop -/

end VulkanTriangle
